import Mathlib

/-!
# LEDHandler

A shallow embedding of `Src/Modules/BehaviorControl/LEDHandler/LEDHandler.cpp`
(the module that computes the `LEDRequest` of a NAO robot from the game and
robot state) together with theorems about the vector one call of
`LEDHandler::update` produces.

* `LEDRequest.ledStates` is a map from LED index to `LEDState`; an assignment
  `ledRequest.ledStates[i] = s` is `setLed`.
* A counting `for` loop is `forLoop`.
* `FAIL("Unknown color.")` aborts: `setEyeColor` and its callers return `Option`.
* The member `chargingLED` is threaded through `setHead` and `update`.
* Declarations of the headers that are not part of the sources (`LEDRequest.h`,
  `LEDHandler.h`, `RoboCupGameControlData.h`, ...) are modelled and marked so;
  the module parameters and the table `headLEDCircle` are fields of `Config`.
-/

namespace LEDRequest

/-- Modelled from the spec: the enumeration `LEDRequest::LEDState` of `LEDRequest.h`
(not among the sources); the five light states of spec section 3. -/
inductive LEDState where
  | off
  | on
  | blinking
  | fastBlinking
  | half
  deriving DecidableEq, Repr

/-! A value of the enumeration `LEDRequest::LED` of `LEDRequest.h` (not among the sources)
is represented by its index, a natural number. The groups and their sizes are those of
spec section 3: per eye three channels of 8 cells, per ear 10 cells, 3 chest cells,
12 head cells, 3 cells per foot. -/

/-- Modelled from the spec: first red cell of the left eye (`LEDRequest.h` is missing). -/
@[simp] def faceLeftRed0Deg : Nat := 0
/-- Modelled from the spec: last red cell of the left eye (`LEDRequest.h` is missing). -/
@[simp] def faceLeftRed315Deg : Nat := 7
/-- Modelled from the spec: first green cell of the left eye (`LEDRequest.h` is missing). -/
@[simp] def faceLeftGreen0Deg : Nat := 8
/-- Modelled from the spec: first blue cell of the left eye (`LEDRequest.h` is missing). -/
@[simp] def faceLeftBlue0Deg : Nat := 16
/-- Modelled from the spec: first red cell of the right eye (`LEDRequest.h` is missing). -/
@[simp] def faceRightRed0Deg : Nat := 24
/-- Modelled from the spec: first green cell of the right eye (`LEDRequest.h` is missing). -/
@[simp] def faceRightGreen0Deg : Nat := 32
/-- Modelled from the spec: first blue cell of the right eye (`LEDRequest.h` is missing). -/
@[simp] def faceRightBlue0Deg : Nat := 40
/-- Modelled from the spec: left-ear cell at 0 degrees (`LEDRequest.h` is missing). -/
@[simp] def earsLeft0Deg : Nat := 48
/-- Modelled from the spec: left-ear cell at 36 degrees (`LEDRequest.h` is missing). -/
@[simp] def earsLeft36Deg : Nat := 49
/-- Modelled from the spec: left-ear cell at 72 degrees (`LEDRequest.h` is missing). -/
@[simp] def earsLeft72Deg : Nat := 50
/-- Modelled from the spec: left-ear cell at 108 degrees (`LEDRequest.h` is missing). -/
@[simp] def earsLeft108Deg : Nat := 51
/-- Modelled from the spec: left-ear cell at 144 degrees (`LEDRequest.h` is missing). -/
@[simp] def earsLeft144Deg : Nat := 52
/-- Modelled from the spec: left-ear cell at 180 degrees (`LEDRequest.h` is missing). -/
@[simp] def earsLeft180Deg : Nat := 53
/-- Modelled from the spec: left-ear cell at 216 degrees (`LEDRequest.h` is missing). -/
@[simp] def earsLeft216Deg : Nat := 54
/-- Modelled from the spec: left-ear cell at 252 degrees (`LEDRequest.h` is missing). -/
@[simp] def earsLeft252Deg : Nat := 55
/-- Modelled from the spec: left-ear cell at 288 degrees (`LEDRequest.h` is missing). -/
@[simp] def earsLeft288Deg : Nat := 56
/-- Modelled from the spec: left-ear cell at 324 degrees (`LEDRequest.h` is missing). -/
@[simp] def earsLeft324Deg : Nat := 57
/-- Modelled from the spec: first of the 10 right-ear cells (`LEDRequest.h` is missing). -/
@[simp] def earsRight0Deg : Nat := 58
/-- Modelled from the spec: red chest cell (`LEDRequest.h` is missing). -/
@[simp] def chestRed : Nat := 68
/-- Modelled from the spec: green chest cell (`LEDRequest.h` is missing). -/
@[simp] def chestGreen : Nat := 69
/-- Modelled from the spec: blue chest cell (`LEDRequest.h` is missing). -/
@[simp] def chestBlue : Nat := 70
/-- Modelled from the spec: head-ring cell (`LEDRequest.h` is missing). -/
@[simp] def headRearLeft0 : Nat := 71
/-- Modelled from the spec: head-ring cell (`LEDRequest.h` is missing). -/
@[simp] def headRearLeft1 : Nat := 72
/-- Modelled from the spec: head-ring cell (`LEDRequest.h` is missing). -/
@[simp] def headRearLeft2 : Nat := 73
/-- Modelled from the spec: head-ring cell (`LEDRequest.h` is missing). -/
@[simp] def headRearRight0 : Nat := 74
/-- Modelled from the spec: head-ring cell (`LEDRequest.h` is missing). -/
@[simp] def headRearRight1 : Nat := 75
/-- Modelled from the spec: head-ring cell (`LEDRequest.h` is missing). -/
@[simp] def headRearRight2 : Nat := 76
/-- Modelled from the spec: head-ring cell (`LEDRequest.h` is missing). -/
@[simp] def headMiddleRight0 : Nat := 77
/-- Modelled from the spec: head-ring cell (`LEDRequest.h` is missing). -/
@[simp] def headFrontRight0 : Nat := 78
/-- Modelled from the spec: head-ring cell (`LEDRequest.h` is missing). -/
@[simp] def headFrontRight1 : Nat := 79
/-- Modelled from the spec: head-ring cell (`LEDRequest.h` is missing). -/
@[simp] def headFrontLeft0 : Nat := 80
/-- Modelled from the spec: head-ring cell (`LEDRequest.h` is missing). -/
@[simp] def headFrontLeft1 : Nat := 81
/-- Modelled from the spec: head-ring cell (`LEDRequest.h` is missing). -/
@[simp] def headMiddleLeft0 : Nat := 82
/-- Modelled from the spec: red cell of the left foot (`LEDRequest.h` is missing). -/
@[simp] def footLeftRed : Nat := 83
/-- Modelled from the spec: green cell of the left foot (`LEDRequest.h` is missing). -/
@[simp] def footLeftGreen : Nat := 84
/-- Modelled from the spec: blue cell of the left foot (`LEDRequest.h` is missing). -/
@[simp] def footLeftBlue : Nat := 85
/-- Modelled from the spec: red cell of the right foot (`LEDRequest.h` is missing). -/
@[simp] def footRightRed : Nat := 86
/-- Modelled from the spec: green cell of the right foot (`LEDRequest.h` is missing). -/
@[simp] def footRightGreen : Nat := 87
/-- Modelled from the spec: blue cell of the right foot (`LEDRequest.h` is missing). -/
@[simp] def footRightBlue : Nat := 88
/-- Modelled from the spec: the number of enumerators of `LEDRequest::LED`, the bound of
`FOREACH_ENUM(LEDRequest::LED, led)` (`LEDRequest.h` is missing). -/
@[simp] def numOfLEDs : Nat := 89
/-- Modelled from the spec: `LEDRequest::firstHeadLED` (`LEDRequest.h` is missing); the
source walks the head ring both from `headRearLeft0` and from `firstHeadLED`. -/
@[simp] def firstHeadLED : Nat := headRearLeft0
/-- Modelled from the spec: `LEDRequest::lastHeadLED` (`LEDRequest.h` is missing). -/
@[simp] def lastHeadLED : Nat := headMiddleLeft0
/-- Modelled from the spec: `LEDRequest::numOfHeadLEDs`, the size of the head ring
(`LEDRequest.h` is missing). -/
@[simp] def numOfHeadLEDs : Nat := lastHeadLED - firstHeadLED + 1

end LEDRequest

open LEDRequest

/-- The member `ledStates` of a `LEDRequest`: one state per LED index. -/
abbrev LEDRequest.LedStates := Nat → LEDState

/-- Modelled from the spec: `STATE_INITIAL` of `RoboCupGameControlData.h` (not among the sources). -/
@[simp] def STATE_INITIAL : Nat := 0
/-- Modelled from the spec: `STATE_READY` of `RoboCupGameControlData.h` (not among the sources). -/
@[simp] def STATE_READY : Nat := 1
/-- Modelled from the spec: `STATE_SET` of `RoboCupGameControlData.h` (not among the sources). -/
@[simp] def STATE_SET : Nat := 2
/-- Modelled from the spec: `STATE_PLAYING` of `RoboCupGameControlData.h` (not among the sources). -/
@[simp] def STATE_PLAYING : Nat := 3
/-- Modelled from the spec: `STATE_FINISHED` of `RoboCupGameControlData.h` (not among the sources). -/
@[simp] def STATE_FINISHED : Nat := 4
/-- Modelled from the spec: `STATE_STANDBY` of `RoboCupGameControlData.h` (not among the sources). -/
@[simp] def STATE_STANDBY : Nat := 5
/-- Modelled from the spec: `GAME_PHASE_PENALTYSHOOT` of `RoboCupGameControlData.h` (not among the sources). -/
@[simp] def GAME_PHASE_PENALTYSHOOT : Nat := 1
/-- Modelled from the spec: `PENALTY_NONE` of `RoboCupGameControlData.h` (not among the sources). -/
@[simp] def PENALTY_NONE : Nat := 0
/-- Modelled from the spec: `TEAM_BLUE` of `RoboCupGameControlData.h` (not among the sources). -/
@[simp] def TEAM_BLUE : Nat := 0
/-- Modelled from the spec: `TEAM_RED` of `RoboCupGameControlData.h` (not among the sources). -/
@[simp] def TEAM_RED : Nat := 1
/-- Modelled from the spec: `TEAM_YELLOW` of `RoboCupGameControlData.h` (not among the sources). -/
@[simp] def TEAM_YELLOW : Nat := 2
/-- Modelled from the spec: `TEAM_BLACK` of `RoboCupGameControlData.h` (not among the sources). -/
@[simp] def TEAM_BLACK : Nat := 3
/-- Modelled from the spec: `TEAM_WHITE` of `RoboCupGameControlData.h` (not among the sources). -/
@[simp] def TEAM_WHITE : Nat := 4
/-- Modelled from the spec: `TEAM_GREEN` of `RoboCupGameControlData.h` (not among the sources). -/
@[simp] def TEAM_GREEN : Nat := 5
/-- Modelled from the spec: `TEAM_ORANGE` of `RoboCupGameControlData.h` (not among the sources). -/
@[simp] def TEAM_ORANGE : Nat := 6
/-- Modelled from the spec: `TEAM_PURPLE` of `RoboCupGameControlData.h` (not among the sources). -/
@[simp] def TEAM_PURPLE : Nat := 7
/-- Modelled from the spec: `TEAM_BROWN` of `RoboCupGameControlData.h` (not among the sources). -/
@[simp] def TEAM_BROWN : Nat := 8
/-- Modelled from the spec: `TEAM_GRAY` of `RoboCupGameControlData.h` (not among the sources). -/
@[simp] def TEAM_GRAY : Nat := 9

namespace RobotInfo

/-- Modelled from the spec: the enumeration `RobotInfo::Mode` (`RobotInfo.h` is not among the
sources): the modes the source names, and `other` for every further value, which the
`switch` of `setChestButton` sends to `default`. -/
inductive Mode where
  | unstiff
  | active
  | calibration
  | other (n : Nat)
  deriving DecidableEq, Repr

end RobotInfo

namespace PlayerRole

/-- Modelled from the spec: the enumeration `PlayerRole::RoleType` (`PlayerRole.h` is not
among the sources): the eight roles `setRightEye` names, and `other` for every role outside
its table (undefined, goalie, ...). -/
inductive RoleType where
  | striker
  | libero
  | supporter
  | jolly
  | defenderone
  | defendertwo
  | passiveSearcher
  | activeSearcher
  | other (n : Nat)
  deriving DecidableEq, Repr

end PlayerRole

namespace LEDHandler

/-- Modelled from the spec: the enumeration `LEDHandler::EyeColor` (`LEDHandler.h` is not
among the sources): the seven colours of spec section 4.1, and `unknown` for any other value,
which the `switch` of `setEyeColor` sends to `default`. -/
inductive EyeColor where
  | red
  | green
  | blue
  | white
  | magenta
  | yellow
  | cyan
  | unknown (n : Nat)
  deriving DecidableEq, Repr

/-- The parameters and the table of the module, declared in `LEDHandler.h` (not among the
sources) and therefore left open. -/
structure Config where
  /-- The parameter `gameControllerTimeOut` (compared with an `int` number of milliseconds). -/
  gameControllerTimeOut : Int
  /-- The parameter `chargingLightSlowness`. -/
  chargingLightSlowness : Nat
  /-- The parameter `outOfPacketsLightSlowness`. -/
  outOfPacketsLightSlowness : Nat
  /-- The table `headLEDCircle`, read at an index below `numOfHeadLEDs`. -/
  headLEDCircle : Nat → Nat

/-- What the source relies on without checking: the divisor `chargingLightSlowness` and the
divisor `outOfPacketsLightSlowness` are positive, and the `numOfHeadLEDs` entries of
`headLEDCircle` are LEDs of the head ring. -/
def Config.WellFormed (cfg : Config) : Prop :=
  0 < cfg.chargingLightSlowness ∧ 0 < cfg.outOfPacketsLightSlowness ∧
    ∀ k, k < numOfHeadLEDs → firstHeadLED ≤ cfg.headLEDCircle k ∧ cfg.headLEDCircle k ≤ lastHeadLED

instance (cfg : Config) : Decidable cfg.WellFormed :=
  inferInstanceAs (Decidable (0 < cfg.chargingLightSlowness ∧ 0 < cfg.outOfPacketsLightSlowness ∧
    ∀ k, k < numOfHeadLEDs → firstHeadLED ≤ cfg.headLEDCircle k ∧ cfg.headLEDCircle k ≤ lastHeadLED))

/-- The facts `update` reads from the representations it requires, one snapshot per cycle
(spec section 3). An elapsed time is the value of `theFrameInfo.getTimeSince(...)`, an `int`
number of milliseconds. -/
structure Input where
  /-- The value `theFrameInfo.getTimeSince(theGameInfo.timeLastPacketReceived)`. -/
  timeSinceLastPacket : Int
  /-- The value `theFrameInfo.getTimeSince(theBallModel.timeWhenLastSeen)`. -/
  timeSinceBallSeen : Int
  /-- The value `theFrameInfo.getTimeSince(theFieldFeatureOverview.combinedStatus.lastSeen)`. -/
  timeSinceFeatureSeen : Int
  /-- The value `theFrameInfo.getTimeSince(theWhistle.lastTimeWhistleDetected)`. -/
  timeSinceWhistle : Int
  /-- The field `theFrameInfo.time` (unsigned). -/
  time : Nat
  /-- The battery level. The field `theSystemSensorData.batteryLevel` is a `float`: it holds
  `binary32Round` of this value, which is the value itself when that is a binary32 number. -/
  batteryLevel : ℚ
  /-- The field `theSystemSensorData.batteryCharging`. -/
  batteryCharging : Bool
  /-- The value `theTeamData.teammates.size()`. -/
  numberOfTeammates : Nat
  /-- The field `theGroundContactState.contact`. -/
  contact : Bool
  /-- The field `theRefereeEstimator.measures`. -/
  measures : Int
  /-- The field `theGameInfo.state`. -/
  state : Nat
  /-- The field `theGameInfo.gamePhase`. -/
  gamePhase : Nat
  /-- The field `theGameInfo.kickingTeam`. -/
  kickingTeam : Nat
  /-- The field `theOwnTeamInfo.teamNumber`. -/
  teamNumber : Nat
  /-- The field `theOwnTeamInfo.fieldPlayerColour`. -/
  fieldPlayerColour : Nat
  /-- The field `theRobotInfo.mode`. -/
  mode : RobotInfo.Mode
  /-- The field `theRobotInfo.penalty`. -/
  penalty : Nat
  /-- The field `theMessageManagement.outOfPackets`. -/
  outOfPackets : Bool
  /-- The field `thePlayerRole.role`. -/
  role : PlayerRole.RoleType

/-- The assignment `ledRequest.ledStates[i] = s`. -/
def setLed (v : LedStates) (i : Nat) (s : LEDState) : LedStates :=
  fun j => if j = i then s else v j

/-- The loop `for(i = 0; i < n; i++) body`: `body 0` runs first, `body (n - 1)` last. -/
def forLoop : Nat → (Nat → LedStates → LedStates) → LedStates → LedStates
  | 0, _, v => v
  | n + 1, body, v => body n (forLoop n body v)

/-! The type `float` is IEEE 754 binary32: 24 significant bits, exponents from -126 to 127,
results rounded to the nearest value with ties to the even significand. A finite `float` is
modelled by its exact rational value, a value of type `float` by `Option ℚ`, where `none` is an
infinity (the computation here never meets a NaN). -/

/-- The literal `0.1f`: the binary32 number nearest to one tenth, 13421773 / 2^27. -/
def pointOneF : ℚ := 13421773 / 134217728

/-- Rounding of a rational to the nearest integer, a tie going to the even integer. -/
def roundHalfEven (x : ℚ) : Int :=
  if x - Int.floor x < 1 / 2 then Int.floor x
  else if 1 / 2 < x - Int.floor x then Int.floor x + 1
  else if Int.floor x % 2 = 0 then Int.floor x
  else Int.floor x + 1

/-- The binary32 exponent of a rational: the `e` with `2^e ≤ |q| < 2^(e+1)`, raised to -126
for the subnormal range (and for 0, where it does not matter). -/
def binary32Exponent (q : ℚ) : Int :=
  max (Int.log 2 |q|) (-126)

/-- The multiple of the spacing `2^(e-23)` of binary32 numbers around `q` that is nearest to
`q`, ties to even, with no bound on the exponent from above. -/
def binary32Nearest (q : ℚ) : ℚ :=
  (roundHalfEven (q / 2 ^ (binary32Exponent q - 23)) : ℚ) * 2 ^ (binary32Exponent q - 23)

/-- Rounding to binary32 (round to nearest, ties to even): the nearest value, or an infinity
when that reaches `2^128`, beyond the largest finite `float`. -/
def binary32Round (q : ℚ) : Option ℚ :=
  if 2 ^ 128 ≤ |binary32Nearest q| then none else some (binary32Nearest q)

/-- The `float` division `a / b` by a finite `b` that is not zero: the exact quotient rounded
to binary32; an infinite `a` gives an infinity. -/
def floatDiv (a : Option ℚ) (b : ℚ) : Option ℚ :=
  a.bind (fun x => binary32Round (x / b))

/-- The conversion `static_cast<int>` of a `float`: truncation towards zero. For a value
outside the range of `int`, and for an infinity, C++ leaves the result undefined; the
conversion instruction of the x86-64 target then returns `-2^31`, and so does the model. -/
def truncToInt (x : Option ℚ) : Int :=
  match x with
  | none => -2 ^ 31
  | some q =>
    let t : Int := if 0 ≤ q then Int.floor q else Int.ceil q
    if -2 ^ 31 ≤ t ∧ t < 2 ^ 31 then t else -2 ^ 31

/-- The local constant `redOffset` of `setEyeColor`. -/
@[simp] def redOffset : Nat := 0
/-- The local constant `greenOffset` of `setEyeColor`. -/
@[simp] def greenOffset : Nat := faceLeftGreen0Deg - faceLeftRed0Deg
/-- The local constant `blueOffset` of `setEyeColor`. -/
@[simp] def blueOffset : Nat := faceLeftBlue0Deg - faceLeftRed0Deg
/-- The local constant `numOfLEDsPerColor` of `setEyeColor` (one less than the number of cells). -/
@[simp] def numOfLEDsPerColor : Nat := faceLeftRed315Deg - faceLeftRed0Deg

/-- The loop `for(int i = 0; i <= numOfLEDsPerColor; i++) ledStates[first + offset + i] = s`. -/
def fillChannel (v : LedStates) (first offset : Nat) (s : LEDState) : LedStates :=
  forLoop (numOfLEDsPerColor + 1) (fun i w => setLed w (first + offset + i) s) v

/-- The function `LEDHandler::setEyeColor`; `none` is the abort of `FAIL("Unknown color.")`. -/
def setEyeColor (ledRequest : LedStates) (left : Bool) (col : EyeColor) (s : LEDState) :
    Option LedStates :=
  let first := if left then faceLeftRed0Deg else faceRightRed0Deg
  let halfState := if s = LEDState.off then LEDState.off else LEDState.half
  match col with
  | .red => some (fillChannel ledRequest first redOffset s)
  | .green => some (fillChannel ledRequest first greenOffset s)
  | .blue => some (fillChannel ledRequest first blueOffset s)
  | .white =>
    some (fillChannel (fillChannel (fillChannel ledRequest first redOffset s)
      first greenOffset s) first blueOffset s)
  | .magenta => some (fillChannel (fillChannel ledRequest first redOffset halfState) first blueOffset s)
  | .yellow => some (fillChannel (fillChannel ledRequest first greenOffset halfState) first redOffset s)
  | .cyan => some (fillChannel (fillChannel ledRequest first greenOffset halfState) first blueOffset s)
  | .unknown _ => none

/-- The function `LEDHandler::setBatteryLevelInEar`: the `float` in the battery-level field
is divided by `0.1f` in `float` arithmetic and the quotient converted to `int`. -/
def setBatteryLevelInEar (inp : Input) (ledRequest : LedStates) (baseLED : Nat) : LedStates :=
  let onLEDs : Int :=
    min (truncToInt (floatDiv (binary32Round inp.batteryLevel) pointOneF)) 9
  forLoop (onLEDs + 1).toNat (fun i w => setLed w (baseLED + i) LEDState.on) ledRequest

/-- The function `LEDHandler::setRightEar`. -/
def setRightEar (inp : Input) (ledRequest : LedStates) : LedStates :=
  setBatteryLevelInEar inp ledRequest earsRight0Deg

/-- The function `LEDHandler::setLeftEar`. The local `numberOfConnectedTeammates` is the size
of the teammate list cast to `int`; the cast is exact for the size of a team. -/
def setLeftEar (cfg : Config) (inp : Input) (ledRequest : LedStates) : LedStates :=
  let v0 :=
    if inp.timeSinceLastPacket > cfg.gameControllerTimeOut then
      setLed (setLed ledRequest earsLeft324Deg LEDState.blinking) earsLeft144Deg LEDState.blinking
    else ledRequest
  let numberOfConnectedTeammates := inp.numberOfTeammates
  let v1 :=
    if numberOfConnectedTeammates > 0 then
      setLed (setLed v0 earsLeft0Deg LEDState.on) earsLeft36Deg LEDState.on
    else v0
  let v2 :=
    if numberOfConnectedTeammates > 1 then
      setLed (setLed v1 earsLeft72Deg LEDState.on) earsLeft108Deg LEDState.on
    else v1
  let v3 :=
    if numberOfConnectedTeammates > 2 then
      setLed (setLed v2 earsLeft180Deg LEDState.on) earsLeft216Deg LEDState.on
    else v2
  if numberOfConnectedTeammates > 3 then
    setLed (setLed v3 earsLeft252Deg LEDState.on) earsLeft288Deg LEDState.on
  else v3

/-- The function `LEDHandler::setLeftEye`. -/
def setLeftEye (inp : Input) (ledRequest : LedStates) : Option LedStates :=
  if !inp.contact then
    setEyeColor ledRequest true EyeColor.yellow LEDState.on
  else if inp.state = STATE_STANDBY then
    if inp.measures > 0 then
      setEyeColor ledRequest true EyeColor.green LEDState.on
    else
      setEyeColor ledRequest true EyeColor.red LEDState.on
  else
    let ballSeen := decide (inp.timeSinceBallSeen < 250)
    let featureSeen := decide (inp.timeSinceFeatureSeen < 250)
    if ballSeen && featureSeen then
      setEyeColor ledRequest true EyeColor.red LEDState.on
    else if ballSeen then
      setEyeColor ledRequest true EyeColor.white LEDState.on
    else if featureSeen then
      setEyeColor ledRequest true EyeColor.blue LEDState.on
    else some ledRequest

/-- The function `LEDHandler::setWhistleLeds`. -/
def setWhistleLeds (inp : Input) (ledRequest : LedStates) : LedStates :=
  if inp.timeSinceWhistle < 200 then
    let v0 := forLoop 10 (fun i w =>
      setLed (setLed w (earsRight0Deg + i) LEDState.fastBlinking)
        (earsLeft0Deg + i) LEDState.fastBlinking) ledRequest
    let v1 := forLoop (headMiddleLeft0 + 1 - headRearLeft0)
      (fun i w => setLed w (headRearLeft0 + i) LEDState.fastBlinking) v0
    setLed (setLed v1 chestRed LEDState.fastBlinking) chestGreen LEDState.fastBlinking
  else ledRequest

/-- The function `LEDHandler::setRightEye`. In the standby branch the source passes
`true` for the parameter `left` of `setEyeColor`. -/
def setRightEye (inp : Input) (ledRequest : LedStates) : Option LedStates :=
  if inp.state = STATE_STANDBY then
    if inp.measures > 0 then
      setEyeColor ledRequest true EyeColor.green LEDState.on
    else
      setEyeColor ledRequest true EyeColor.red LEDState.on
  else
    match inp.role with
    | .striker => setEyeColor ledRequest false EyeColor.red LEDState.on
    | .libero => setEyeColor ledRequest false EyeColor.white LEDState.on
    | .supporter => setEyeColor ledRequest false EyeColor.green LEDState.on
    | .jolly => setEyeColor ledRequest false EyeColor.yellow LEDState.on
    | .defenderone => setEyeColor ledRequest false EyeColor.blue LEDState.on
    | .defendertwo => setEyeColor ledRequest false EyeColor.cyan LEDState.on
    | .passiveSearcher => setEyeColor ledRequest false EyeColor.magenta LEDState.on
    | .activeSearcher => setEyeColor ledRequest false EyeColor.magenta LEDState.on
    | .other _ => setEyeColor ledRequest false EyeColor.white LEDState.off

/-- The loop `for(i = first; i <= last; i++) ledStates[i] = off` over the head ring. -/
def clearHead (v : LedStates) (first last : Nat) : LedStates :=
  forLoop (last + 1 - first) (fun k w => setLed w (first + k) LEDState.off) v

/-- The function `LEDHandler::setHead`, with the member `chargingLED` passed in and out. -/
def setHead (cfg : Config) (inp : Input) (chargingLED : Nat) (ledRequest : LedStates) :
    Nat × LedStates :=
  let v0 := clearHead ledRequest headRearLeft0 headMiddleLeft0
  if inp.batteryCharging then
    let v1 := clearHead v0 firstHeadLED lastHeadLED
    let chargingLED1 := (chargingLED + 1) % (numOfHeadLEDs * cfg.chargingLightSlowness)
    let currentLED := cfg.headLEDCircle (chargingLED1 / cfg.chargingLightSlowness)
    let nextLED := cfg.headLEDCircle ((chargingLED1 / cfg.chargingLightSlowness + 1) % numOfHeadLEDs)
    (chargingLED1, setLed (setLed v1 currentLED LEDState.on) nextLED LEDState.on)
  else if inp.outOfPackets && decide (inp.state = STATE_PLAYING) then
    let v1 := clearHead v0 firstHeadLED lastHeadLED
    let anim_frame := (inp.time / cfg.outOfPacketsLightSlowness) % 3
    match anim_frame with
    | 0 =>
      (chargingLED, setLed (setLed (setLed (setLed v1 headFrontLeft1 LEDState.on)
        headFrontRight1 LEDState.on) headRearLeft2 LEDState.on) headRearRight2 LEDState.on)
    | 1 =>
      (chargingLED, setLed (setLed (setLed (setLed v1 headFrontLeft0 LEDState.on)
        headFrontRight0 LEDState.on) headRearLeft1 LEDState.on) headRearRight1 LEDState.on)
    | 2 =>
      (chargingLED, setLed (setLed (setLed (setLed v1 headMiddleLeft0 LEDState.on)
        headMiddleRight0 LEDState.on) headRearLeft0 LEDState.on) headRearRight0 LEDState.on)
    | _ => (chargingLED, v1)
  else (chargingLED, v0)

/-- The function `LEDHandler::setChestButton`. -/
def setChestButton (inp : Input) (ledRequest : LedStates) : LedStates :=
  match inp.mode with
  | .unstiff => setLed ledRequest chestBlue LEDState.blinking
  | .calibration => setLed (setLed ledRequest chestRed LEDState.on) chestBlue LEDState.on
  | _ =>
    if inp.penalty ≠ PENALTY_NONE then
      setLed ledRequest chestRed LEDState.on
    else if inp.state = STATE_STANDBY then
      setLed (setLed ledRequest chestGreen LEDState.on) chestBlue LEDState.on
    else if inp.state = STATE_READY then
      setLed ledRequest chestBlue LEDState.on
    else if inp.state = STATE_SET then
      setLed (setLed ledRequest chestRed LEDState.on) chestGreen LEDState.half
    else if inp.state = STATE_PLAYING then
      setLed ledRequest chestGreen LEDState.on
    else ledRequest

/-- The function `LEDHandler::setLeftFoot`; a `case` without `break` runs on into the next. -/
def setLeftFoot (inp : Input) (ledRequest : LedStates) : LedStates :=
  let c := inp.fieldPlayerColour
  if c = TEAM_ORANGE then
    setLed (setLed ledRequest footLeftGreen LEDState.half) footLeftRed LEDState.on
  else if c = TEAM_RED then
    setLed ledRequest footLeftRed LEDState.on
  else if c = TEAM_WHITE then
    setLed (setLed (setLed ledRequest footLeftBlue LEDState.on) footLeftRed LEDState.on)
      footLeftGreen LEDState.on
  else if c = TEAM_YELLOW then
    setLed (setLed ledRequest footLeftRed LEDState.on) footLeftGreen LEDState.on
  else if c = TEAM_GREEN then
    setLed ledRequest footLeftGreen LEDState.on
  else if c = TEAM_PURPLE then
    setLed (setLed ledRequest footLeftRed LEDState.on) footLeftBlue LEDState.on
  else if c = TEAM_BLUE then
    setLed ledRequest footLeftBlue LEDState.on
  else if c = TEAM_GRAY then
    setLed (setLed (setLed ledRequest footLeftBlue LEDState.half) footLeftRed LEDState.half)
      footLeftGreen LEDState.half
  else if c = TEAM_BROWN then
    setLed (setLed ledRequest footLeftRed LEDState.half) footLeftGreen LEDState.half
  else ledRequest

/-- The function `LEDHandler::setRightFoot`. -/
def setRightFoot (cfg : Config) (inp : Input) (ledRequest : LedStates) : LedStates :=
  if inp.state = STATE_INITIAL ∧ inp.gamePhase = GAME_PHASE_PENALTYSHOOT ∧
      inp.kickingTeam = inp.teamNumber then
    setLed ledRequest footRightGreen LEDState.on
  else if inp.state = STATE_INITIAL ∧ inp.gamePhase = GAME_PHASE_PENALTYSHOOT ∧
      inp.kickingTeam ≠ inp.teamNumber then
    setLed (setLed ledRequest footRightRed LEDState.on) footRightGreen LEDState.on
  else if inp.timeSinceLastPacket < cfg.gameControllerTimeOut ∧ inp.state ≤ STATE_SET ∧
      inp.kickingTeam = inp.teamNumber then
    setLed (setLed (setLed ledRequest footRightRed LEDState.on) footRightGreen LEDState.on)
      footRightBlue LEDState.on
  else ledRequest

/-- The reset `FOREACH_ENUM(LEDRequest::LED, led) ledRequest.ledStates[led] = LEDRequest::off`. -/
def resetLeds (ledRequest : LedStates) : LedStates :=
  forLoop numOfLEDs (fun led w => setLed w led LEDState.off) ledRequest

/-- The function `LEDHandler::update`: the new value of `chargingLED` and the vector written
into `ledRequest`, or `none` when `setEyeColor` aborts. -/
def update (cfg : Config) (inp : Input) (chargingLED : Nat) (ledRequest : LedStates) :
    Option (Nat × LedStates) := do
  let v0 := resetLeds ledRequest
  let v1 ← setRightEye inp v0
  let v2 ← setLeftEye inp v1
  let v3 := setChestButton inp v2
  let v4 := setLeftFoot inp v3
  let v5 := setRightFoot cfg inp v4
  let v6 := setWhistleLeds inp v5
  let v7 := setRightEar inp v6
  let v8 := setLeftEar cfg inp v7
  pure (setHead cfg inp chargingLED v8)

end LEDHandler

namespace LEDHandler

/-! ## Definitions used to state the properties -/

/-- The right-eye colour table as spec section 4.2 words it: the colour of each role of the
table, `none` for a role outside the table. -/
def specRoleColour : PlayerRole.RoleType → Option EyeColor
  | .striker => some EyeColor.red
  | .libero => some EyeColor.white
  | .supporter => some EyeColor.green
  | .jolly => some EyeColor.yellow
  | .defenderone => some EyeColor.blue
  | .defendertwo => some EyeColor.cyan
  | .passiveSearcher => some EyeColor.magenta
  | .activeSearcher => some EyeColor.magenta
  | .other _ => none

/-- The number of cells among `base`, ..., `base + n - 1` that are on. -/
def countOn (v : LedStates) (base : Nat) : Nat → Nat
  | 0 => 0
  | n + 1 => countOn v base n + (if v (base + n) = LEDState.on then 1 else 0)

/-- The left-foot composite as the claim lists it, as a triple (red, green, blue) of the
three left-foot cells: white is blue and red on with green off, yellow is red on alone. -/
def specLeftFootListed (colour : Nat) : LEDState × LEDState × LEDState :=
  if colour = TEAM_ORANGE then (LEDState.on, LEDState.half, LEDState.off)
  else if colour = TEAM_RED then (LEDState.on, LEDState.off, LEDState.off)
  else if colour = TEAM_WHITE then (LEDState.on, LEDState.off, LEDState.on)
  else if colour = TEAM_YELLOW then (LEDState.on, LEDState.off, LEDState.off)
  else if colour = TEAM_GREEN then (LEDState.off, LEDState.on, LEDState.off)
  else if colour = TEAM_PURPLE then (LEDState.on, LEDState.off, LEDState.on)
  else if colour = TEAM_BLUE then (LEDState.off, LEDState.off, LEDState.on)
  else if colour = TEAM_GRAY then (LEDState.half, LEDState.half, LEDState.half)
  else if colour = TEAM_BROWN then (LEDState.half, LEDState.half, LEDState.off)
  else (LEDState.off, LEDState.off, LEDState.off)

/-- The channel writes of the compositor as spec section 4.1 lists them: for a colour and a
base intensity the state written to the red, the green and the blue channel (`none` for a
channel that is not written, and for a colour outside the list); `h` is half if the base
intensity is on and off otherwise. -/
def specChannels (col : EyeColor) (s : LEDState) :
    Option (Option LEDState × Option LEDState × Option LEDState) :=
  let h := if s = LEDState.on then LEDState.half else LEDState.off
  match col with
  | .red => some (some s, none, none)
  | .green => some (none, some s, none)
  | .blue => some (none, none, some s)
  | .white => some (some s, some s, some s)
  | .magenta => some (some h, none, some s)
  | .yellow => some (some s, some h, none)
  | .cyan => some (none, some h, some s)
  | .unknown _ => none

/-- Consecutive calls of `update`: call number `t`, counted from 0, reads the snapshot
`inps t`; the counter and the vector a call leaves are what the next call finds. -/
def runUpdates (cfg : Config) (inps : Nat → Input) :
    Nat → Nat × LedStates → Option (Nat × LedStates)
  | 0, st => some st
  | n + 1, st => (runUpdates cfg inps n st).bind (fun s => update cfg (inps n) s.1 s.2)

/-- The table `headLEDCircle` of a sample configuration: the head ring walked once around. -/
def sampleHeadLEDCircle (k : Nat) : Nat :=
  [headRearLeft2, headRearLeft1, headRearLeft0, headMiddleLeft0, headFrontLeft0, headFrontLeft1,
    headFrontRight1, headFrontRight0, headMiddleRight0, headRearRight0, headRearRight1,
    headRearRight2].getD k headRearLeft2

/-- A sample configuration: a time-out of 2000 ms and both slowness factors 5. -/
def sampleConfig : Config :=
  { gameControllerTimeOut := 2000
    chargingLightSlowness := 5
    outOfPacketsLightSlowness := 5
    headLEDCircle := sampleHeadLEDCircle }

/-- A sample snapshot: a striker of team 1 in white while playing, ball seen 50 ms ago, no
field feature for 500 ms, two teammates, battery at 82 percent, no whistle. -/
def sampleInput : Input :=
  { timeSinceLastPacket := 0
    timeSinceBallSeen := 50
    timeSinceFeatureSeen := 500
    timeSinceWhistle := 9999
    time := 1000
    batteryLevel := 82 / 100
    batteryCharging := false
    numberOfTeammates := 2
    contact := true
    measures := 0
    state := STATE_PLAYING
    gamePhase := 0
    kickingTeam := 1
    teamNumber := 1
    fieldPlayerColour := TEAM_WHITE
    mode := RobotInfo.Mode.active
    penalty := PENALTY_NONE
    outOfPackets := false
    role := PlayerRole.RoleType.striker }

/-- A sample snapshot: the sample snapshot with own team colour yellow. -/
def sampleInputYellow : Input :=
  { sampleInput with fieldPlayerColour := TEAM_YELLOW }

/-- A sample snapshot: the sample snapshot with the battery at 55 percent. -/
def sampleInputBattery55 : Input :=
  { sampleInput with batteryLevel := 55 / 100 }

/-- A sample snapshot: the sample snapshot with the battery level the binary32 number nearest
to 0.7, which is 11744051 / 2^24 (a little below 0.7). -/
def sampleInputBattery07 : Input :=
  { sampleInput with batteryLevel := 11744051 / 16777216 }

/-- A sample snapshot: the sample snapshot with the battery level 3000000000, a binary32
number whose quotient by `0.1f` does not fit an `int`. -/
def sampleInputBatteryHuge : Input :=
  { sampleInput with batteryLevel := 3000000000 }

/-- A sample snapshot: the sample snapshot with three teammates and the last game-controller
packet 5000 ms old. -/
def sampleInputPacketLost : Input :=
  { sampleInput with
    numberOfTeammates := 3
    timeSinceLastPacket := 5000 }

/-- A sample snapshot: the sample snapshot with a whistle detected 50 ms ago. -/
def sampleInputWhistle : Input :=
  { sampleInput with timeSinceWhistle := 50 }

/-- A sample snapshot: the sample snapshot in standby, no referee measure, ground contact. -/
def sampleInputStandby : Input :=
  { sampleInput with state := STATE_STANDBY }

/-- A sample snapshot: the sample snapshot on the charger. -/
def sampleInputCharging : Input :=
  { sampleInput with batteryCharging := true }

/-- A sample snapshot: the sample snapshot with the packet budget exhausted. -/
def sampleInputOutOfPackets : Input :=
  { sampleInput with outOfPackets := true }

/-- A sample snapshot: the sample snapshot in a game state, with a team colour and a role that
no resolver lists. -/
def sampleInputUnhandled : Input :=
  { sampleInput with
    state := STATE_FINISHED
    fieldPlayerColour := TEAM_BLACK
    role := PlayerRole.RoleType.other 0 }

/-- A sample snapshot: standby with three referee measures, ball and field feature both seen
within 250 ms, ground contact lost. -/
def sampleInputNoContact : Input :=
  { sampleInput with
    contact := false
    state := STATE_STANDBY
    measures := 3
    timeSinceFeatureSeen := 10 }

end LEDHandler

namespace LEDHandler

/-! ## Reading a cell after a write or a loop -/

@[simp] theorem setLed_apply (v : LedStates) (i : Nat) (s : LEDState) (j : Nat) :
    setLed v i s j = if j = i then s else v j := rfl

theorem forLoop_setLed_apply (n b : Nat) (s : LEDState) (v : LedStates) (j : Nat) :
    forLoop n (fun i w => setLed w (b + i) s) v j = if b ≤ j ∧ j < b + n then s else v j := by
  induction n with
  | zero =>
    have h : ¬ (b ≤ j ∧ j < b + 0) := by omega
    simp only [forLoop, if_neg h]
  | succ n ih =>
    simp only [forLoop, setLed_apply, ih]
    split_ifs with h1 h2 h3 h4 h5
    all_goals first | rfl | (exfalso; omega)

theorem fillChannel_apply (v : LedStates) (first offset : Nat) (s : LEDState) (j : Nat) :
    fillChannel v first offset s j =
      if first + offset ≤ j ∧ j < first + offset + 8 then s else v j := by
  unfold fillChannel
  rw [forLoop_setLed_apply]
  simp

theorem clearHead_apply (v : LedStates) (first last j : Nat) :
    clearHead v first last j = if first ≤ j ∧ j < first + (last + 1 - first) then LEDState.off else v j := by
  unfold clearHead
  rw [forLoop_setLed_apply]

theorem resetLeds_apply (v : LedStates) (j : Nat) :
    resetLeds v j = if j < numOfLEDs then LEDState.off else v j := by
  unfold resetLeds
  have h := forLoop_setLed_apply numOfLEDs 0 LEDState.off v j
  simp only [Nat.zero_add, Nat.zero_le, true_and] at h
  exact h

theorem whistleEars_apply (n : Nat) (v : LedStates) (j : Nat) :
    forLoop n (fun i w => setLed (setLed w (earsRight0Deg + i) LEDState.fastBlinking)
        (earsLeft0Deg + i) LEDState.fastBlinking) v j =
      if (earsRight0Deg ≤ j ∧ j < earsRight0Deg + n) ∨ (earsLeft0Deg ≤ j ∧ j < earsLeft0Deg + n)
      then LEDState.fastBlinking else v j := by
  induction n with
  | zero =>
    have h : ¬ ((earsRight0Deg ≤ j ∧ j < earsRight0Deg + 0) ∨
        (earsLeft0Deg ≤ j ∧ j < earsLeft0Deg + 0)) := by omega
    simp only [forLoop, if_neg h]
  | succ n ih =>
    simp only [forLoop, setLed_apply, ih]
    simp only [earsRight0Deg, earsLeft0Deg]
    split_ifs with h1 h2 h3 h4 h5
    all_goals first | rfl | (exfalso; omega)

/-! ## Rounding to binary32 -/

theorem roundHalfEven_floor_le (x : ℚ) : Int.floor x ≤ roundHalfEven x := by
  unfold roundHalfEven
  split_ifs <;> omega

theorem roundHalfEven_le_floor_succ (x : ℚ) : roundHalfEven x ≤ Int.floor x + 1 := by
  unfold roundHalfEven
  split_ifs <;> omega

theorem roundHalfEven_intCast (n : Int) : roundHalfEven (n : ℚ) = n := by
  unfold roundHalfEven
  simp

theorem roundHalfEven_mono (x y : ℚ) (h : x ≤ y) : roundHalfEven x ≤ roundHalfEven y := by
  rcases (Int.floor_mono h).lt_or_eq with hlt | heq
  · calc roundHalfEven x ≤ Int.floor x + 1 := roundHalfEven_le_floor_succ x
      _ ≤ Int.floor y := hlt
      _ ≤ roundHalfEven y := roundHalfEven_floor_le y
  · unfold roundHalfEven
    rw [← heq]
    have hxy : x - Int.floor x ≤ y - Int.floor x := by linarith
    split_ifs <;> first | omega | (exfalso; linarith)

theorem roundHalfEven_eq (x : ℚ) (n : Int) (h1 : (n : ℚ) - 1 / 2 < x) (h2 : x < n + 1 / 2) :
    roundHalfEven x = n := by
  rcases le_or_lt (n : ℚ) x with hn | hn
  · have hf : Int.floor x = n := by
      rw [Int.floor_eq_iff]
      constructor <;> linarith
    unfold roundHalfEven
    rw [hf, if_pos (by linarith)]
  · have hf : Int.floor x = n - 1 := by
      rw [Int.floor_eq_iff]
      push_cast
      constructor <;> linarith
    unfold roundHalfEven
    rw [hf, if_neg (by push_cast; linarith), if_pos (by push_cast; linarith)]
    omega

theorem binary32Exponent_ge (q : ℚ) : -126 ≤ binary32Exponent q :=
  le_max_right _ _

theorem lt_two_zpow_binary32Exponent (q : ℚ) (hq : 0 ≤ q) :
    q < 2 ^ (binary32Exponent q + 1) := by
  have h1 : q < ((2 : ℕ) : ℚ) ^ (Int.log 2 q + 1) := Int.lt_zpow_succ_log_self (by norm_num) q
  have h2 : ((2 : ℕ) : ℚ) ^ (Int.log 2 q + 1) ≤ ((2 : ℕ) : ℚ) ^ (binary32Exponent q + 1) := by
    apply zpow_le_zpow_right₀ (by norm_num)
    unfold binary32Exponent
    rw [abs_of_nonneg hq]
    have := le_max_left (Int.log 2 q) (-126)
    omega
  have h3 := lt_of_lt_of_le h1 h2
  simpa using h3

theorem two_zpow_binary32Exponent_le (q : ℚ) (hq : 0 < q) (he : -126 < binary32Exponent q) :
    (2 : ℚ) ^ binary32Exponent q ≤ q := by
  have hlog : binary32Exponent q = Int.log 2 q := by
    unfold binary32Exponent at he ⊢
    rw [abs_of_pos hq] at he ⊢
    rcases max_cases (Int.log 2 q) (-126) with h | h <;> omega
  rw [hlog]
  have h1 : ((2 : ℕ) : ℚ) ^ Int.log 2 q ≤ q := Int.zpow_log_le_self (by norm_num) hq
  simpa using h1

theorem binary32Exponent_mono (q q' : ℚ) (hq : 0 < q) (h : q ≤ q') :
    binary32Exponent q ≤ binary32Exponent q' := by
  unfold binary32Exponent
  rw [abs_of_pos hq, abs_of_pos (lt_of_lt_of_le hq h)]
  exact max_le_max (Int.log_mono_right hq h) le_rfl

theorem binary32Exponent_eq (q : ℚ) (e : Int) (hq : 0 < q) (he : -126 ≤ e)
    (h1 : (2 : ℚ) ^ e ≤ q) (h2 : q < 2 ^ (e + 1)) : binary32Exponent q = e := by
  have hlog : Int.log 2 q = e := by
    have a1 : e ≤ Int.log 2 q := by
      rw [← Int.zpow_le_iff_le_log (by norm_num) hq]
      simpa using h1
    have a2 : Int.log 2 q < e + 1 := by
      rw [← Int.lt_zpow_iff_log_lt (by norm_num) hq]
      simpa using h2
    omega
  unfold binary32Exponent
  rw [abs_of_pos hq, hlog]
  exact max_eq_left he

theorem binary32Nearest_zero : binary32Nearest 0 = 0 := by
  unfold binary32Nearest
  rw [zero_div]
  have h : roundHalfEven 0 = 0 := roundHalfEven_intCast 0
  rw [h]
  simp

theorem binary32Nearest_nonneg (q : ℚ) (hq : 0 ≤ q) : 0 ≤ binary32Nearest q := by
  unfold binary32Nearest
  have hp : (0 : ℚ) < 2 ^ (binary32Exponent q - 23) := zpow_pos (by norm_num) _
  have h0 : (0 : Int) ≤ roundHalfEven (q / 2 ^ (binary32Exponent q - 23)) := by
    have := roundHalfEven_mono 0 _ (div_nonneg hq hp.le)
    rwa [show roundHalfEven 0 = 0 from roundHalfEven_intCast 0] at this
  exact mul_nonneg (by exact_mod_cast h0) hp.le

theorem binary32Nearest_eq (q : ℚ) (e n : Int) (hq : 0 < q) (he : -126 ≤ e)
    (h1 : (2 : ℚ) ^ e ≤ q) (h2 : q < 2 ^ (e + 1))
    (hn : roundHalfEven (q / 2 ^ (e - 23)) = n) : binary32Nearest q = n * 2 ^ (e - 23) := by
  unfold binary32Nearest
  rw [binary32Exponent_eq q e hq he h1 h2, hn]

/-- Upper bound: the nearest value does not pass the end of the binade. -/
theorem binary32Nearest_le_zpow (q : ℚ) (hq : 0 ≤ q) :
    binary32Nearest q ≤ 2 ^ (binary32Exponent q + 1) := by
  unfold binary32Nearest
  have hp : (0 : ℚ) < 2 ^ (binary32Exponent q - 23) := zpow_pos (by norm_num) _
  have hlt := lt_two_zpow_binary32Exponent q hq
  have hsplit : (2 : ℚ) ^ (binary32Exponent q + 1) =
      ((2 ^ 24 : Int) : ℚ) * 2 ^ (binary32Exponent q - 23) := by
    rw [show binary32Exponent q + 1 = 24 + (binary32Exponent q - 23) by ring,
      zpow_add₀ (by norm_num)]
    norm_num
  have hx : q / 2 ^ (binary32Exponent q - 23) ≤ ((2 ^ 24 : Int) : ℚ) := by
    rw [div_le_iff₀ hp, ← hsplit]
    exact hlt.le
  have hr := roundHalfEven_mono _ _ hx
  rw [roundHalfEven_intCast] at hr
  rw [hsplit]
  exact mul_le_mul_of_nonneg_right (by exact_mod_cast hr) hp.le

/-- Lower bound: the nearest value does not fall below the start of the binade. -/
theorem zpow_le_binary32Nearest (q : ℚ) (hq : 0 < q) (he : -126 < binary32Exponent q) :
    (2 : ℚ) ^ binary32Exponent q ≤ binary32Nearest q := by
  unfold binary32Nearest
  have hp : (0 : ℚ) < 2 ^ (binary32Exponent q - 23) := zpow_pos (by norm_num) _
  have hle := two_zpow_binary32Exponent_le q hq he
  have hsplit : (2 : ℚ) ^ binary32Exponent q =
      ((2 ^ 23 : Int) : ℚ) * 2 ^ (binary32Exponent q - 23) := by
    rw [show binary32Exponent q = 23 + (binary32Exponent q - 23) by ring,
      zpow_add₀ (by norm_num)]
    norm_num
  have hx : ((2 ^ 23 : Int) : ℚ) ≤ q / 2 ^ (binary32Exponent q - 23) := by
    rw [le_div_iff₀ hp, ← hsplit]
    exact hle
  have hr := roundHalfEven_mono _ _ hx
  rw [roundHalfEven_intCast] at hr
  rw [hsplit]
  exact mul_le_mul_of_nonneg_right (by exact_mod_cast hr) hp.le

theorem binary32Nearest_mono (q q' : ℚ) (hq : 0 ≤ q) (h : q ≤ q') :
    binary32Nearest q ≤ binary32Nearest q' := by
  rcases hq.eq_or_lt with h0 | hpos
  · rw [← h0, binary32Nearest_zero]
    exact binary32Nearest_nonneg q' (le_trans hq h)
  · have hpos' : 0 < q' := lt_of_lt_of_le hpos h
    rcases (binary32Exponent_mono q q' hpos h).lt_or_eq with hlt | heq
    · have he' : -126 < binary32Exponent q' := lt_of_le_of_lt (binary32Exponent_ge q) hlt
      calc binary32Nearest q ≤ 2 ^ (binary32Exponent q + 1) := binary32Nearest_le_zpow q hq
        _ ≤ 2 ^ binary32Exponent q' := zpow_le_zpow_right₀ (by norm_num) (by omega)
        _ ≤ binary32Nearest q' := zpow_le_binary32Nearest q' hpos' he'
    · unfold binary32Nearest
      rw [← heq]
      have hp : (0 : ℚ) < 2 ^ (binary32Exponent q - 23) := zpow_pos (by norm_num) _
      have hx : q / 2 ^ (binary32Exponent q - 23) ≤ q' / 2 ^ (binary32Exponent q - 23) :=
        div_le_div_of_nonneg_right h hp.le
      exact mul_le_mul_of_nonneg_right (by exact_mod_cast roundHalfEven_mono _ _ hx) hp.le

/-! ## The battery quotient -/

theorem binary32Round_of_lt (q : ℚ) (h : |binary32Nearest q| < 2 ^ 128) :
    binary32Round q = some (binary32Nearest q) := by
  unfold binary32Round
  rw [if_neg (not_le.mpr h)]

theorem binary32Nearest_hundred_million : binary32Nearest 100000000 = 100000000 := by
  rw [binary32Nearest_eq 100000000 26 12500000 (by norm_num) (by norm_num) (by norm_num)
    (by norm_num) (roundHalfEven_eq _ _ (by norm_num) (by norm_num))]
  norm_num

theorem binary32Nearest_billion : binary32Nearest 1000000000 = 1000000000 := by
  rw [binary32Nearest_eq 1000000000 29 15625000 (by norm_num) (by norm_num) (by norm_num)
    (by norm_num) (roundHalfEven_eq _ _ (by norm_num) (by norm_num))]
  norm_num

theorem binary32Nearest_two_pow_31 : binary32Nearest 2147483648 = 2147483648 := by
  rw [binary32Nearest_eq 2147483648 31 8388608 (by norm_num) (by norm_num) (by norm_num)
    (by norm_num) (roundHalfEven_eq _ _ (by norm_num) (by norm_num))]
  norm_num

/-- For a battery level between 0 and 100000000 neither rounding overflows: the `float`
quotient by `0.1f` is the nearest value of the quotient of the nearest value, and it lies
between 0 and 1000000000. -/
theorem batteryQuotient_eq (b : ℚ) (hb : 0 ≤ b) (hb' : b ≤ 100000000) :
    floatDiv (binary32Round b) pointOneF =
        some (binary32Nearest (binary32Nearest b / pointOneF)) ∧
      0 ≤ binary32Nearest (binary32Nearest b / pointOneF) ∧
      binary32Nearest (binary32Nearest b / pointOneF) ≤ 1000000000 := by
  have hx0 : 0 ≤ binary32Nearest b := binary32Nearest_nonneg b hb
  have hx1 : binary32Nearest b ≤ 100000000 := by
    have := binary32Nearest_mono b 100000000 hb hb'
    rwa [binary32Nearest_hundred_million] at this
  have hc : (0 : ℚ) < pointOneF := by
    unfold pointOneF
    norm_num
  have hq0 : 0 ≤ binary32Nearest b / pointOneF := div_nonneg hx0 hc.le
  have hq1 : binary32Nearest b / pointOneF ≤ 1000000000 := by
    rw [div_le_iff₀ hc]
    unfold pointOneF
    linarith
  have hy0 : 0 ≤ binary32Nearest (binary32Nearest b / pointOneF) :=
    binary32Nearest_nonneg _ hq0
  have hy1 : binary32Nearest (binary32Nearest b / pointOneF) ≤ 1000000000 := by
    have := binary32Nearest_mono _ 1000000000 hq0 hq1
    rwa [binary32Nearest_billion] at this
  refine ⟨?_, hy0, hy1⟩
  rw [binary32Round_of_lt b (by rw [abs_of_nonneg hx0]; exact lt_of_le_of_lt hx1 (by norm_num))]
  unfold floatDiv
  rw [Option.some_bind,
    binary32Round_of_lt _ (by rw [abs_of_nonneg hy0]; exact lt_of_le_of_lt hy1 (by norm_num))]

theorem truncToInt_some_of_range (y : ℚ) (h0 : 0 ≤ y) (h1 : y < 2147483648) :
    truncToInt (some y) = Int.floor y := by
  have hf0 : 0 ≤ Int.floor y := Int.floor_nonneg.mpr h0
  have hf1 : Int.floor y < 2147483648 := by
    rw [Int.floor_lt]
    exact_mod_cast h1
  unfold truncToInt
  simp only [if_pos h0]
  rw [if_pos ⟨by omega, by omega⟩]

/-- A battery level between 0 and 100000000 has a `float` quotient by `0.1f` that is finite
and below `2^31`. -/
theorem batteryQuotient_fits (b : ℚ) (hb : 0 ≤ b) (hb' : b ≤ 100000000) :
    ∃ y, floatDiv (binary32Round b) pointOneF = some y ∧ y < 2147483648 := by
  obtain ⟨he, -, h1⟩ := batteryQuotient_eq b hb hb'
  exact ⟨_, he, lt_of_le_of_lt h1 (by norm_num)⟩

/-- When the `float` quotient is finite and below `2^31`, neither rounding overflowed: the
quotient is the nearest value of the quotient of the nearest value. -/
theorem batteryQuotient_of_fits (b : ℚ)
    (hfit : ∃ y, floatDiv (binary32Round b) pointOneF = some y ∧ y < 2147483648) :
    |binary32Nearest b| < 2 ^ 128 ∧
      floatDiv (binary32Round b) pointOneF =
        some (binary32Nearest (binary32Nearest b / pointOneF)) ∧
      binary32Nearest (binary32Nearest b / pointOneF) < 2147483648 := by
  obtain ⟨y, hy, hlt⟩ := hfit
  by_cases h1 : (2 : ℚ) ^ 128 ≤ |binary32Nearest b|
  · have hnone : binary32Round b = none := by
      unfold binary32Round
      rw [if_pos h1]
    rw [hnone] at hy
    simp [floatDiv] at hy
  · have hsome : binary32Round b = some (binary32Nearest b) := by
      unfold binary32Round
      rw [if_neg h1]
    rw [hsome] at hy ⊢
    unfold floatDiv at hy ⊢
    rw [Option.some_bind] at hy ⊢
    unfold binary32Round at hy ⊢
    split_ifs at hy ⊢ with h2
    have e : binary32Nearest (binary32Nearest b / pointOneF) = y := Option.some.inj hy
    exact ⟨not_le.mp h1, rfl, by rw [e]; exact hlt⟩

/-- The value of `onLEDs` before the cap, for a battery level that is not negative and whose
`float` quotient fits an `int`. -/
theorem truncToInt_batteryQuotient (b : ℚ) (hb : 0 ≤ b)
    (hfit : ∃ y, floatDiv (binary32Round b) pointOneF = some y ∧ y < 2147483648) :
    truncToInt (floatDiv (binary32Round b) pointOneF) =
        Int.floor (binary32Nearest (binary32Nearest b / pointOneF)) ∧
      0 ≤ Int.floor (binary32Nearest (binary32Nearest b / pointOneF)) := by
  obtain ⟨-, he, hlt⟩ := batteryQuotient_of_fits b hfit
  have hc : (0 : ℚ) < pointOneF := by
    unfold pointOneF
    norm_num
  have h0 : 0 ≤ binary32Nearest (binary32Nearest b / pointOneF) :=
    binary32Nearest_nonneg _ (div_nonneg (binary32Nearest_nonneg b hb) hc.le)
  rw [he, truncToInt_some_of_range _ h0 hlt]
  exact ⟨rfl, Int.floor_nonneg.mpr h0⟩

theorem batteryQuotient_mono (b b' : ℚ) (hb : 0 ≤ b) (h : b ≤ b') :
    binary32Nearest (binary32Nearest b / pointOneF) ≤
      binary32Nearest (binary32Nearest b' / pointOneF) := by
  have hc : (0 : ℚ) < pointOneF := by
    unfold pointOneF
    norm_num
  exact binary32Nearest_mono _ _ (div_nonneg (binary32Nearest_nonneg b hb) hc.le)
    (div_le_div_of_nonneg_right (binary32Nearest_mono b b' hb h) hc.le)

/-- A smaller battery level (not negative) fits when a larger one does. -/
theorem batteryQuotient_fits_of_le (b b' : ℚ) (hb : 0 ≤ b) (h : b ≤ b')
    (hfit : ∃ y, floatDiv (binary32Round b') pointOneF = some y ∧ y < 2147483648) :
    ∃ y, floatDiv (binary32Round b) pointOneF = some y ∧ y < 2147483648 := by
  obtain ⟨h1, -, h2⟩ := batteryQuotient_of_fits b' hfit
  have hc : (0 : ℚ) < pointOneF := by
    unfold pointOneF
    norm_num
  have hx0 : 0 ≤ binary32Nearest b := binary32Nearest_nonneg b hb
  have hx1 : binary32Nearest b ≤ binary32Nearest b' := binary32Nearest_mono b b' hb h
  have hy0 : 0 ≤ binary32Nearest (binary32Nearest b / pointOneF) :=
    binary32Nearest_nonneg _ (div_nonneg hx0 hc.le)
  have hy1 : binary32Nearest (binary32Nearest b / pointOneF) < 2147483648 :=
    lt_of_le_of_lt (batteryQuotient_mono b b' hb h) h2
  refine ⟨_, ?_, hy1⟩
  rw [binary32Round_of_lt b (by
    rw [abs_of_nonneg hx0]
    exact lt_of_le_of_lt hx1 (lt_of_le_of_lt (le_abs_self _) h1))]
  unfold floatDiv
  rw [Option.some_bind, binary32Round_of_lt _ (by
    rw [abs_of_nonneg hy0]
    exact lt_trans hy1 (by norm_num))]

theorem batteryQuotient_zero : binary32Nearest (binary32Nearest 0 / pointOneF) = 0 := by
  rw [binary32Nearest_zero, zero_div, binary32Nearest_zero]

theorem batteryQuotient_one : binary32Nearest (binary32Nearest 1 / pointOneF) = 10 := by
  have h1 : binary32Nearest 1 = 1 := by
    rw [binary32Nearest_eq 1 0 8388608 (by norm_num) (by norm_num) (by norm_num) (by norm_num)
      (roundHalfEven_eq _ _ (by norm_num) (by norm_num))]
    norm_num
  rw [h1]
  unfold pointOneF
  rw [binary32Nearest_eq _ 3 10485760 (by norm_num) (by norm_num) (by norm_num) (by norm_num)
    (roundHalfEven_eq _ _ (by norm_num) (by norm_num))]
  norm_num

theorem batteryQuotient_55 :
    binary32Nearest (binary32Nearest (55 / 100) / pointOneF) = 11 / 2 := by
  have h1 : binary32Nearest (55 / 100) = 9227469 / 16777216 := by
    rw [binary32Nearest_eq _ (-1) 9227469 (by norm_num) (by norm_num) (by norm_num)
      (by norm_num) (roundHalfEven_eq _ _ (by norm_num) (by norm_num))]
    norm_num
  rw [h1]
  unfold pointOneF
  rw [binary32Nearest_eq _ 2 11534336 (by norm_num) (by norm_num) (by norm_num) (by norm_num)
    (roundHalfEven_eq _ _ (by norm_num) (by norm_num))]
  norm_num

theorem batteryQuotient_82 :
    binary32Nearest (binary32Nearest (82 / 100) / pointOneF) = 8598323 / 1048576 := by
  have h1 : binary32Nearest (82 / 100) = 13757317 / 16777216 := by
    rw [binary32Nearest_eq _ (-1) 13757317 (by norm_num) (by norm_num) (by norm_num)
      (by norm_num) (roundHalfEven_eq _ _ (by norm_num) (by norm_num))]
    norm_num
  rw [h1]
  unfold pointOneF
  rw [binary32Nearest_eq _ 3 8598323 (by norm_num) (by norm_num) (by norm_num) (by norm_num)
    (roundHalfEven_eq _ _ (by norm_num) (by norm_num))]
  norm_num

/-- The binary32 number nearest to 0.7 divided by `0.1f` gives exactly 7 in `float`
arithmetic, although the exact quotient is below 7. -/
theorem batteryQuotient_07 :
    binary32Nearest (binary32Nearest (11744051 / 16777216) / pointOneF) = 7 := by
  have h1 : binary32Nearest (11744051 / 16777216) = 11744051 / 16777216 := by
    rw [binary32Nearest_eq _ (-1) 11744051 (by norm_num) (by norm_num) (by norm_num)
      (by norm_num) (roundHalfEven_eq _ _ (by norm_num) (by norm_num))]
    norm_num
  rw [h1]
  unfold pointOneF
  rw [binary32Nearest_eq _ 2 14680064 (by norm_num) (by norm_num) (by norm_num) (by norm_num)
    (roundHalfEven_eq _ _ (by norm_num) (by norm_num))]
  norm_num

/-- A quotient of at least `2^31` does not fit an `int`: the conversion gives `-2^31`. -/
theorem truncToInt_binary32Round_of_ge (q : ℚ) (h : 2147483648 ≤ q) :
    truncToInt (binary32Round q) = -2 ^ 31 := by
  have hy : (2147483648 : ℚ) ≤ binary32Nearest q := by
    have := binary32Nearest_mono 2147483648 q (by norm_num) h
    rwa [binary32Nearest_two_pow_31] at this
  unfold binary32Round
  split_ifs
  · rfl
  · have hf : (2147483648 : Int) ≤ Int.floor (binary32Nearest q) := by
      rw [Int.le_floor]
      exact_mod_cast hy
    have h0 : (0 : ℚ) ≤ binary32Nearest q := le_trans (by norm_num) hy
    unfold truncToInt
    simp only [if_pos h0]
    rw [if_neg (by omega)]

theorem truncToInt_batteryQuotient_huge :
    truncToInt (floatDiv (binary32Round 3000000000) pointOneF) = -2 ^ 31 := by
  have h1 : binary32Nearest 3000000000 = 3000000000 := by
    rw [binary32Nearest_eq _ 31 11718750 (by norm_num) (by norm_num) (by norm_num)
      (by norm_num) (roundHalfEven_eq _ _ (by norm_num) (by norm_num))]
    norm_num
  rw [binary32Round_of_lt _ (by rw [h1]; norm_num), h1]
  unfold floatDiv
  rw [Option.some_bind]
  apply truncToInt_binary32Round_of_ge
  unfold pointOneF
  norm_num

/-! ## Cells a resolver leaves alone -/

theorem ite_setLed_frame (c : Prop) [Decidable c] (v : LedStates) (a : Nat) (s : LEDState)
    (j : Nat) (ha : j ≠ a) : (if c then setLed v a s else v) j = v j := by
  split_ifs <;> simp [ha]

theorem ite_setLed2_frame (c : Prop) [Decidable c] (v : LedStates) (a b : Nat) (s t : LEDState)
    (j : Nat) (ha : j ≠ a) (hb : j ≠ b) :
    (if c then setLed (setLed v a s) b t else v) j = v j := by
  split_ifs <;> simp [ha, hb]

theorem setChestButton_frame (inp : Input) (v : LedStates) (j : Nat)
    (h : j < chestRed ∨ chestBlue < j) : setChestButton inp v j = v j := by
  simp only [chestRed, chestBlue] at h
  have hr : j ≠ 68 := by omega
  have hg : j ≠ 69 := by omega
  have hb : j ≠ 70 := by omega
  unfold setChestButton
  cases inp.mode <;> simp only [] <;> (try split_ifs) <;> simp [hr, hg, hb]

theorem setLeftFoot_frame (inp : Input) (v : LedStates) (j : Nat)
    (h : j < footLeftRed ∨ footLeftBlue < j) : setLeftFoot inp v j = v j := by
  simp only [footLeftRed, footLeftBlue] at h
  have hr : j ≠ 83 := by omega
  have hg : j ≠ 84 := by omega
  have hb : j ≠ 85 := by omega
  unfold setLeftFoot
  split_ifs <;> simp [hr, hg, hb]

theorem setRightFoot_frame (cfg : Config) (inp : Input) (v : LedStates) (j : Nat)
    (h : j < footRightRed ∨ footRightBlue < j) : setRightFoot cfg inp v j = v j := by
  simp only [footRightRed, footRightBlue] at h
  have hr : j ≠ 86 := by omega
  have hg : j ≠ 87 := by omega
  have hb : j ≠ 88 := by omega
  unfold setRightFoot
  split_ifs <;> simp [hr, hg, hb]

theorem setWhistleLeds_of_ge (inp : Input) (v : LedStates) (h : ¬ inp.timeSinceWhistle < 200) :
    setWhistleLeds inp v = v := by
  unfold setWhistleLeds
  rw [if_neg h]

theorem setWhistleLeds_of_lt (inp : Input) (v : LedStates) (j : Nat)
    (h : inp.timeSinceWhistle < 200) :
    setWhistleLeds inp v j =
      if (earsLeft0Deg ≤ j ∧ j < chestBlue) ∨ (headRearLeft0 ≤ j ∧ j ≤ headMiddleLeft0)
      then LEDState.fastBlinking else v j := by
  unfold setWhistleLeds
  rw [if_pos h]
  simp only [setLed_apply, forLoop_setLed_apply, whistleEars_apply]
  simp only [chestRed, chestGreen, chestBlue, earsLeft0Deg, earsRight0Deg, headRearLeft0,
    headMiddleLeft0]
  split_ifs <;> first | rfl | (exfalso; omega)

theorem setWhistleLeds_frame (inp : Input) (v : LedStates) (j : Nat)
    (h : j < earsLeft0Deg ∨ j = chestBlue ∨ headMiddleLeft0 < j) :
    setWhistleLeds inp v j = v j := by
  simp only [earsLeft0Deg, chestBlue, headMiddleLeft0] at h
  by_cases hw : inp.timeSinceWhistle < 200
  · rw [setWhistleLeds_of_lt inp v j hw]
    simp only [chestBlue, earsLeft0Deg, headRearLeft0, headMiddleLeft0]
    split_ifs <;> first | rfl | (exfalso; omega)
  · rw [setWhistleLeds_of_ge inp v hw]

theorem setRightEar_apply (inp : Input) (v : LedStates) (j : Nat) :
    setRightEar inp v j =
      if earsRight0Deg ≤ j ∧
          j < earsRight0Deg +
            (min (truncToInt (floatDiv (binary32Round inp.batteryLevel) pointOneF)) 9 + 1).toNat
      then LEDState.on else v j := by
  unfold setRightEar setBatteryLevelInEar
  simp only [forLoop_setLed_apply]

theorem setRightEar_frame (inp : Input) (v : LedStates) (j : Nat)
    (h : j < earsRight0Deg ∨ chestRed ≤ j) : setRightEar inp v j = v j := by
  simp only [earsRight0Deg, chestRed] at h
  rw [setRightEar_apply]
  simp only [earsRight0Deg]
  split_ifs with h1
  · exfalso; omega
  · rfl

theorem setLeftEar_frame (cfg : Config) (inp : Input) (v : LedStates) (j : Nat)
    (h : j < earsLeft0Deg ∨ earsRight0Deg ≤ j) : setLeftEar cfg inp v j = v j := by
  simp only [earsLeft0Deg, earsRight0Deg] at h
  unfold setLeftEar
  simp only [earsLeft0Deg, earsLeft36Deg, earsLeft72Deg, earsLeft108Deg, earsLeft144Deg,
    earsLeft180Deg, earsLeft216Deg, earsLeft252Deg, earsLeft288Deg, earsLeft324Deg]
  rw [ite_setLed2_frame _ _ _ _ _ _ _ (by omega) (by omega),
    ite_setLed2_frame _ _ _ _ _ _ _ (by omega) (by omega),
    ite_setLed2_frame _ _ _ _ _ _ _ (by omega) (by omega),
    ite_setLed2_frame _ _ _ _ _ _ _ (by omega) (by omega),
    ite_setLed2_frame _ _ _ _ _ _ _ (by omega) (by omega)]

theorem setHead_frame (cfg : Config) (inp : Input) (c : Nat) (v : LedStates) (j : Nat)
    (hcfg : cfg.WellFormed) (h : j < headRearLeft0 ∨ headMiddleLeft0 < j) :
    (setHead cfg inp c v).2 j = v j := by
  simp only [headRearLeft0, headMiddleLeft0] at h
  obtain ⟨hs, -, ht⟩ := hcfg
  have hmod : (c + 1) % (numOfHeadLEDs * cfg.chargingLightSlowness) / cfg.chargingLightSlowness
      < numOfHeadLEDs := by
    rw [Nat.div_lt_iff_lt_mul hs]
    exact Nat.mod_lt _ (Nat.mul_pos (by simp) hs)
  have h1 := ht _ hmod
  have h2 := ht (((c + 1) % (numOfHeadLEDs * cfg.chargingLightSlowness) /
    cfg.chargingLightSlowness + 1) % numOfHeadLEDs) (Nat.mod_lt _ (by simp))
  simp only [firstHeadLED, lastHeadLED, headRearLeft0, headMiddleLeft0] at h1 h2
  unfold setHead
  simp only [firstHeadLED, lastHeadLED, headRearLeft0, headMiddleLeft0, headRearLeft1,
    headRearLeft2, headRearRight0, headRearRight1, headRearRight2, headMiddleRight0,
    headFrontRight0, headFrontRight1, headFrontLeft0, headFrontLeft1]
  split_ifs
  · simp only [setLed_apply, clearHead_apply]
    split_ifs <;> first | rfl | (exfalso; omega)
  · split <;> simp only [setLed_apply, clearHead_apply] <;> split_ifs <;>
      first | rfl | (exfalso; omega)
  · simp only [clearHead_apply]
    split_ifs <;> first | rfl | (exfalso; omega)

/-! ## The eye resolvers -/

theorem setEyeColor_frame (v w : LedStates) (left : Bool) (col : EyeColor) (s : LEDState)
    (j : Nat) (h : setEyeColor v left col s = some w)
    (hj : j < (if left then faceLeftRed0Deg else faceRightRed0Deg) ∨
      (if left then faceRightRed0Deg else earsLeft0Deg) ≤ j) : w j = v j := by
  unfold setEyeColor at h
  cases left <;> cases col <;> simp only [Option.some.injEq, reduceCtorEq] at h <;> subst h <;>
    simp only [fillChannel_apply, faceLeftRed0Deg, faceRightRed0Deg, earsLeft0Deg, redOffset,
      greenOffset, blueOffset, faceLeftGreen0Deg, faceLeftBlue0Deg, if_true, if_false,
      Bool.false_eq_true] at hj ⊢ <;>
    split_ifs <;> first | rfl | (exfalso; omega)

theorem setEyeColor_isSome (v : LedStates) (left : Bool) (col : EyeColor) (s : LEDState)
    (h : ∀ n, col ≠ EyeColor.unknown n) : ∃ w, setEyeColor v left col s = some w := by
  cases col
  case unknown n => exact absurd rfl (h n)
  all_goals exact ⟨_, rfl⟩

theorem setRightEye_isSome (inp : Input) (v : LedStates) : ∃ w, setRightEye inp v = some w := by
  unfold setRightEye
  split_ifs
  · exact setEyeColor_isSome _ _ _ _ (by simp)
  · exact setEyeColor_isSome _ _ _ _ (by simp)
  · cases inp.role <;> exact setEyeColor_isSome _ _ _ _ (by simp)

theorem setLeftEye_isSome (inp : Input) (v : LedStates) : ∃ w, setLeftEye inp v = some w := by
  simp only [setLeftEye]
  split_ifs
  all_goals first
    | exact setEyeColor_isSome _ _ _ _ (by simp)
    | exact ⟨_, rfl⟩

theorem setRightEye_frame (inp : Input) (v w : LedStates) (j : Nat)
    (h : setRightEye inp v = some w) (hj : earsLeft0Deg ≤ j) : w j = v j := by
  simp only [earsLeft0Deg] at hj
  unfold setRightEye at h
  split_ifs at h
  · exact setEyeColor_frame _ _ _ _ _ j h (by simp; omega)
  · exact setEyeColor_frame _ _ _ _ _ j h (by simp; omega)
  · cases hr : inp.role <;> rw [hr] at h <;>
      exact setEyeColor_frame _ _ _ _ _ j h (by simp; omega)

theorem setRightEye_frame_left (inp : Input) (v w : LedStates) (j : Nat)
    (h : setRightEye inp v = some w) (hs : inp.state ≠ STATE_STANDBY)
    (hj : j < faceRightRed0Deg) : w j = v j := by
  simp only [faceRightRed0Deg] at hj
  unfold setRightEye at h
  rw [if_neg hs] at h
  cases hr : inp.role <;> rw [hr] at h <;>
    exact setEyeColor_frame _ _ _ _ _ j h (by simp; omega)

theorem setRightEye_frame_right (inp : Input) (v w : LedStates) (j : Nat)
    (h : setRightEye inp v = some w) (hs : inp.state = STATE_STANDBY)
    (hj : faceRightRed0Deg ≤ j) : w j = v j := by
  simp only [faceRightRed0Deg] at hj
  unfold setRightEye at h
  rw [if_pos hs] at h
  split_ifs at h <;> exact setEyeColor_frame _ _ _ _ _ j h (by simp; omega)

theorem setLeftEye_frame (inp : Input) (v w : LedStates) (j : Nat)
    (h : setLeftEye inp v = some w) (hj : faceRightRed0Deg ≤ j) : w j = v j := by
  simp only [faceRightRed0Deg] at hj
  simp only [setLeftEye] at h
  split_ifs at h
  all_goals first
    | exact setEyeColor_frame _ _ _ _ _ j h (by simp; omega)
    | (simp only [Option.some.injEq] at h; subst h; rfl)

/-! ## One call of update -/

/-- The vector after the resolvers that follow the two eye resolvers. -/
theorem update_eq (cfg : Config) (inp : Input) (c : Nat) (v : LedStates) :
    ∃ v1 v2, setRightEye inp (resetLeds v) = some v1 ∧ setLeftEye inp v1 = some v2 ∧
      update cfg inp c v = some (setHead cfg inp c (setLeftEar cfg inp (setRightEar inp
        (setWhistleLeds inp (setRightFoot cfg inp (setLeftFoot inp
          (setChestButton inp v2))))))) := by
  obtain ⟨v1, h1⟩ := setRightEye_isSome inp (resetLeds v)
  obtain ⟨v2, h2⟩ := setLeftEye_isSome inp v1
  refine ⟨v1, v2, h1, h2, ?_⟩
  unfold update
  simp [h1, h2]

/-- Behind the eye resolvers, no resolver writes an eye cell. -/
theorem tail_face (cfg : Config) (inp : Input) (c : Nat) (v : LedStates) (j : Nat)
    (hcfg : cfg.WellFormed) (hj : j < earsLeft0Deg) :
    (setHead cfg inp c (setLeftEar cfg inp (setRightEar inp (setWhistleLeds inp
      (setRightFoot cfg inp (setLeftFoot inp (setChestButton inp v))))))).2 j = v j := by
  simp only [earsLeft0Deg] at hj
  rw [setHead_frame _ _ _ _ _ hcfg (by simp; omega), setLeftEar_frame _ _ _ _ (by simp; omega),
    setRightEar_frame _ _ _ (by simp; omega), setWhistleLeds_frame _ _ _ (by simp; omega),
    setRightFoot_frame _ _ _ _ (by simp; omega), setLeftFoot_frame _ _ _ (by simp; omega),
    setChestButton_frame _ _ _ (by simp; omega)]

/-- The cell a colour is written into depends on the incoming vector at that cell only. -/
theorem setEyeColor_congr (v v' w w' : LedStates) (left : Bool) (col : EyeColor) (s : LEDState)
    (j : Nat) (h : setEyeColor v left col s = some w) (h' : setEyeColor v' left col s = some w')
    (hj : v j = v' j) : w j = w' j := by
  unfold setEyeColor at h h'
  cases col <;> simp only [Option.some.injEq, reduceCtorEq] at h h' <;> subst h <;> subst h' <;>
    simp only [fillChannel_apply, hj]

theorem setRightEye_blueLeft (inp : Input) (v w : LedStates) (j : Nat)
    (h : setRightEye inp v = some w) (hj : faceLeftBlue0Deg ≤ j) (hj' : j < faceRightRed0Deg) :
    w j = v j := by
  simp only [faceLeftBlue0Deg, faceRightRed0Deg] at hj hj'
  by_cases hs : inp.state = STATE_STANDBY
  · unfold setRightEye at h
    rw [if_pos hs] at h
    split_ifs at h <;> simp only [setEyeColor, Option.some.injEq, if_true] at h <;> subst h <;>
      simp only [fillChannel_apply, faceLeftRed0Deg, redOffset, greenOffset, faceLeftGreen0Deg] <;>
      split_ifs <;> first | rfl | (exfalso; omega)
  · exact setRightEye_frame_left inp v w j h hs (by simp; omega)

/-! ## The eyes -/

/-- C3: when ground contact is lost, one update leaves the left eye at full yellow, whatever
the other inputs are: the 8 red cells are on, the 8 green cells are half and the 8 blue cells
are off. -/
theorem C3_left_eye_yellow_without_ground_contact (cfg : Config) (inp : Input) (c : Nat)
    (v : LedStates) (hcfg : cfg.WellFormed) (hc : inp.contact = false) :
    ∃ r, update cfg inp c v = some r ∧ ∀ i, i < 8 →
      r.2 (faceLeftRed0Deg + i) = LEDState.on ∧ r.2 (faceLeftGreen0Deg + i) = LEDState.half ∧
      r.2 (faceLeftBlue0Deg + i) = LEDState.off := by
  obtain ⟨v1, v2, h1, h2, hu⟩ := update_eq cfg inp c v
  refine ⟨_, hu, fun i hi => ?_⟩
  rw [tail_face cfg inp c v2 _ hcfg (by simp; omega), tail_face cfg inp c v2 _ hcfg (by simp; omega),
    tail_face cfg inp c v2 _ hcfg (by simp; omega)]
  have hb : v1 (faceLeftBlue0Deg + i) = LEDState.off := by
    rw [setRightEye_blueLeft inp _ v1 _ h1 (by simp) (by simp; omega), resetLeds_apply,
      if_pos (by simp; omega)]
  simp only [setLeftEye, hc, Bool.not_false, if_true, setEyeColor, Option.some.injEq] at h2
  subst h2
  simp only [faceLeftBlue0Deg] at hb
  simp only [fillChannel_apply, faceLeftRed0Deg, faceLeftGreen0Deg, faceLeftBlue0Deg, redOffset,
    greenOffset]
  refine ⟨?_, ?_, ?_⟩
  · rw [if_pos (by omega)]
  · rw [if_neg (by omega), if_pos (by omega)]
    simp
  · rw [if_neg (by omega), if_neg (by omega)]
    exact hb

/-- Witness of C3: standby with three referee measures, ball and feature seen, no contact. -/
theorem C3_left_eye_yellow_without_ground_contact_witness :
    sampleConfig.WellFormed ∧ sampleInputNoContact.contact = false ∧
    ∃ r, update sampleConfig sampleInputNoContact 0 (fun _ => LEDState.blinking) = some r ∧
      ∀ i, i < 8 →
        r.2 (faceLeftRed0Deg + i) = LEDState.on ∧ r.2 (faceLeftGreen0Deg + i) = LEDState.half ∧
        r.2 (faceLeftBlue0Deg + i) = LEDState.off :=
  ⟨by decide, rfl, C3_left_eye_yellow_without_ground_contact _ _ _ _ (by decide) rfl⟩

/-- C5: with ground contact and outside standby, one update shows on the left eye red when
ball and field feature were both seen less than 250 ms ago, white when only the ball was, blue
when only the feature was, and leaves all 24 cells off when neither was. The triple lists the
red, green and blue cell of each of the 8 ring positions. -/
theorem C5_left_eye_ball_and_feature (cfg : Config) (inp : Input) (c : Nat) (v : LedStates)
    (hcfg : cfg.WellFormed) (hc : inp.contact = true) (hs : inp.state ≠ STATE_STANDBY) :
    ∃ r, update cfg inp c v = some r ∧ ∀ i, i < 8 →
      (r.2 (faceLeftRed0Deg + i), r.2 (faceLeftGreen0Deg + i), r.2 (faceLeftBlue0Deg + i)) =
        if inp.timeSinceBallSeen < 250 ∧ inp.timeSinceFeatureSeen < 250 then
          (LEDState.on, LEDState.off, LEDState.off)
        else if inp.timeSinceBallSeen < 250 then (LEDState.on, LEDState.on, LEDState.on)
        else if inp.timeSinceFeatureSeen < 250 then (LEDState.off, LEDState.off, LEDState.on)
        else (LEDState.off, LEDState.off, LEDState.off) := by
  obtain ⟨v1, v2, h1, h2, hu⟩ := update_eq cfg inp c v
  refine ⟨_, hu, fun i hi => ?_⟩
  rw [tail_face cfg inp c v2 _ hcfg (by simp; omega), tail_face cfg inp c v2 _ hcfg (by simp; omega),
    tail_face cfg inp c v2 _ hcfg (by simp; omega)]
  have hoff : ∀ j, j < 24 → v1 j = LEDState.off := by
    intro j hj
    rw [setRightEye_frame_left inp _ v1 j h1 hs (by simp; omega), resetLeds_apply,
      if_pos (by simp; omega)]
  have hr := hoff i (by omega)
  have hg := hoff (8 + i) (by omega)
  have hb := hoff (16 + i) (by omega)
  simp only [setLeftEye, hc, Bool.not_true, Bool.false_eq_true, if_false, hs] at h2
  simp only [faceLeftRed0Deg, faceLeftGreen0Deg, faceLeftBlue0Deg, Nat.zero_add]
  by_cases hball : inp.timeSinceBallSeen < 250 <;> by_cases hfeat : inp.timeSinceFeatureSeen < 250 <;>
    simp only [hball, hfeat, decide_True, decide_False, Bool.and_self, Bool.and_false,
      Bool.and_true, Bool.false_eq_true, if_true, if_false, setEyeColor, Option.some.injEq,
      and_self, and_false, and_true] at h2 ⊢ <;>
    subst h2 <;>
    simp only [fillChannel_apply, faceLeftRed0Deg, redOffset, greenOffset, blueOffset,
      faceLeftGreen0Deg, faceLeftBlue0Deg, hr, hg, hb, Prod.mk.injEq] <;>
    refine ⟨?_, ?_, ?_⟩ <;> split_ifs <;> first | rfl | (exfalso; omega)

/-- Witness of C5: the sample snapshot (playing, ground contact, only the ball seen). -/
theorem C5_left_eye_ball_and_feature_witness :
    sampleConfig.WellFormed ∧ sampleInput.contact = true ∧ sampleInput.state ≠ STATE_STANDBY ∧
    ∃ r, update sampleConfig sampleInput 0 (fun _ => LEDState.blinking) = some r ∧ ∀ i, i < 8 →
      (r.2 (faceLeftRed0Deg + i), r.2 (faceLeftGreen0Deg + i), r.2 (faceLeftBlue0Deg + i)) =
        if sampleInput.timeSinceBallSeen < 250 ∧ sampleInput.timeSinceFeatureSeen < 250 then
          (LEDState.on, LEDState.off, LEDState.off)
        else if sampleInput.timeSinceBallSeen < 250 then (LEDState.on, LEDState.on, LEDState.on)
        else if sampleInput.timeSinceFeatureSeen < 250 then
          (LEDState.off, LEDState.off, LEDState.on)
        else (LEDState.off, LEDState.off, LEDState.off) :=
  ⟨by decide, rfl, by decide,
    C5_left_eye_ball_and_feature _ _ _ _ (by decide) rfl (by decide)⟩

theorem setRightEye_congr (inp inp' : Input) (v v' w w' : LedStates) (j : Nat)
    (hst : inp'.state = inp.state) (hro : inp'.role = inp.role)
    (h : setRightEye inp v = some w) (h' : setRightEye inp' v' = some w')
    (hj : faceRightRed0Deg ≤ j) (hv : v j = v' j) : w j = w' j := by
  by_cases hs : inp.state = STATE_STANDBY
  · rw [setRightEye_frame_right inp v w j h hs hj,
      setRightEye_frame_right inp' v' w' j h' (hst.trans hs) hj, hv]
  · unfold setRightEye at h h'
    rw [if_neg hs] at h
    rw [if_neg (by rw [hst]; exact hs), hro] at h'
    cases hr : inp.role <;> rw [hr] at h h' <;> exact setEyeColor_congr _ _ _ _ _ _ _ j h h' hv

theorem update_rightEye (cfg : Config) (inp : Input) (c : Nat) (v : LedStates)
    (hcfg : cfg.WellFormed) :
    ∃ v1 r, setRightEye inp (resetLeds v) = some v1 ∧ update cfg inp c v = some r ∧
      ∀ j, faceRightRed0Deg ≤ j → j < earsLeft0Deg → r.2 j = v1 j := by
  obtain ⟨v1, v2, h1, h2, hu⟩ := update_eq cfg inp c v
  refine ⟨v1, _, h1, hu, fun j hj hj' => ?_⟩
  rw [tail_face cfg inp c v2 _ hcfg hj', setLeftEye_frame inp v1 v2 j h2 hj]

/-- C4: outside standby, the right-eye cells after one update are the pattern the compositor
writes, at intensity on, for the colour the table gives the assigned role (striker red, libero
white, supporter green, jolly yellow, defenderone blue, defendertwo cyan, both searchers
magenta), and all 24 cells are off for a role outside the table. In every game state, two
snapshots with the same game state and role give the same right-eye cells. -/
theorem C4_right_eye_role_colour (cfg : Config) (inp : Input) (c : Nat) (v : LedStates)
    (hcfg : cfg.WellFormed) :
    ∃ r, update cfg inp c v = some r ∧
      (inp.state ≠ STATE_STANDBY →
        (∀ col, specRoleColour inp.role = some col →
          ∃ w, setEyeColor (fun _ => LEDState.off) false col LEDState.on = some w ∧
            ∀ j, faceRightRed0Deg ≤ j → j < earsLeft0Deg → r.2 j = w j) ∧
        (specRoleColour inp.role = none →
          ∀ j, faceRightRed0Deg ≤ j → j < earsLeft0Deg → r.2 j = LEDState.off)) ∧
      (∀ (inp' : Input) (c' : Nat) (v' : LedStates),
        inp'.state = inp.state → inp'.role = inp.role →
          ∃ r', update cfg inp' c' v' = some r' ∧
            ∀ j, faceRightRed0Deg ≤ j → j < earsLeft0Deg → r'.2 j = r.2 j) := by
  obtain ⟨v1, r, h1, hu, hr⟩ := update_rightEye cfg inp c v hcfg
  have hreset : ∀ (u : LedStates) (j : Nat), j < earsLeft0Deg → resetLeds u j = LEDState.off := by
    intro u j hj
    simp only [earsLeft0Deg] at hj
    rw [resetLeds_apply, if_pos (by simp; omega)]
  refine ⟨r, hu, fun hs => ⟨fun col hcol => ?_, fun hnone => ?_⟩, fun inp' c' v' hst hro => ?_⟩
  · have hcol' : ∀ n, col ≠ EyeColor.unknown n := by
      intro n hn
      subst hn
      cases hro : inp.role <;> rw [hro] at hcol <;> simp [specRoleColour] at hcol
    obtain ⟨w, hw⟩ := setEyeColor_isSome (fun _ => LEDState.off) false col LEDState.on hcol'
    refine ⟨w, hw, fun j hj hj' => ?_⟩
    rw [hr j hj hj']
    unfold setRightEye at h1
    rw [if_neg hs] at h1
    cases hro : inp.role <;> rw [hro] at h1 hcol <;>
      simp only [specRoleColour, Option.some.injEq, reduceCtorEq] at hcol <;> subst hcol <;>
      exact setEyeColor_congr _ _ _ _ _ _ _ j h1 hw (hreset v j hj')
  · intro j hj hj'
    rw [hr j hj hj']
    unfold setRightEye at h1
    rw [if_neg hs] at h1
    cases hro : inp.role <;> rw [hro] at h1 hnone <;>
      simp only [specRoleColour, reduceCtorEq] at hnone
    simp only [setEyeColor, Option.some.injEq] at h1
    subst h1
    simp only [faceRightRed0Deg, earsLeft0Deg] at hj hj'
    simp only [fillChannel_apply, hreset v j (by simp; omega)]
    split_ifs <;> rfl
  · obtain ⟨v1', r', h1', hu', hr'⟩ := update_rightEye cfg inp' c' v' hcfg
    refine ⟨r', hu', fun j hj hj' => ?_⟩
    rw [hr j hj hj', hr' j hj hj']
    exact (setRightEye_congr inp inp' _ _ v1 v1' j hst hro h1 h1' hj
      ((hreset v j hj').trans (hreset v' j hj').symm)).symm

/-- Witness of C4: the sample snapshot, a striker while playing. -/
theorem C4_right_eye_role_colour_witness :
    sampleConfig.WellFormed ∧ sampleInput.state ≠ STATE_STANDBY ∧
    specRoleColour sampleInput.role = some EyeColor.red ∧
    ∃ r, update sampleConfig sampleInput 0 (fun _ => LEDState.blinking) = some r ∧
      ∃ w, setEyeColor (fun _ => LEDState.off) false EyeColor.red LEDState.on = some w ∧
        ∀ j, faceRightRed0Deg ≤ j → j < earsLeft0Deg → r.2 j = w j :=
  ⟨by decide, by decide, rfl,
    match C4_right_eye_role_colour sampleConfig sampleInput 0 (fun _ => LEDState.blinking)
      (by decide) with
    | ⟨r, hu, ht, _⟩ => ⟨r, hu, (ht (by decide)).1 EyeColor.red rfl⟩⟩

/-! ## Chest and feet -/

/-- After the reset and the two eye resolvers every cell outside the eyes is off. -/
theorem eyes_off_outside (inp : Input) (v v1 v2 : LedStates) (j : Nat)
    (h1 : setRightEye inp (resetLeds v) = some v1) (h2 : setLeftEye inp v1 = some v2)
    (hj : earsLeft0Deg ≤ j) (hj' : j < numOfLEDs) : v2 j = LEDState.off := by
  have h24 : faceRightRed0Deg ≤ j := by
    simp only [earsLeft0Deg] at hj
    simp only [faceRightRed0Deg]
    omega
  rw [setLeftEye_frame inp v1 v2 j h2 h24, setRightEye_frame inp _ v1 j h1 hj, resetLeds_apply,
    if_pos hj']

/-- The chest cells after one update without whistle: what `setChestButton` writes over off. -/
theorem update_chest (cfg : Config) (inp : Input) (c : Nat) (v : LedStates)
    (hcfg : cfg.WellFormed) (hw : ¬ inp.timeSinceWhistle < 200) :
    ∃ r, update cfg inp c v = some r ∧
      (r.2 chestRed, r.2 chestGreen, r.2 chestBlue) =
        match inp.mode with
        | RobotInfo.Mode.unstiff => (LEDState.off, LEDState.off, LEDState.blinking)
        | RobotInfo.Mode.calibration => (LEDState.on, LEDState.off, LEDState.on)
        | _ =>
          if inp.penalty ≠ PENALTY_NONE then (LEDState.on, LEDState.off, LEDState.off)
          else if inp.state = STATE_STANDBY then (LEDState.off, LEDState.on, LEDState.on)
          else if inp.state = STATE_READY then (LEDState.off, LEDState.off, LEDState.on)
          else if inp.state = STATE_SET then (LEDState.on, LEDState.half, LEDState.off)
          else if inp.state = STATE_PLAYING then (LEDState.off, LEDState.on, LEDState.off)
          else (LEDState.off, LEDState.off, LEDState.off) := by
  obtain ⟨v1, v2, h1, h2, hu⟩ := update_eq cfg inp c v
  refine ⟨_, hu, ?_⟩
  have hr := eyes_off_outside inp v v1 v2 chestRed h1 h2 (by simp) (by simp)
  have hg := eyes_off_outside inp v v1 v2 chestGreen h1 h2 (by simp) (by simp)
  have hb := eyes_off_outside inp v v1 v2 chestBlue h1 h2 (by simp) (by simp)
  have key : ∀ j, chestRed ≤ j → j ≤ chestBlue →
      (setHead cfg inp c (setLeftEar cfg inp (setRightEar inp (setWhistleLeds inp
        (setRightFoot cfg inp (setLeftFoot inp (setChestButton inp v2))))))).2 j =
      setChestButton inp v2 j := by
    intro j hj hj'
    simp only [chestRed, chestBlue] at hj hj'
    rw [setHead_frame _ _ _ _ _ hcfg (by simp; omega), setLeftEar_frame _ _ _ _ (by simp; omega),
      setRightEar_frame _ _ _ (by simp; omega), setWhistleLeds_of_ge _ _ hw,
      setRightFoot_frame _ _ _ _ (by simp; omega), setLeftFoot_frame _ _ _ (by simp; omega)]
  rw [key _ (by simp) (by simp), key _ (by simp) (by simp), key _ (by simp) (by simp)]
  simp only [chestRed, chestGreen, chestBlue] at hr hg hb
  unfold setChestButton
  cases inp.mode <;> simp only [] <;> (try split_ifs) <;>
    simp [hr, hg, hb]

/-- C8: without whistle in the last 200 ms the chest cells (red, green, blue) after one update
are: blue blinking in mode unstiff; red and blue on in mode calibration; in any other mode red
on alone under a penalty, and without penalty green and blue on in standby, blue on in ready,
red on and green half in set, green on in playing, all three off in every other game state. -/
theorem C8_chest_button (cfg : Config) (inp : Input) (c : Nat) (v : LedStates)
    (hcfg : cfg.WellFormed) (hw : ¬ inp.timeSinceWhistle < 200) :
    ∃ r, update cfg inp c v = some r ∧
      (r.2 chestRed, r.2 chestGreen, r.2 chestBlue) =
        match inp.mode with
        | RobotInfo.Mode.unstiff => (LEDState.off, LEDState.off, LEDState.blinking)
        | RobotInfo.Mode.calibration => (LEDState.on, LEDState.off, LEDState.on)
        | _ =>
          if inp.penalty ≠ PENALTY_NONE then (LEDState.on, LEDState.off, LEDState.off)
          else if inp.state = STATE_STANDBY then (LEDState.off, LEDState.on, LEDState.on)
          else if inp.state = STATE_READY then (LEDState.off, LEDState.off, LEDState.on)
          else if inp.state = STATE_SET then (LEDState.on, LEDState.half, LEDState.off)
          else if inp.state = STATE_PLAYING then (LEDState.off, LEDState.on, LEDState.off)
          else (LEDState.off, LEDState.off, LEDState.off) :=
  update_chest cfg inp c v hcfg hw

/-- Witness of C8: the sample snapshot (mode active, no penalty, playing): green on alone. -/
theorem C8_chest_button_witness :
    sampleConfig.WellFormed ∧ ¬ sampleInput.timeSinceWhistle < 200 ∧
    ∃ r, update sampleConfig sampleInput 0 (fun _ => LEDState.blinking) = some r ∧
      (r.2 chestRed, r.2 chestGreen, r.2 chestBlue) =
        (LEDState.off, LEDState.on, LEDState.off) :=
  ⟨by decide, by decide,
    C8_chest_button sampleConfig sampleInput 0 (fun _ => LEDState.blinking) (by decide)
      (by decide)⟩

theorem setLeftFoot_cells (inp : Input) (w : LedStates) (hr : w footLeftRed = LEDState.off)
    (hg : w footLeftGreen = LEDState.off) (hb : w footLeftBlue = LEDState.off) :
    (setLeftFoot inp w footLeftRed, setLeftFoot inp w footLeftGreen,
      setLeftFoot inp w footLeftBlue) =
        if inp.fieldPlayerColour = TEAM_ORANGE then (LEDState.on, LEDState.half, LEDState.off)
        else if inp.fieldPlayerColour = TEAM_RED then (LEDState.on, LEDState.off, LEDState.off)
        else if inp.fieldPlayerColour = TEAM_WHITE then (LEDState.on, LEDState.on, LEDState.on)
        else if inp.fieldPlayerColour = TEAM_YELLOW then (LEDState.on, LEDState.on, LEDState.off)
        else if inp.fieldPlayerColour = TEAM_GREEN then (LEDState.off, LEDState.on, LEDState.off)
        else if inp.fieldPlayerColour = TEAM_PURPLE then (LEDState.on, LEDState.off, LEDState.on)
        else if inp.fieldPlayerColour = TEAM_BLUE then (LEDState.off, LEDState.off, LEDState.on)
        else if inp.fieldPlayerColour = TEAM_GRAY then
          (LEDState.half, LEDState.half, LEDState.half)
        else if inp.fieldPlayerColour = TEAM_BROWN then
          (LEDState.half, LEDState.half, LEDState.off)
        else (LEDState.off, LEDState.off, LEDState.off) := by
  simp only [footLeftRed, footLeftGreen, footLeftBlue] at hr hg hb
  unfold setLeftFoot
  rcases Nat.lt_or_ge inp.fieldPlayerColour 10 with h | h
  · generalize inp.fieldPlayerColour = col at h ⊢
    interval_cases col <;> simp [hr, hg, hb]
  · have h0 : inp.fieldPlayerColour ≠ 0 := by omega
    have h1 : inp.fieldPlayerColour ≠ 1 := by omega
    have h2 : inp.fieldPlayerColour ≠ 2 := by omega
    have h4 : inp.fieldPlayerColour ≠ 4 := by omega
    have h5 : inp.fieldPlayerColour ≠ 5 := by omega
    have h6 : inp.fieldPlayerColour ≠ 6 := by omega
    have h7 : inp.fieldPlayerColour ≠ 7 := by omega
    have h8 : inp.fieldPlayerColour ≠ 8 := by omega
    have h9 : inp.fieldPlayerColour ≠ 9 := by omega
    simp [hr, hg, hb, h0, h1, h2, h4, h5, h6, h7, h8, h9]

/-- The left-foot cells (red, green, blue) after one update, for every snapshot. -/
theorem update_leftFoot (cfg : Config) (inp : Input) (c : Nat) (v : LedStates)
    (hcfg : cfg.WellFormed) :
    ∃ r, update cfg inp c v = some r ∧
      (r.2 footLeftRed, r.2 footLeftGreen, r.2 footLeftBlue) =
        if inp.fieldPlayerColour = TEAM_ORANGE then (LEDState.on, LEDState.half, LEDState.off)
        else if inp.fieldPlayerColour = TEAM_RED then (LEDState.on, LEDState.off, LEDState.off)
        else if inp.fieldPlayerColour = TEAM_WHITE then (LEDState.on, LEDState.on, LEDState.on)
        else if inp.fieldPlayerColour = TEAM_YELLOW then (LEDState.on, LEDState.on, LEDState.off)
        else if inp.fieldPlayerColour = TEAM_GREEN then (LEDState.off, LEDState.on, LEDState.off)
        else if inp.fieldPlayerColour = TEAM_PURPLE then (LEDState.on, LEDState.off, LEDState.on)
        else if inp.fieldPlayerColour = TEAM_BLUE then (LEDState.off, LEDState.off, LEDState.on)
        else if inp.fieldPlayerColour = TEAM_GRAY then
          (LEDState.half, LEDState.half, LEDState.half)
        else if inp.fieldPlayerColour = TEAM_BROWN then
          (LEDState.half, LEDState.half, LEDState.off)
        else (LEDState.off, LEDState.off, LEDState.off) := by
  obtain ⟨v1, v2, h1, h2, hu⟩ := update_eq cfg inp c v
  refine ⟨_, hu, ?_⟩
  have hoff : ∀ j, footLeftRed ≤ j → j ≤ footLeftBlue → setChestButton inp v2 j = LEDState.off := by
    intro j hj hj'
    simp only [footLeftRed, footLeftBlue] at hj hj'
    rw [setChestButton_frame _ _ _ (by simp; omega)]
    exact eyes_off_outside inp v v1 v2 j h1 h2 (by simp; omega) (by simp; omega)
  have hr := hoff footLeftRed (by simp) (by simp)
  have hg := hoff footLeftGreen (by simp) (by simp)
  have hb := hoff footLeftBlue (by simp) (by simp)
  have key : ∀ j, footLeftRed ≤ j → j ≤ footLeftBlue →
      (setHead cfg inp c (setLeftEar cfg inp (setRightEar inp (setWhistleLeds inp
        (setRightFoot cfg inp (setLeftFoot inp (setChestButton inp v2))))))).2 j =
      setLeftFoot inp (setChestButton inp v2) j := by
    intro j hj hj'
    simp only [footLeftRed, footLeftBlue] at hj hj'
    rw [setHead_frame _ _ _ _ _ hcfg (by simp; omega), setLeftEar_frame _ _ _ _ (by simp; omega),
      setRightEar_frame _ _ _ (by simp; omega), setWhistleLeds_frame _ _ _ (by simp; omega),
      setRightFoot_frame _ _ _ _ (by simp; omega)]
  rw [key _ (by simp) (by simp), key _ (by simp) (by simp), key _ (by simp) (by simp)]
  exact setLeftFoot_cells inp _ hr hg hb

/-- The right-foot cells (red, green, blue) after one update, for every snapshot. -/
theorem update_rightFoot (cfg : Config) (inp : Input) (c : Nat) (v : LedStates)
    (hcfg : cfg.WellFormed) :
    ∃ r, update cfg inp c v = some r ∧
      (r.2 footRightRed, r.2 footRightGreen, r.2 footRightBlue) =
        if inp.state = STATE_INITIAL ∧ inp.gamePhase = GAME_PHASE_PENALTYSHOOT then
          if inp.kickingTeam = inp.teamNumber then (LEDState.off, LEDState.on, LEDState.off)
          else (LEDState.on, LEDState.on, LEDState.off)
        else if inp.timeSinceLastPacket < cfg.gameControllerTimeOut ∧ inp.state ≤ STATE_SET ∧
            inp.kickingTeam = inp.teamNumber then (LEDState.on, LEDState.on, LEDState.on)
        else (LEDState.off, LEDState.off, LEDState.off) := by
  obtain ⟨v1, v2, h1, h2, hu⟩ := update_eq cfg inp c v
  refine ⟨_, hu, ?_⟩
  have hoff : ∀ j, footRightRed ≤ j → j ≤ footRightBlue →
      setLeftFoot inp (setChestButton inp v2) j = LEDState.off := by
    intro j hj hj'
    simp only [footRightRed, footRightBlue] at hj hj'
    rw [setLeftFoot_frame _ _ _ (by simp; omega), setChestButton_frame _ _ _ (by simp; omega)]
    exact eyes_off_outside inp v v1 v2 j h1 h2 (by simp; omega) (by simp; omega)
  have hr := hoff footRightRed (by simp) (by simp)
  have hg := hoff footRightGreen (by simp) (by simp)
  have hb := hoff footRightBlue (by simp) (by simp)
  have key : ∀ j, footRightRed ≤ j → j ≤ footRightBlue →
      (setHead cfg inp c (setLeftEar cfg inp (setRightEar inp (setWhistleLeds inp
        (setRightFoot cfg inp (setLeftFoot inp (setChestButton inp v2))))))).2 j =
      setRightFoot cfg inp (setLeftFoot inp (setChestButton inp v2)) j := by
    intro j hj hj'
    simp only [footRightRed, footRightBlue] at hj hj'
    rw [setHead_frame _ _ _ _ _ hcfg (by simp; omega), setLeftEar_frame _ _ _ _ (by simp; omega),
      setRightEar_frame _ _ _ (by simp; omega), setWhistleLeds_frame _ _ _ (by simp; omega)]
  rw [key _ (by simp) (by simp), key _ (by simp) (by simp), key _ (by simp) (by simp)]
  simp only [footRightRed, footRightGreen, footRightBlue] at hr hg hb
  unfold setRightFoot
  by_cases hi : inp.state = STATE_INITIAL ∧ inp.gamePhase = GAME_PHASE_PENALTYSHOOT
  · by_cases hk : inp.kickingTeam = inp.teamNumber
    · simp [hi.1, hi.2, hk, hr, hg, hb]
    · simp [hi.1, hi.2, hk, hr, hg, hb]
  · have hi1 : ¬ (inp.state = STATE_INITIAL ∧ inp.gamePhase = GAME_PHASE_PENALTYSHOOT ∧
        inp.kickingTeam = inp.teamNumber) := fun h => hi ⟨h.1, h.2.1⟩
    have hi2 : ¬ (inp.state = STATE_INITIAL ∧ inp.gamePhase = GAME_PHASE_PENALTYSHOOT ∧
        inp.kickingTeam ≠ inp.teamNumber) := fun h => hi ⟨h.1, h.2.1⟩
    rw [if_neg hi1, if_neg hi2, if_neg hi]
    split_ifs <;> simp [hr, hg, hb]

/-- C9 (as amended): for every own-team colour the three left-foot cells (red, green, blue)
after one update are: orange red on and green half; red red on; white red, green and blue on;
yellow red and green on; green green on; purple red and blue on; blue blue on; gray all three
half; brown red and green half; any other colour all three off. -/
theorem C9_left_foot_team_colour (cfg : Config) (inp : Input) (c : Nat) (v : LedStates)
    (hcfg : cfg.WellFormed) :
    ∃ r, update cfg inp c v = some r ∧
      (r.2 footLeftRed, r.2 footLeftGreen, r.2 footLeftBlue) =
        if inp.fieldPlayerColour = TEAM_ORANGE then (LEDState.on, LEDState.half, LEDState.off)
        else if inp.fieldPlayerColour = TEAM_RED then (LEDState.on, LEDState.off, LEDState.off)
        else if inp.fieldPlayerColour = TEAM_WHITE then (LEDState.on, LEDState.on, LEDState.on)
        else if inp.fieldPlayerColour = TEAM_YELLOW then (LEDState.on, LEDState.on, LEDState.off)
        else if inp.fieldPlayerColour = TEAM_GREEN then (LEDState.off, LEDState.on, LEDState.off)
        else if inp.fieldPlayerColour = TEAM_PURPLE then (LEDState.on, LEDState.off, LEDState.on)
        else if inp.fieldPlayerColour = TEAM_BLUE then (LEDState.off, LEDState.off, LEDState.on)
        else if inp.fieldPlayerColour = TEAM_GRAY then
          (LEDState.half, LEDState.half, LEDState.half)
        else if inp.fieldPlayerColour = TEAM_BROWN then
          (LEDState.half, LEDState.half, LEDState.off)
        else (LEDState.off, LEDState.off, LEDState.off) :=
  update_leftFoot cfg inp c v hcfg

/-- Witness of C9 (as amended): the sample snapshot, own team in white: all three cells on. -/
theorem C9_left_foot_team_colour_witness :
    sampleConfig.WellFormed ∧
    ∃ r, update sampleConfig sampleInput 0 (fun _ => LEDState.blinking) = some r ∧
      (r.2 footLeftRed, r.2 footLeftGreen, r.2 footLeftBlue) =
        (LEDState.on, LEDState.on, LEDState.on) :=
  ⟨by decide,
    C9_left_foot_team_colour sampleConfig sampleInput 0 (fun _ => LEDState.blinking) (by decide)⟩

/-- Counterexample to C9 as stated: with own team colour yellow, and likewise with own team
colour white, the update returns a vector whose left-foot green cell is on, so the three cells
differ from the listed composite (red on alone for yellow, blue and red on with green off for
white). -/
theorem C9_left_foot_listed_composite_fails :
    (∃ r, update sampleConfig sampleInputYellow 0 (fun _ => LEDState.off) = some r ∧
      r.2 footLeftGreen = LEDState.on ∧
      (r.2 footLeftRed, r.2 footLeftGreen, r.2 footLeftBlue) ≠
        specLeftFootListed sampleInputYellow.fieldPlayerColour) ∧
    (∃ r, update sampleConfig sampleInput 0 (fun _ => LEDState.off) = some r ∧
      r.2 footLeftGreen = LEDState.on ∧
      (r.2 footLeftRed, r.2 footLeftGreen, r.2 footLeftBlue) ≠
        specLeftFootListed sampleInput.fieldPlayerColour) := by
  constructor
  · obtain ⟨r, hu, hr⟩ :=
      update_leftFoot sampleConfig sampleInputYellow 0 (fun _ => LEDState.off) (by decide)
    have hr' : (r.2 footLeftRed, r.2 footLeftGreen, r.2 footLeftBlue) =
        (LEDState.on, LEDState.on, LEDState.off) := hr
    refine ⟨r, hu, (Prod.mk.inj (Prod.mk.inj hr').2).1, ?_⟩
    rw [hr']
    decide
  · obtain ⟨r, hu, hr⟩ :=
      update_leftFoot sampleConfig sampleInput 0 (fun _ => LEDState.off) (by decide)
    have hr' : (r.2 footLeftRed, r.2 footLeftGreen, r.2 footLeftBlue) =
        (LEDState.on, LEDState.on, LEDState.on) := hr
    refine ⟨r, hu, (Prod.mk.inj (Prod.mk.inj hr').2).1, ?_⟩
    rw [hr']
    decide

/-- C10: the three right-foot cells (red, green, blue) after one update: in state initial of a
penalty shoot-out green on alone when the own team kicks, red and green on otherwise; else
all three on when the last game-controller packet is younger than the time-out, the game
state is at most set and the own team kicks; else all three off. -/
theorem C10_right_foot_priority (cfg : Config) (inp : Input) (c : Nat) (v : LedStates)
    (hcfg : cfg.WellFormed) :
    ∃ r, update cfg inp c v = some r ∧
      (r.2 footRightRed, r.2 footRightGreen, r.2 footRightBlue) =
        if inp.state = STATE_INITIAL ∧ inp.gamePhase = GAME_PHASE_PENALTYSHOOT then
          if inp.kickingTeam = inp.teamNumber then (LEDState.off, LEDState.on, LEDState.off)
          else (LEDState.on, LEDState.on, LEDState.off)
        else if inp.timeSinceLastPacket < cfg.gameControllerTimeOut ∧ inp.state ≤ STATE_SET ∧
            inp.kickingTeam = inp.teamNumber then (LEDState.on, LEDState.on, LEDState.on)
        else (LEDState.off, LEDState.off, LEDState.off) :=
  update_rightFoot cfg inp c v hcfg

/-- Witness of C10: the sample snapshot is in state playing, so the right foot stays off. -/
theorem C10_right_foot_priority_witness :
    sampleConfig.WellFormed ∧
    ∃ r, update sampleConfig sampleInput 0 (fun _ => LEDState.blinking) = some r ∧
      (r.2 footRightRed, r.2 footRightGreen, r.2 footRightBlue) =
        (LEDState.off, LEDState.off, LEDState.off) :=
  ⟨by decide,
    C10_right_foot_priority sampleConfig sampleInput 0 (fun _ => LEDState.blinking) (by decide)⟩

/-! ## The ears -/

/-- Without whistle, every ear and chest cell not yet written is off when the ear resolvers
start. -/
theorem pre_ears_off (cfg : Config) (inp : Input) (v v1 v2 : LedStates) (j : Nat)
    (h1 : setRightEye inp (resetLeds v) = some v1) (h2 : setLeftEye inp v1 = some v2)
    (hw : ¬ inp.timeSinceWhistle < 200) (hj : earsLeft0Deg ≤ j) (hj' : j < chestRed) :
    setWhistleLeds inp (setRightFoot cfg inp (setLeftFoot inp (setChestButton inp v2))) j =
      LEDState.off := by
  simp only [earsLeft0Deg, chestRed] at hj hj'
  rw [setWhistleLeds_of_ge _ _ hw, setRightFoot_frame _ _ _ _ (by simp; omega),
    setLeftFoot_frame _ _ _ (by simp; omega), setChestButton_frame _ _ _ (by simp; omega)]
  exact eyes_off_outside inp v v1 v2 j h1 h2 (by simp; omega) (by simp; omega)

/-- The right-ear cells after one update without whistle, for any battery level. -/
theorem update_rightEar (cfg : Config) (inp : Input) (c : Nat) (v : LedStates)
    (hcfg : cfg.WellFormed) (hw : ¬ inp.timeSinceWhistle < 200) :
    ∃ r, update cfg inp c v = some r ∧ ∀ i, i < 10 →
      r.2 (earsRight0Deg + i) =
        if i < (min (truncToInt (floatDiv (binary32Round inp.batteryLevel) pointOneF)) 9 +
            1).toNat
        then LEDState.on else LEDState.off := by
  obtain ⟨v1, v2, h1, h2, hu⟩ := update_eq cfg inp c v
  refine ⟨_, hu, fun i hi => ?_⟩
  rw [setHead_frame _ _ _ _ _ hcfg (by simp; omega), setLeftEar_frame _ _ _ _ (by simp),
    setRightEar_apply, pre_ears_off cfg inp v v1 v2 _ h1 h2 hw (by simp; omega) (by simp; omega)]
  simp only [earsRight0Deg]
  split_ifs <;> first | rfl | (exfalso; omega)

/-- Counting a lit prefix: if exactly the cells up to offset `k` are on, `k + 1` of the first
`n` cells are on (all `n` when `k + 1` exceeds `n`). -/
theorem countOn_initial (v : LedStates) (base k : Nat) (n : Nat)
    (h : ∀ i, i < n → v (base + i) = if i ≤ k then LEDState.on else LEDState.off) :
    countOn v base n = min n (k + 1) := by
  induction n with
  | zero => simp [countOn]
  | succ n ih =>
    have ih' := ih (fun i hi => h i (by omega))
    have hn := h n (by omega)
    simp only [countOn, ih', hn]
    by_cases hk : n ≤ k
    · simp only [if_pos hk, if_true]
      omega
    · simp only [if_neg hk, reduceCtorEq, if_false]
      omega

/-- No cell of a stretch is on when all its cells are off. -/
theorem countOn_of_off (v : LedStates) (base n : Nat)
    (h : ∀ i, i < n → v (base + i) = LEDState.off) : countOn v base n = 0 := by
  induction n with
  | zero => rfl
  | succ n ih =>
    simp only [countOn, ih (fun i hi => h i (by omega)), h n (by omega), reduceCtorEq, if_false]

/-- The right ear for a battery level that is not negative and whose `float` quotient fits an
`int`: the converted quotient is not negative, and the lit cells and their number follow from
it. -/
theorem update_rightEar_floor (cfg : Config) (inp : Input) (c : Nat) (v : LedStates)
    (hcfg : cfg.WellFormed) (hb : 0 ≤ inp.batteryLevel)
    (hb' : ∃ y, floatDiv (binary32Round inp.batteryLevel) pointOneF = some y ∧ y < 2147483648)
    (hw : ¬ inp.timeSinceWhistle < 200) :
    ∃ r, update cfg inp c v = some r ∧
      0 ≤ truncToInt (floatDiv (binary32Round inp.batteryLevel) pointOneF) ∧
      (∀ i, i < 10 → r.2 (earsRight0Deg + i) =
        if (i : Int) ≤ min (truncToInt (floatDiv (binary32Round inp.batteryLevel) pointOneF)) 9
        then LEDState.on else LEDState.off) ∧
      (countOn r.2 earsRight0Deg 10 : Int) =
        min (truncToInt (floatDiv (binary32Round inp.batteryLevel) pointOneF)) 9 + 1 := by
  obtain ⟨r, hu, hr⟩ := update_rightEar cfg inp c v hcfg hw
  obtain ⟨hK, hK0⟩ := truncToInt_batteryQuotient inp.batteryLevel hb hb'
  have hf : 0 ≤ truncToInt (floatDiv (binary32Round inp.batteryLevel) pointOneF) := by
    rw [hK]
    exact hK0
  generalize truncToInt (floatDiv (binary32Round inp.batteryLevel) pointOneF) = f at hr hf ⊢
  have hcell : ∀ i, i < 10 → r.2 (earsRight0Deg + i) =
      if i ≤ (min f 9).toNat then LEDState.on else LEDState.off := by
    intro i hi
    rw [hr i hi]
    split_ifs <;> first | rfl | (exfalso; omega)
  refine ⟨r, hu, hf, fun i hi => ?_, ?_⟩
  · rw [hcell i hi]
    split_ifs <;> first | rfl | (exfalso; omega)
  · rw [countOn_initial r.2 earsRight0Deg (min f 9).toNat 10 hcell]
    omega

/-- C6 (as amended): for a battery level b that is not negative and no whistle in the last
200 ms, with q the quotient of the float b by the float constant 0.1f in binary32 arithmetic,
q finite and below 2^31 so that it fits an int, and k = min(trunc(q), 9): k is not negative,
the right-ear cells that are on after one update are exactly those at offsets 0 to k, the
others are off; the number of lit cells is k + 1, never above 10, equal to 1 at b = 0, to 6 at
b = 0.55 and to 10 from b = 1 on, and it does not decrease when b grows. -/
theorem C6_right_ear_battery_level (cfg : Config) (inp : Input) (c : Nat) (v : LedStates)
    (hcfg : cfg.WellFormed) (hb : 0 ≤ inp.batteryLevel)
    (hb' : ∃ y, floatDiv (binary32Round inp.batteryLevel) pointOneF = some y ∧ y < 2147483648)
    (hw : ¬ inp.timeSinceWhistle < 200) :
    ∃ r, update cfg inp c v = some r ∧
      0 ≤ truncToInt (floatDiv (binary32Round inp.batteryLevel) pointOneF) ∧
      (∀ i, i < 10 → r.2 (earsRight0Deg + i) =
        if (i : Int) ≤ min (truncToInt (floatDiv (binary32Round inp.batteryLevel) pointOneF)) 9
        then LEDState.on else LEDState.off) ∧
      (countOn r.2 earsRight0Deg 10 : Int) =
        min (truncToInt (floatDiv (binary32Round inp.batteryLevel) pointOneF)) 9 + 1 ∧
      countOn r.2 earsRight0Deg 10 ≤ 10 ∧
      (inp.batteryLevel = 0 → countOn r.2 earsRight0Deg 10 = 1) ∧
      (inp.batteryLevel = 55 / 100 → countOn r.2 earsRight0Deg 10 = 6) ∧
      (1 ≤ inp.batteryLevel → countOn r.2 earsRight0Deg 10 = 10) ∧
      (∀ (inp' : Input) (c' : Nat) (v' : LedStates), ¬ inp'.timeSinceWhistle < 200 →
        inp.batteryLevel ≤ inp'.batteryLevel →
        (∃ y, floatDiv (binary32Round inp'.batteryLevel) pointOneF = some y ∧
          y < 2147483648) →
          ∃ r', update cfg inp' c' v' = some r' ∧
            countOn r.2 earsRight0Deg 10 ≤ countOn r'.2 earsRight0Deg 10) := by
  obtain ⟨r, hu, hk0, hcell, hcount⟩ := update_rightEar_floor cfg inp c v hcfg hb hb' hw
  obtain ⟨hK, -⟩ := truncToInt_batteryQuotient inp.batteryLevel hb hb'
  refine ⟨r, hu, hk0, hcell, hcount, by omega, fun h0 => ?_, fun h55 => ?_, fun h1 => ?_,
    fun inp' c' v' hw' hle hle' => ?_⟩
  · have hf : truncToInt (floatDiv (binary32Round inp.batteryLevel) pointOneF) = 0 := by
      rw [hK, h0, batteryQuotient_zero, Int.floor_zero]
    rw [hf] at hcount
    omega
  · have hf : truncToInt (floatDiv (binary32Round inp.batteryLevel) pointOneF) = 5 := by
      rw [hK, h55, batteryQuotient_55, Int.floor_eq_iff]
      norm_num
    rw [hf] at hcount
    omega
  · have hf : 10 ≤ truncToInt (floatDiv (binary32Round inp.batteryLevel) pointOneF) := by
      rw [hK, Int.le_floor]
      have := batteryQuotient_mono 1 inp.batteryLevel (by norm_num) h1
      rw [batteryQuotient_one] at this
      exact_mod_cast this
    omega
  · obtain ⟨r', hu', -, -, hcount'⟩ :=
      update_rightEar_floor cfg inp' c' v' hcfg (le_trans hb hle) hle' hw'
    obtain ⟨hK', -⟩ := truncToInt_batteryQuotient inp'.batteryLevel (le_trans hb hle) hle'
    refine ⟨r', hu', ?_⟩
    have hmono : truncToInt (floatDiv (binary32Round inp.batteryLevel) pointOneF) ≤
        truncToInt (floatDiv (binary32Round inp'.batteryLevel) pointOneF) := by
      rw [hK, hK']
      exact Int.floor_mono (batteryQuotient_mono _ _ hb hle)
    omega

/-- Witness of C6 (as amended): the sample snapshot with the battery at 55 percent: 6 cells
are lit. -/
theorem C6_right_ear_battery_level_witness :
    sampleConfig.WellFormed ∧ 0 ≤ sampleInputBattery55.batteryLevel ∧
    (∃ y, floatDiv (binary32Round sampleInputBattery55.batteryLevel) pointOneF = some y ∧
      y < 2147483648) ∧
    ¬ sampleInputBattery55.timeSinceWhistle < 200 ∧
    ∃ r, update sampleConfig sampleInputBattery55 0 (fun _ => LEDState.blinking) = some r ∧
      countOn r.2 earsRight0Deg 10 = 6 :=
  ⟨by decide, by norm_num [sampleInputBattery55, sampleInput],
    batteryQuotient_fits _ (by norm_num [sampleInputBattery55, sampleInput])
      (by norm_num [sampleInputBattery55, sampleInput]), by decide,
    match C6_right_ear_battery_level sampleConfig sampleInputBattery55 0
      (fun _ => LEDState.blinking) (by decide) (by norm_num [sampleInputBattery55, sampleInput])
      (batteryQuotient_fits _ (by norm_num [sampleInputBattery55, sampleInput])
        (by norm_num [sampleInputBattery55, sampleInput])) (by decide) with
    | ⟨r, hu, _, _, _, _, _, h55, _, _⟩ => ⟨r, hu, h55 rfl⟩⟩

/-- Counterexample to C6 as stated. With the battery level the float nearest to 0.7, whose
exact value gives min(floor(b / 0.1), 9) = 6, the update lights 8 right-ear cells, the cell at
offset 7 among them, where the stated rule lights 7. With the battery level 3000000000, which
is at least 1, the quotient does not fit an int and the update lights no right-ear cell,
where the stated rule lights 10. -/
theorem C6_right_ear_exact_quotient_fails :
    (∃ r, update sampleConfig sampleInputBattery07 0 (fun _ => LEDState.off) = some r ∧
      countOn r.2 earsRight0Deg 10 = 8 ∧ r.2 (earsRight0Deg + 7) = LEDState.on ∧
      min (Int.floor (sampleInputBattery07.batteryLevel / (1 / 10))) 9 = 6) ∧
    (∃ r, update sampleConfig sampleInputBatteryHuge 0 (fun _ => LEDState.off) = some r ∧
      countOn r.2 earsRight0Deg 10 = 0 ∧ 1 ≤ sampleInputBatteryHuge.batteryLevel) := by
  have hcfg : sampleConfig.WellFormed := by decide
  constructor
  · have hb : (0 : ℚ) ≤ sampleInputBattery07.batteryLevel := by
      norm_num [sampleInputBattery07, sampleInput]
    have hb' : ∃ y, floatDiv (binary32Round sampleInputBattery07.batteryLevel) pointOneF =
        some y ∧ y < 2147483648 :=
      batteryQuotient_fits _ hb (by norm_num [sampleInputBattery07, sampleInput])
    obtain ⟨r, hu, -, hcell, hcount⟩ :=
      update_rightEar_floor sampleConfig sampleInputBattery07 0 (fun _ => LEDState.off) hcfg
        hb hb' (by decide)
    have hf : truncToInt (floatDiv (binary32Round sampleInputBattery07.batteryLevel)
        pointOneF) = 7 := by
      rw [(truncToInt_batteryQuotient _ hb hb').1]
      have hv : sampleInputBattery07.batteryLevel = 11744051 / 16777216 := rfl
      rw [hv, batteryQuotient_07]
      exact Int.floor_intCast 7
    rw [hf] at hcell hcount
    refine ⟨r, hu, by omega, ?_, ?_⟩
    · rw [hcell 7 (by decide)]
      decide
    · have hv : sampleInputBattery07.batteryLevel = 11744051 / 16777216 := rfl
      have hfl : Int.floor (sampleInputBattery07.batteryLevel / (1 / 10)) = 6 := by
        rw [hv, Int.floor_eq_iff]
        norm_num
      rw [hfl]
      decide
  · obtain ⟨r, hu, hr⟩ :=
      update_rightEar sampleConfig sampleInputBatteryHuge 0 (fun _ => LEDState.off) hcfg
        (by decide)
    have hv : sampleInputBatteryHuge.batteryLevel = 3000000000 := rfl
    rw [hv, truncToInt_batteryQuotient_huge] at hr
    refine ⟨r, hu, countOn_of_off r.2 earsRight0Deg 10 (fun i hi => ?_), by rw [hv]; norm_num⟩
    have hnot : ¬ i < (min (-2 ^ 31 : Int) 9 + 1).toNat := by
      have h0 : (min (-2 ^ 31 : Int) 9 + 1).toNat = 0 := by decide
      rw [h0]
      exact Nat.not_lt_zero i
    rw [hr i hi, if_neg hnot]

/-- What `setLeftEar` writes over a left ear that is off: the ten cells in ring order. -/
theorem setLeftEar_cells (cfg : Config) (inp : Input) (w : LedStates)
    (hoff : ∀ j, earsLeft0Deg ≤ j → j < earsRight0Deg → w j = LEDState.off) :
    (setLeftEar cfg inp w earsLeft0Deg =
        if 0 < inp.numberOfTeammates then LEDState.on else LEDState.off) ∧
    (setLeftEar cfg inp w earsLeft36Deg =
        if 0 < inp.numberOfTeammates then LEDState.on else LEDState.off) ∧
    (setLeftEar cfg inp w earsLeft72Deg =
        if 1 < inp.numberOfTeammates then LEDState.on else LEDState.off) ∧
    (setLeftEar cfg inp w earsLeft108Deg =
        if 1 < inp.numberOfTeammates then LEDState.on else LEDState.off) ∧
    (setLeftEar cfg inp w earsLeft144Deg =
        if cfg.gameControllerTimeOut < inp.timeSinceLastPacket then LEDState.blinking
        else LEDState.off) ∧
    (setLeftEar cfg inp w earsLeft180Deg =
        if 2 < inp.numberOfTeammates then LEDState.on else LEDState.off) ∧
    (setLeftEar cfg inp w earsLeft216Deg =
        if 2 < inp.numberOfTeammates then LEDState.on else LEDState.off) ∧
    (setLeftEar cfg inp w earsLeft252Deg =
        if 3 < inp.numberOfTeammates then LEDState.on else LEDState.off) ∧
    (setLeftEar cfg inp w earsLeft288Deg =
        if 3 < inp.numberOfTeammates then LEDState.on else LEDState.off) ∧
    (setLeftEar cfg inp w earsLeft324Deg =
        if cfg.gameControllerTimeOut < inp.timeSinceLastPacket then LEDState.blinking
        else LEDState.off) := by
  have h0 := hoff 48 (by simp) (by simp)
  have h1 := hoff 49 (by simp) (by simp)
  have h2 := hoff 50 (by simp) (by simp)
  have h3 := hoff 51 (by simp) (by simp)
  have h4 := hoff 52 (by simp) (by simp)
  have h5 := hoff 53 (by simp) (by simp)
  have h6 := hoff 54 (by simp) (by simp)
  have h7 := hoff 55 (by simp) (by simp)
  have h8 := hoff 56 (by simp) (by simp)
  have h9 := hoff 57 (by simp) (by simp)
  have e : ∀ (p : Prop) [Decidable p] (u : LedStates) (a b : Nat) (s t : LEDState) (j : Nat),
      (if p then setLed (setLed u a s) b t else u) j =
        if p then (if j = b then t else if j = a then s else u j) else u j := by
    intro p _ u a b s t j
    split_ifs <;> simp_all
  unfold setLeftEar
  simp only [gt_iff_lt, e, earsLeft0Deg, earsLeft36Deg, earsLeft72Deg, earsLeft108Deg,
    earsLeft144Deg, earsLeft180Deg, earsLeft216Deg, earsLeft252Deg, earsLeft288Deg,
    earsLeft324Deg, h0, h1, h2, h3, h4, h5, h6, h7, h8, h9, Nat.reduceEqDiff, if_true, if_false,
    ite_self, and_self]

/-- Without whistle the left-ear cells of the result are what `setLeftEar` writes over off. -/
theorem update_leftEar (cfg : Config) (inp : Input) (c : Nat) (v : LedStates)
    (hcfg : cfg.WellFormed) (hw : ¬ inp.timeSinceWhistle < 200) :
    ∃ r w, update cfg inp c v = some r ∧
      (∀ j, earsLeft0Deg ≤ j → j < earsRight0Deg → w j = LEDState.off) ∧
      ∀ j, earsLeft0Deg ≤ j → j < earsRight0Deg → r.2 j = setLeftEar cfg inp w j := by
  obtain ⟨v1, v2, h1, h2, hu⟩ := update_eq cfg inp c v
  refine ⟨_, setRightEar inp (setWhistleLeds inp (setRightFoot cfg inp (setLeftFoot inp
    (setChestButton inp v2)))), hu, fun j hj hj' => ?_, fun j hj hj' => ?_⟩
  · simp only [earsLeft0Deg, earsRight0Deg] at hj hj'
    rw [setRightEar_frame _ _ _ (by simp; omega)]
    exact pre_ears_off cfg inp v v1 v2 j h1 h2 hw (by simp; omega) (by simp; omega)
  · simp only [earsLeft0Deg, earsRight0Deg] at hj hj'
    rw [setHead_frame _ _ _ _ _ hcfg (by simp; omega)]

theorem countOn_leftEar (u : LedStates) (n : Nat)
    (c0 : u 48 = if 0 < n then LEDState.on else LEDState.off)
    (c1 : u 49 = if 0 < n then LEDState.on else LEDState.off)
    (c2 : u 50 = if 1 < n then LEDState.on else LEDState.off)
    (c3 : u 51 = if 1 < n then LEDState.on else LEDState.off)
    (c4 : u 52 ≠ LEDState.on)
    (c5 : u 53 = if 2 < n then LEDState.on else LEDState.off)
    (c6 : u 54 = if 2 < n then LEDState.on else LEDState.off)
    (c7 : u 55 = if 3 < n then LEDState.on else LEDState.off)
    (c8 : u 56 = if 3 < n then LEDState.on else LEDState.off)
    (c9 : u 57 ≠ LEDState.on) :
    countOn u 48 10 = 2 * min n 4 := by
  simp only [countOn, Nat.add_zero, Nat.reduceAdd, c0, c1, c2, c3, c5, c6, c7, c8, if_neg c4,
    if_neg c9]
  rcases n with _ | _ | _ | _ | n <;> simp

/-- C7: without whistle in the last 200 ms and with n connected teammates, the left ear after
one update has the pairs (0, 36), (72, 108), (180, 216), (252, 288) degrees on as n exceeds 0,
1, 2, 3 and off otherwise, so exactly 2 min(n, 4) cells are on; the cells at 144 and 324 degrees
are blinking when the time since the last game-controller packet exceeds the time-out and off
otherwise; these two cells are none of the eight teammate cells. -/
theorem C7_left_ear_teammates_and_connection (cfg : Config) (inp : Input) (c : Nat)
    (v : LedStates) (hcfg : cfg.WellFormed) (hw : ¬ inp.timeSinceWhistle < 200) :
    ∃ r, update cfg inp c v = some r ∧
      (r.2 earsLeft0Deg = if 0 < inp.numberOfTeammates then LEDState.on else LEDState.off) ∧
      (r.2 earsLeft36Deg = if 0 < inp.numberOfTeammates then LEDState.on else LEDState.off) ∧
      (r.2 earsLeft72Deg = if 1 < inp.numberOfTeammates then LEDState.on else LEDState.off) ∧
      (r.2 earsLeft108Deg = if 1 < inp.numberOfTeammates then LEDState.on else LEDState.off) ∧
      (r.2 earsLeft144Deg =
        if cfg.gameControllerTimeOut < inp.timeSinceLastPacket then LEDState.blinking
        else LEDState.off) ∧
      (r.2 earsLeft180Deg = if 2 < inp.numberOfTeammates then LEDState.on else LEDState.off) ∧
      (r.2 earsLeft216Deg = if 2 < inp.numberOfTeammates then LEDState.on else LEDState.off) ∧
      (r.2 earsLeft252Deg = if 3 < inp.numberOfTeammates then LEDState.on else LEDState.off) ∧
      (r.2 earsLeft288Deg = if 3 < inp.numberOfTeammates then LEDState.on else LEDState.off) ∧
      (r.2 earsLeft324Deg =
        if cfg.gameControllerTimeOut < inp.timeSinceLastPacket then LEDState.blinking
        else LEDState.off) ∧
      countOn r.2 earsLeft0Deg 10 = 2 * min inp.numberOfTeammates 4 ∧
      (∀ p, p ∈ [earsLeft144Deg, earsLeft324Deg] →
        p ∉ [earsLeft0Deg, earsLeft36Deg, earsLeft72Deg, earsLeft108Deg, earsLeft180Deg,
          earsLeft216Deg, earsLeft252Deg, earsLeft288Deg]) := by
  obtain ⟨r, w, hu, hoff, hr⟩ := update_leftEar cfg inp c v hcfg hw
  obtain ⟨c0, c1, c2, c3, c4, c5, c6, c7, c8, c9⟩ := setLeftEar_cells cfg inp w hoff
  rw [← hr _ (by simp) (by simp)] at c0 c1 c2 c3 c4 c5 c6 c7 c8 c9
  refine ⟨r, hu, c0, c1, c2, c3, c4, c5, c6, c7, c8, c9, ?_, by decide⟩
  simp only [earsLeft0Deg, earsLeft36Deg, earsLeft72Deg, earsLeft108Deg, earsLeft144Deg,
    earsLeft180Deg, earsLeft216Deg, earsLeft252Deg, earsLeft288Deg, earsLeft324Deg] at *
  refine countOn_leftEar r.2 inp.numberOfTeammates c0 c1 c2 c3 ?_ c5 c6 c7 c8 ?_
  · rw [c4]
    split_ifs <;> decide
  · rw [c9]
    split_ifs <;> decide

/-- Witness of C7: three teammates and a game-controller packet 5000 ms old: 6 cells are on
and the cell at 144 degrees blinks. -/
theorem C7_left_ear_teammates_and_connection_witness :
    sampleConfig.WellFormed ∧ ¬ sampleInputPacketLost.timeSinceWhistle < 200 ∧
    ∃ r, update sampleConfig sampleInputPacketLost 0 (fun _ => LEDState.half) = some r ∧
      countOn r.2 earsLeft0Deg 10 = 6 ∧ r.2 earsLeft144Deg = LEDState.blinking :=
  ⟨by decide, by decide,
    match C7_left_ear_teammates_and_connection sampleConfig sampleInputPacketLost 0
      (fun _ => LEDState.half) (by decide) (by decide) with
    | ⟨r, hu, _, _, _, _, h144, _, _, _, _, _, hcount, _⟩ => ⟨r, hu, hcount, h144⟩⟩

/-! ## The whistle overlay and the order of the resolvers -/

/-- Whatever ran before, `setHead` leaves every head-ring cell off or on. -/
theorem setHead_head_cells (cfg : Config) (inp : Input) (c : Nat) (w : LedStates) (j : Nat)
    (hj : headRearLeft0 ≤ j) (hj' : j ≤ headMiddleLeft0) :
    (setHead cfg inp c w).2 j = LEDState.off ∨ (setHead cfg inp c w).2 j = LEDState.on := by
  simp only [headRearLeft0, headMiddleLeft0] at hj hj'
  have hclear : clearHead w headRearLeft0 headMiddleLeft0 j = LEDState.off := by
    rw [clearHead_apply, if_pos (by simp; omega)]
  have hclear' : ∀ u : LedStates, clearHead u firstHeadLED lastHeadLED j = LEDState.off := by
    intro u
    rw [clearHead_apply, if_pos (by simp; omega)]
  unfold setHead
  simp only []
  split_ifs
  · simp only [setLed_apply, hclear']
    split_ifs <;> simp
  · split <;> simp only [setLed_apply, hclear'] <;> (try split_ifs) <;> simp
  · exact Or.inl hclear

/-- The head-ring cells of the result are never fast-blinking, with or without whistle. -/
theorem update_head_not_fastBlinking (cfg : Config) (inp : Input) (c : Nat) (v : LedStates) :
    ∃ r, update cfg inp c v = some r ∧
      ∀ j, headRearLeft0 ≤ j → j ≤ headMiddleLeft0 → r.2 j ≠ LEDState.fastBlinking := by
  obtain ⟨v1, v2, h1, h2, hu⟩ := update_eq cfg inp c v
  refine ⟨_, hu, fun j hj hj' => ?_⟩
  rcases setHead_head_cells cfg inp c _ j hj hj' with h | h <;> rw [h] <;> decide

/-- The first right-ear cell of the result is on for a battery level that is not negative,
with or without whistle. -/
theorem update_rightEar_first (cfg : Config) (inp : Input) (c : Nat) (v : LedStates)
    (hcfg : cfg.WellFormed) (hb : 0 ≤ inp.batteryLevel)
    (hb' : ∃ y, floatDiv (binary32Round inp.batteryLevel) pointOneF = some y ∧ y < 2147483648) :
    ∃ r, update cfg inp c v = some r ∧ r.2 earsRight0Deg = LEDState.on := by
  obtain ⟨v1, v2, h1, h2, hu⟩ := update_eq cfg inp c v
  refine ⟨_, hu, ?_⟩
  obtain ⟨hK, hf⟩ := truncToInt_batteryQuotient inp.batteryLevel hb hb'
  rw [setHead_frame _ _ _ _ _ hcfg (by simp), setLeftEar_frame _ _ _ _ (by simp),
    setRightEar_apply, hK, if_pos]
  simp only [earsRight0Deg]
  omega

/-- With a whistle in the last 200 ms the red and the green chest cell are fast-blinking. -/
theorem update_chest_whistle (cfg : Config) (inp : Input) (c : Nat) (v : LedStates)
    (hcfg : cfg.WellFormed) (hw : inp.timeSinceWhistle < 200) :
    ∃ r, update cfg inp c v = some r ∧ r.2 chestRed = LEDState.fastBlinking ∧
      r.2 chestGreen = LEDState.fastBlinking := by
  obtain ⟨v1, v2, h1, h2, hu⟩ := update_eq cfg inp c v
  refine ⟨_, hu, ?_, ?_⟩
  · rw [setHead_frame _ _ _ _ _ hcfg (by simp), setLeftEar_frame _ _ _ _ (by simp),
      setRightEar_frame _ _ _ (by simp), setWhistleLeds_of_lt _ _ _ hw, if_pos (by simp)]
  · rw [setHead_frame _ _ _ _ _ hcfg (by simp), setLeftEar_frame _ _ _ _ (by simp),
      setRightEar_frame _ _ _ (by simp), setWhistleLeds_of_lt _ _ _ hw, if_pos (by simp)]

/-- The result of `update` is unique: two descriptions of it speak of the same vector. -/
theorem update_unique (cfg : Config) (inp : Input) (c : Nat) (v : LedStates)
    (r r' : Nat × LedStates) (h : update cfg inp c v = some r) (h' : update cfg inp c v = some r') :
    r = r' :=
  Option.some.inj (h.symm.trans h')

/-- C1 (the code at the failing input): with a whistle detected 50 ms ago, one update returns a
vector whose red and green chest cells are fast-blinking, but whose first right-ear cell is on
and none of whose head-ring cells is fast-blinking: the ear and head resolvers run after
`setWhistleLeds` and overwrite it. -/
theorem C1_whistle_overlay_overwritten :
    ∃ r, update sampleConfig sampleInputWhistle 0 (fun _ => LEDState.off) = some r ∧
      r.2 chestRed = LEDState.fastBlinking ∧ r.2 chestGreen = LEDState.fastBlinking ∧
      r.2 earsRight0Deg = LEDState.on ∧
      ∀ j, headRearLeft0 ≤ j → j ≤ headMiddleLeft0 → r.2 j ≠ LEDState.fastBlinking := by
  have hcfg : sampleConfig.WellFormed := by decide
  obtain ⟨r, hu, hhead⟩ :=
    update_head_not_fastBlinking sampleConfig sampleInputWhistle 0 (fun _ => LEDState.off)
  obtain ⟨r1, hu1, hear⟩ :=
    update_rightEar_first sampleConfig sampleInputWhistle 0 (fun _ => LEDState.off) hcfg
      (by norm_num [sampleInputWhistle, sampleInput])
      (batteryQuotient_fits _ (by norm_num [sampleInputWhistle, sampleInput])
        (by norm_num [sampleInputWhistle, sampleInput]))
  obtain ⟨r2, hu2, hred, hgreen⟩ :=
    update_chest_whistle sampleConfig sampleInputWhistle 0 (fun _ => LEDState.off) hcfg
      (by decide)
  have e1 := update_unique _ _ _ _ r r1 hu hu1
  have e2 := update_unique _ _ _ _ r r2 hu hu2
  subst e1
  subst e2
  exact ⟨r, hu, hred, hgreen, hear, hhead⟩

/-! ## Standby -/

/-- In standby every right-eye cell of the result is off: the standby branch of `setRightEye`
writes the left eye. -/
theorem update_standby_rightEye (cfg : Config) (inp : Input) (c : Nat) (v : LedStates)
    (hcfg : cfg.WellFormed) (hs : inp.state = STATE_STANDBY) :
    ∃ r, update cfg inp c v = some r ∧
      ∀ j, faceRightRed0Deg ≤ j → j < earsLeft0Deg → r.2 j = LEDState.off := by
  obtain ⟨v1, r, h1, hu, hr⟩ := update_rightEye cfg inp c v hcfg
  refine ⟨r, hu, fun j hj hj' => ?_⟩
  rw [hr j hj hj', setRightEye_frame_right inp _ v1 j h1 hs hj, resetLeds_apply, if_pos]
  simp only [earsLeft0Deg] at hj'
  simp only [numOfLEDs]
  omega

/-- In standby with ground contact the left eye of the result is green when the
referee-measures count is positive and red otherwise (red, green, blue per ring position). -/
theorem update_standby_leftEye (cfg : Config) (inp : Input) (c : Nat) (v : LedStates)
    (hcfg : cfg.WellFormed) (hs : inp.state = STATE_STANDBY) (hc : inp.contact = true) :
    ∃ r, update cfg inp c v = some r ∧ ∀ i, i < 8 →
      (r.2 (faceLeftRed0Deg + i), r.2 (faceLeftGreen0Deg + i), r.2 (faceLeftBlue0Deg + i)) =
        if inp.measures > 0 then (LEDState.off, LEDState.on, LEDState.off)
        else (LEDState.on, LEDState.off, LEDState.off) := by
  obtain ⟨v1, v2, h1, h2, hu⟩ := update_eq cfg inp c v
  refine ⟨_, hu, fun i hi => ?_⟩
  rw [tail_face cfg inp c v2 _ hcfg (by simp; omega), tail_face cfg inp c v2 _ hcfg (by simp; omega),
    tail_face cfg inp c v2 _ hcfg (by simp; omega)]
  have hoff : ∀ j, j < 24 → resetLeds v j = LEDState.off := by
    intro j hj
    rw [resetLeds_apply, if_pos (by simp; omega)]
  have hr := hoff i (by omega)
  have hg := hoff (8 + i) (by omega)
  have hb := hoff (16 + i) (by omega)
  simp only [setRightEye, hs, if_true] at h1
  simp only [setLeftEye, hc, Bool.not_true, Bool.false_eq_true, if_false, hs, if_true] at h2
  simp only [faceLeftRed0Deg, faceLeftGreen0Deg, faceLeftBlue0Deg, Nat.zero_add]
  by_cases hm : inp.measures > 0 <;>
    simp only [hm, if_true, if_false, setEyeColor, Option.some.injEq] at h1 h2 ⊢ <;>
    subst h1 <;> subst h2 <;>
    simp only [fillChannel_apply, faceLeftRed0Deg, redOffset, greenOffset,
      faceLeftGreen0Deg, hr, hg, hb, Prod.mk.injEq] <;>
    refine ⟨?_, ?_, ?_⟩ <;> split_ifs <;> first | rfl | (exfalso; omega)

/-- C2 (the code at the failing input): in standby with ground contact and no referee measure,
one update returns a vector whose left eye is red but whose right eye is off in all 24 cells,
its red cells included. -/
theorem C2_standby_right_eye_stays_off :
    ∃ r, update sampleConfig sampleInputStandby 0 (fun _ => LEDState.off) = some r ∧
      (∀ i, i < 8 → r.2 (faceLeftRed0Deg + i) = LEDState.on) ∧
      (∀ i, i < 8 → r.2 (faceRightRed0Deg + i) = LEDState.off) ∧
      ∀ j, faceRightRed0Deg ≤ j → j < earsLeft0Deg → r.2 j = LEDState.off := by
  have hcfg : sampleConfig.WellFormed := by decide
  obtain ⟨r, hu, hright⟩ :=
    update_standby_rightEye sampleConfig sampleInputStandby 0 (fun _ => LEDState.off) hcfg rfl
  obtain ⟨r1, hu1, hleft⟩ :=
    update_standby_leftEye sampleConfig sampleInputStandby 0 (fun _ => LEDState.off) hcfg rfl rfl
  have e1 := update_unique _ _ _ _ r r1 hu hu1
  subst e1
  refine ⟨r, hu, fun i hi => ?_, fun i hi => ?_, hright⟩
  · have h := hleft i hi
    rw [if_neg (by decide)] at h
    exact (Prod.mk.inj h).1
  · exact hright _ (by simp) (by simp; omega)

/-! ## The head ring and the counter -/

/-- The counter `setHead` leaves: advanced modulo the period when charging, unchanged
otherwise. -/
theorem setHead_fst (cfg : Config) (inp : Input) (c : Nat) (w : LedStates) :
    (setHead cfg inp c w).1 =
      if inp.batteryCharging = true then (c + 1) % (numOfHeadLEDs * cfg.chargingLightSlowness)
      else c := by
  unfold setHead
  simp only []
  split_ifs
  · rfl
  · split <;> rfl
  · rfl

/-- The head ring `setHead` leaves when charging: on at the two table entries, off elsewhere. -/
theorem setHead_charging_cells (cfg : Config) (inp : Input) (c : Nat) (w : LedStates) (j : Nat)
    (hch : inp.batteryCharging = true) (hj : headRearLeft0 ≤ j) (hj' : j ≤ headMiddleLeft0) :
    (setHead cfg inp c w).2 j =
      if j = cfg.headLEDCircle ((c + 1) % (numOfHeadLEDs * cfg.chargingLightSlowness) /
            cfg.chargingLightSlowness) ∨
          j = cfg.headLEDCircle (((c + 1) % (numOfHeadLEDs * cfg.chargingLightSlowness) /
            cfg.chargingLightSlowness + 1) % numOfHeadLEDs)
      then LEDState.on else LEDState.off := by
  simp only [headRearLeft0, headMiddleLeft0] at hj hj'
  have hclear : ∀ u : LedStates, clearHead u firstHeadLED lastHeadLED j = LEDState.off := by
    intro u
    rw [clearHead_apply, if_pos (by simp; omega)]
  unfold setHead
  simp only [hch, if_true, setLed_apply, hclear]
  split_ifs <;> simp_all

/-- The head ring `setHead` leaves when not charging. -/
theorem setHead_not_charging_cells (cfg : Config) (inp : Input) (c : Nat) (w : LedStates)
    (j : Nat) (hch : inp.batteryCharging = false) (hj : headRearLeft0 ≤ j)
    (hj' : j ≤ headMiddleLeft0) :
    (setHead cfg inp c w).2 j =
      if inp.outOfPackets = true ∧ inp.state = STATE_PLAYING then
        if inp.time / cfg.outOfPacketsLightSlowness % 3 = 0 then
          if j = headFrontLeft1 ∨ j = headFrontRight1 ∨ j = headRearLeft2 ∨ j = headRearRight2
          then LEDState.on else LEDState.off
        else if inp.time / cfg.outOfPacketsLightSlowness % 3 = 1 then
          if j = headFrontLeft0 ∨ j = headFrontRight0 ∨ j = headRearLeft1 ∨ j = headRearRight1
          then LEDState.on else LEDState.off
        else
          if j = headMiddleLeft0 ∨ j = headMiddleRight0 ∨ j = headRearLeft0 ∨ j = headRearRight0
          then LEDState.on else LEDState.off
      else LEDState.off := by
  simp only [headRearLeft0, headMiddleLeft0] at hj hj'
  have hclear : ∀ u : LedStates, clearHead u firstHeadLED lastHeadLED j = LEDState.off := by
    intro u
    rw [clearHead_apply, if_pos (by simp; omega)]
  have hclear0 : clearHead w headRearLeft0 headMiddleLeft0 j = LEDState.off := by
    rw [clearHead_apply, if_pos (by simp; omega)]
  have hlt : inp.time / cfg.outOfPacketsLightSlowness % 3 < 3 := Nat.mod_lt _ (by decide)
  unfold setHead
  simp only [hch, Bool.false_eq_true, if_false, Bool.and_eq_true, decide_eq_true_eq]
  by_cases hp : inp.outOfPackets = true ∧ inp.state = STATE_PLAYING
  · rw [if_pos hp, if_pos hp]
    generalize inp.time / cfg.outOfPacketsLightSlowness % 3 = f at hlt ⊢
    interval_cases f <;> simp only [setLed_apply, hclear] <;> simp <;> split_ifs <;> simp_all
  · rw [if_neg hp, if_neg hp]
    exact hclear0

/-- What a call of `update` returns is what `setHead` returns on the vector the earlier
resolvers built. -/
theorem update_setHead (cfg : Config) (inp : Input) (c : Nat) (v : LedStates) :
    ∃ w, update cfg inp c v = some (setHead cfg inp c w) := by
  obtain ⟨v1, v2, -, -, hu⟩ := update_eq cfg inp c v
  exact ⟨_, hu⟩

/-- One update when charging: the counter advances modulo the period and the head ring shows
the two table entries the new counter selects. -/
theorem update_charging (cfg : Config) (inp : Input) (c : Nat) (v : LedStates)
    (hch : inp.batteryCharging = true) :
    ∃ r, update cfg inp c v = some r ∧
      r.1 = (c + 1) % (numOfHeadLEDs * cfg.chargingLightSlowness) ∧
      ∀ j, headRearLeft0 ≤ j → j ≤ headMiddleLeft0 →
        r.2 j =
          if j = cfg.headLEDCircle (r.1 / cfg.chargingLightSlowness) ∨
              j = cfg.headLEDCircle ((r.1 / cfg.chargingLightSlowness + 1) % numOfHeadLEDs)
          then LEDState.on else LEDState.off := by
  obtain ⟨w, hu⟩ := update_setHead cfg inp c v
  have h1 : (setHead cfg inp c w).1 = (c + 1) % (numOfHeadLEDs * cfg.chargingLightSlowness) := by
    rw [setHead_fst, if_pos hch]
  refine ⟨_, hu, h1, fun j hj hj' => ?_⟩
  rw [h1]
  exact setHead_charging_cells cfg inp c w j hch hj hj'

/-- One update when not charging: the counter is kept and the head ring shows the frame of
the packet alarm, or is off. -/
theorem update_not_charging (cfg : Config) (inp : Input) (c : Nat) (v : LedStates)
    (hch : inp.batteryCharging = false) :
    ∃ r, update cfg inp c v = some r ∧ r.1 = c ∧
      ∀ j, headRearLeft0 ≤ j → j ≤ headMiddleLeft0 →
        r.2 j =
          if inp.outOfPackets = true ∧ inp.state = STATE_PLAYING then
            if inp.time / cfg.outOfPacketsLightSlowness % 3 = 0 then
              if j = headFrontLeft1 ∨ j = headFrontRight1 ∨ j = headRearLeft2 ∨
                  j = headRearRight2
              then LEDState.on else LEDState.off
            else if inp.time / cfg.outOfPacketsLightSlowness % 3 = 1 then
              if j = headFrontLeft0 ∨ j = headFrontRight0 ∨ j = headRearLeft1 ∨
                  j = headRearRight1
              then LEDState.on else LEDState.off
            else
              if j = headMiddleLeft0 ∨ j = headMiddleRight0 ∨ j = headRearLeft0 ∨
                  j = headRearRight0
              then LEDState.on else LEDState.off
          else LEDState.off := by
  obtain ⟨w, hu⟩ := update_setHead cfg inp c v
  refine ⟨_, hu, ?_, fun j hj hj' => setHead_not_charging_cells cfg inp c w j hch hj hj'⟩
  rw [setHead_fst, hch]
  simp

/-- Four cells of the head ring are on in each frame of the packet alarm. -/
theorem countOn_head_frame (u : LedStates) (f : Nat) (hf : f < 3)
    (h : ∀ j, headRearLeft0 ≤ j → j ≤ headMiddleLeft0 →
      u j =
        if f = 0 then
          if j = headFrontLeft1 ∨ j = headFrontRight1 ∨ j = headRearLeft2 ∨ j = headRearRight2
          then LEDState.on else LEDState.off
        else if f = 1 then
          if j = headFrontLeft0 ∨ j = headFrontRight0 ∨ j = headRearLeft1 ∨ j = headRearRight1
          then LEDState.on else LEDState.off
        else
          if j = headMiddleLeft0 ∨ j = headMiddleRight0 ∨ j = headRearLeft0 ∨ j = headRearRight0
          then LEDState.on else LEDState.off) :
    countOn u headRearLeft0 numOfHeadLEDs = 4 := by
  have h0 := h 71 (by simp) (by simp)
  have h1 := h 72 (by simp) (by simp)
  have h2 := h 73 (by simp) (by simp)
  have h3 := h 74 (by simp) (by simp)
  have h4 := h 75 (by simp) (by simp)
  have h5 := h 76 (by simp) (by simp)
  have h6 := h 77 (by simp) (by simp)
  have h7 := h 78 (by simp) (by simp)
  have h8 := h 79 (by simp) (by simp)
  have h9 := h 80 (by simp) (by simp)
  have h10 := h 81 (by simp) (by simp)
  have h11 := h 82 (by simp) (by simp)
  clear h
  interval_cases f <;> simp at h0 h1 h2 h3 h4 h5 h6 h7 h8 h9 h10 h11 <;>
    simp [countOn, h0, h1, h2, h3, h4, h5, h6, h7, h8, h9, h10, h11]

/-- C17: with the battery-charging flag set and no whistle in the last 200 ms, whatever the
packets-exhausted flag and the game state are, one update sets the counter to
(c + 1) mod (numOfHeadLEDs * chargingLightSlowness), and the head-ring cells that are on are
exactly the two entries of headLEDCircle at index counter / chargingLightSlowness and at the
next index modulo numOfHeadLEDs (both are on), every other head-ring cell being off. -/
theorem C17_charging_lights_two_ring_cells (cfg : Config) (inp : Input) (c : Nat)
    (v : LedStates) (hcfg : cfg.WellFormed) (hch : inp.batteryCharging = true)
    (_hw : ¬ inp.timeSinceWhistle < 200) :
    ∃ r, update cfg inp c v = some r ∧
      r.1 = (c + 1) % (numOfHeadLEDs * cfg.chargingLightSlowness) ∧
      (∀ j, headRearLeft0 ≤ j → j ≤ headMiddleLeft0 →
        r.2 j =
          if j = cfg.headLEDCircle (r.1 / cfg.chargingLightSlowness) ∨
              j = cfg.headLEDCircle ((r.1 / cfg.chargingLightSlowness + 1) % numOfHeadLEDs)
          then LEDState.on else LEDState.off) ∧
      r.2 (cfg.headLEDCircle (r.1 / cfg.chargingLightSlowness)) = LEDState.on ∧
      r.2 (cfg.headLEDCircle ((r.1 / cfg.chargingLightSlowness + 1) % numOfHeadLEDs)) =
        LEDState.on := by
  obtain ⟨r, hu, hc, hcells⟩ := update_charging cfg inp c v hch
  obtain ⟨hs, -, ht⟩ := hcfg
  have hidx : r.1 / cfg.chargingLightSlowness < numOfHeadLEDs := by
    rw [hc, Nat.div_lt_iff_lt_mul hs]
    exact Nat.mod_lt _ (Nat.mul_pos (by simp) hs)
  have h1 := ht _ hidx
  have h2 := ht ((r.1 / cfg.chargingLightSlowness + 1) % numOfHeadLEDs)
    (Nat.mod_lt _ (by simp))
  refine ⟨r, hu, hc, hcells, ?_, ?_⟩
  · rw [hcells _ h1.1 h1.2, if_pos (Or.inl rfl)]
  · rw [hcells _ h2.1 h2.2, if_pos (Or.inr rfl)]

/-- Witness of C17: the sample snapshot on the charger, counter 4: the counter becomes 5. -/
theorem C17_charging_lights_two_ring_cells_witness :
    sampleConfig.WellFormed ∧ sampleInputCharging.batteryCharging = true ∧
    ¬ sampleInputCharging.timeSinceWhistle < 200 ∧
    ∃ r, update sampleConfig sampleInputCharging 4 (fun _ => LEDState.blinking) = some r ∧
      r.1 = 5 ∧
      r.2 (sampleConfig.headLEDCircle (r.1 / sampleConfig.chargingLightSlowness)) = LEDState.on :=
  ⟨by decide, rfl, by decide,
    match C17_charging_lights_two_ring_cells sampleConfig sampleInputCharging 4
      (fun _ => LEDState.blinking) (by decide) rfl (by decide) with
    | ⟨r, hu, hc, _, hon, _⟩ => ⟨r, hu, hc, hon⟩⟩

/-- C18: with the battery-charging flag clear and no whistle in the last 200 ms: when the
packets are exhausted and the game state is playing, the head-ring cells that are on after one
update are exactly 4, chosen by frame = (frame time / outOfPacketsLightSlowness) mod 3 (frame 0:
headFrontLeft1, headFrontRight1, headRearLeft2, headRearRight2; frame 1: headFrontLeft0,
headFrontRight0, headRearLeft1, headRearRight1; frame 2: headMiddleLeft0, headMiddleRight0,
headRearLeft0, headRearRight0), all other head-ring cells being off; when the packets are not
exhausted or the state is not playing, every head-ring cell is off. -/
theorem C18_packet_alarm_frames (cfg : Config) (inp : Input) (c : Nat) (v : LedStates)
    (_hcfg : cfg.WellFormed) (hch : inp.batteryCharging = false)
    (_hw : ¬ inp.timeSinceWhistle < 200) :
    ∃ r, update cfg inp c v = some r ∧
      (inp.outOfPackets = true ∧ inp.state = STATE_PLAYING →
        (∀ j, headRearLeft0 ≤ j → j ≤ headMiddleLeft0 →
          r.2 j =
            if inp.time / cfg.outOfPacketsLightSlowness % 3 = 0 then
              if j = headFrontLeft1 ∨ j = headFrontRight1 ∨ j = headRearLeft2 ∨
                  j = headRearRight2
              then LEDState.on else LEDState.off
            else if inp.time / cfg.outOfPacketsLightSlowness % 3 = 1 then
              if j = headFrontLeft0 ∨ j = headFrontRight0 ∨ j = headRearLeft1 ∨
                  j = headRearRight1
              then LEDState.on else LEDState.off
            else
              if j = headMiddleLeft0 ∨ j = headMiddleRight0 ∨ j = headRearLeft0 ∨
                  j = headRearRight0
              then LEDState.on else LEDState.off) ∧
        countOn r.2 headRearLeft0 numOfHeadLEDs = 4) ∧
      (¬ (inp.outOfPackets = true ∧ inp.state = STATE_PLAYING) →
        ∀ j, headRearLeft0 ≤ j → j ≤ headMiddleLeft0 → r.2 j = LEDState.off) := by
  obtain ⟨r, hu, -, hcells⟩ := update_not_charging cfg inp c v hch
  refine ⟨r, hu, fun hp => ?_, fun hp j hj hj' => ?_⟩
  · have hcells' : ∀ j, headRearLeft0 ≤ j → j ≤ headMiddleLeft0 →
        r.2 j =
          if inp.time / cfg.outOfPacketsLightSlowness % 3 = 0 then
            if j = headFrontLeft1 ∨ j = headFrontRight1 ∨ j = headRearLeft2 ∨
                j = headRearRight2
            then LEDState.on else LEDState.off
          else if inp.time / cfg.outOfPacketsLightSlowness % 3 = 1 then
            if j = headFrontLeft0 ∨ j = headFrontRight0 ∨ j = headRearLeft1 ∨
                j = headRearRight1
            then LEDState.on else LEDState.off
          else
            if j = headMiddleLeft0 ∨ j = headMiddleRight0 ∨ j = headRearLeft0 ∨
                j = headRearRight0
            then LEDState.on else LEDState.off := by
      intro j hj hj'
      rw [hcells j hj hj', if_pos hp]
    exact ⟨hcells', countOn_head_frame r.2 _ (Nat.mod_lt _ (by decide)) hcells'⟩
  · rw [hcells j hj hj', if_neg hp]

/-- Witness of C18: the sample snapshot with the packets exhausted, frame time 1000 and
slowness 5, so frame 2: four cells are on, headMiddleLeft0 among them. -/
theorem C18_packet_alarm_frames_witness :
    sampleConfig.WellFormed ∧ sampleInputOutOfPackets.batteryCharging = false ∧
    ¬ sampleInputOutOfPackets.timeSinceWhistle < 200 ∧
    (sampleInputOutOfPackets.outOfPackets = true ∧
      sampleInputOutOfPackets.state = STATE_PLAYING) ∧
    ∃ r, update sampleConfig sampleInputOutOfPackets 0 (fun _ => LEDState.blinking) = some r ∧
      countOn r.2 headRearLeft0 numOfHeadLEDs = 4 ∧ r.2 headMiddleLeft0 = LEDState.on :=
  ⟨by decide, rfl, by decide, ⟨rfl, rfl⟩,
    match C18_packet_alarm_frames sampleConfig sampleInputOutOfPackets 0
      (fun _ => LEDState.blinking) (by decide) rfl (by decide) with
    | ⟨r, hu, hp, _⟩ =>
      ⟨r, hu, (hp ⟨rfl, rfl⟩).2, by
        have h := (hp ⟨rfl, rfl⟩).1 headMiddleLeft0 (by decide) (by decide)
        rw [h]
        decide⟩⟩

/-- When not charging, the vector `setHead` leaves does not depend on the counter. -/
theorem setHead_snd_of_not_charging (cfg : Config) (inp : Input) (c c' : Nat) (w : LedStates)
    (hch : inp.batteryCharging = false) : (setHead cfg inp c' w).2 = (setHead cfg inp c w).2 := by
  unfold setHead
  simp only [hch, Bool.false_eq_true, if_false]
  split_ifs
  · split <;> rfl
  · rfl

/-- The counter one update leaves, for every snapshot. -/
theorem update_fst (cfg : Config) (inp : Input) (c : Nat) (v : LedStates) :
    ∃ r, update cfg inp c v = some r ∧
      r.1 = if inp.batteryCharging = true then
          (c + 1) % (numOfHeadLEDs * cfg.chargingLightSlowness)
        else c := by
  obtain ⟨w, hu⟩ := update_setHead cfg inp c v
  exact ⟨_, hu, setHead_fst cfg inp c w⟩

/-- Two updates that differ in the incoming counter only. -/
theorem update_counter_independent (cfg : Config) (inp : Input) (c c' : Nat) (v : LedStates)
    (hcfg : cfg.WellFormed) :
    ∃ r r', update cfg inp c v = some r ∧ update cfg inp c' v = some r' ∧
      (∀ j, j < headRearLeft0 ∨ headMiddleLeft0 < j → r'.2 j = r.2 j) ∧
      (inp.batteryCharging = false → ∀ j, r'.2 j = r.2 j) := by
  obtain ⟨v1, v2, h1, h2, hu⟩ := update_eq cfg inp c v
  obtain ⟨v1', v2', h1', h2', hu'⟩ := update_eq cfg inp c' v
  have e1 : v1 = v1' := Option.some.inj (h1.symm.trans h1')
  subst e1
  have e2 : v2 = v2' := Option.some.inj (h2.symm.trans h2')
  subst e2
  refine ⟨_, _, hu, hu', fun j hj => ?_, fun hch j => ?_⟩
  · rw [setHead_frame _ _ _ _ _ hcfg hj, setHead_frame _ _ _ _ _ hcfg hj]
  · rw [setHead_snd_of_not_charging cfg inp c c' _ hch]

/-- C19: the counter chargingLED is changed by the charging branch only: with the
battery-charging flag clear, one update returns the counter it was given (whatever the
packets-exhausted flag and the whistle are); and no resolver other than setHead uses it: the
cells outside the head ring are the same for any two incoming counter values, and with the
charging flag clear so is the whole vector. -/
theorem C19_counter_changed_by_charging_only (cfg : Config) (inp : Input) (c : Nat)
    (v : LedStates) (hcfg : cfg.WellFormed) :
    ∃ r, update cfg inp c v = some r ∧
      (inp.batteryCharging = false → r.1 = c) ∧
      ∀ c', ∃ r', update cfg inp c' v = some r' ∧
        (∀ j, j < headRearLeft0 ∨ headMiddleLeft0 < j → r'.2 j = r.2 j) ∧
        (inp.batteryCharging = false → ∀ j, r'.2 j = r.2 j) := by
  obtain ⟨r, hu, hc⟩ := update_fst cfg inp c v
  refine ⟨r, hu, fun hch => ?_, fun c' => ?_⟩
  · rw [hc, hch]
    simp
  · obtain ⟨r0, r', hu0, hu', hout, hall⟩ := update_counter_independent cfg inp c c' v hcfg
    have e := update_unique _ _ _ _ r r0 hu hu0
    subst e
    exact ⟨r', hu', hout, hall⟩

/-- Witness of C19: the sample snapshot with the packets exhausted (not charging), counter 7:
the counter stays 7. -/
theorem C19_counter_changed_by_charging_only_witness :
    sampleConfig.WellFormed ∧ sampleInputOutOfPackets.batteryCharging = false ∧
    ∃ r, update sampleConfig sampleInputOutOfPackets 7 (fun _ => LEDState.blinking) = some r ∧
      r.1 = 7 :=
  ⟨by decide, rfl,
    match C19_counter_changed_by_charging_only sampleConfig sampleInputOutOfPackets 7
      (fun _ => LEDState.blinking) (by decide) with
    | ⟨r, hu, hc, _⟩ => ⟨r, hu, hc rfl⟩⟩

/-! ## Sequences of updates -/

theorem runUpdates_succ (cfg : Config) (inps : Nat → Input) (n : Nat) (st r : Nat × LedStates)
    (h : runUpdates cfg inps n st = some r) :
    runUpdates cfg inps (n + 1) st = update cfg (inps n) r.1 r.2 := by
  simp only [runUpdates, h, Option.some_bind]

/-- From a counter below the period, every counter of a run is below the period. -/
theorem runUpdates_counter_lt (cfg : Config) (inps : Nat → Input) (c : Nat) (v : LedStates)
    (hc : c < numOfHeadLEDs * cfg.chargingLightSlowness) (n : Nat) :
    ∃ r, runUpdates cfg inps n (c, v) = some r ∧
      r.1 < numOfHeadLEDs * cfg.chargingLightSlowness := by
  induction n with
  | zero => exact ⟨(c, v), rfl, hc⟩
  | succ n ih =>
    obtain ⟨r, hr, hlt⟩ := ih
    obtain ⟨r', hu, hc'⟩ := update_fst cfg (inps n) r.1 r.2
    refine ⟨r', by rw [runUpdates_succ cfg inps n _ r hr, hu], ?_⟩
    rw [hc']
    split_ifs
    · exact Nat.mod_lt _ (Nat.lt_of_le_of_lt (Nat.zero_le _) hc)
    · exact hlt

/-- A run with the charging flag set in every cycle: the counter after n updates, and the
head ring the last update leaves. -/
theorem runUpdates_charging (cfg : Config) (inps : Nat → Input) (c : Nat) (v : LedStates)
    (hch : ∀ t, (inps t).batteryCharging = true)
    (hc : c < numOfHeadLEDs * cfg.chargingLightSlowness) (n : Nat) :
    ∃ r, runUpdates cfg inps n (c, v) = some r ∧
      r.1 = (c + n) % (numOfHeadLEDs * cfg.chargingLightSlowness) ∧
      (0 < n → ∀ j, headRearLeft0 ≤ j → j ≤ headMiddleLeft0 →
        r.2 j =
          if j = cfg.headLEDCircle (r.1 / cfg.chargingLightSlowness) ∨
              j = cfg.headLEDCircle ((r.1 / cfg.chargingLightSlowness + 1) % numOfHeadLEDs)
          then LEDState.on else LEDState.off) := by
  induction n with
  | zero => exact ⟨(c, v), rfl, (Nat.mod_eq_of_lt hc).symm, fun h => absurd h (Nat.lt_irrefl 0)⟩
  | succ n ih =>
    obtain ⟨r, hr, hcnt, -⟩ := ih
    obtain ⟨r', hu, hc', hcells⟩ := update_charging cfg (inps n) r.1 r.2 (hch n)
    refine ⟨r', by rw [runUpdates_succ cfg inps n _ r hr, hu], ?_, fun _ => hcells⟩
    rw [hc', hcnt, Nat.mod_add_mod, Nat.add_assoc]

theorem add_mod_ne_self (c k m : Nat) (hc : c < m) (hk : 0 < k) (hk' : k < m) :
    (c + k) % m ≠ c := by
  by_cases h : c + k < m
  · rw [Nat.mod_eq_of_lt h]
    omega
  · rw [Nat.mod_eq_sub_mod (by omega), Nat.mod_eq_of_lt (by omega)]
    omega

/-- C12: with the battery-charging flag true in every cycle and a counter c below the period
numOfHeadLEDs * chargingLightSlowness: after a full period of updates the counter is c again
and the head ring shows the pair of table entries that belongs to the counter c; no smaller
positive number of updates returns the counter to c; and any update of the run and the update
one period later leave the same counter and the same head-ring cells. -/
theorem C12_charging_sweep_period (cfg : Config) (inps : Nat → Input) (c : Nat)
    (v : LedStates) (hch : ∀ t, (inps t).batteryCharging = true)
    (hc : c < numOfHeadLEDs * cfg.chargingLightSlowness) :
    (∃ r, runUpdates cfg inps (numOfHeadLEDs * cfg.chargingLightSlowness) (c, v) = some r ∧
      r.1 = c ∧
      ∀ j, headRearLeft0 ≤ j → j ≤ headMiddleLeft0 →
        r.2 j =
          if j = cfg.headLEDCircle (c / cfg.chargingLightSlowness) ∨
              j = cfg.headLEDCircle ((c / cfg.chargingLightSlowness + 1) % numOfHeadLEDs)
          then LEDState.on else LEDState.off) ∧
    (∀ k, 0 < k → k < numOfHeadLEDs * cfg.chargingLightSlowness →
      ∃ r, runUpdates cfg inps k (c, v) = some r ∧ r.1 ≠ c) ∧
    (∀ t, 0 < t →
      ∃ r r', runUpdates cfg inps t (c, v) = some r ∧
        runUpdates cfg inps (t + numOfHeadLEDs * cfg.chargingLightSlowness) (c, v) = some r' ∧
        r'.1 = r.1 ∧ ∀ j, headRearLeft0 ≤ j → j ≤ headMiddleLeft0 → r'.2 j = r.2 j) := by
  have hpos : 0 < numOfHeadLEDs * cfg.chargingLightSlowness := Nat.lt_of_le_of_lt (Nat.zero_le _) hc
  refine ⟨?_, fun k hk hk' => ?_, fun t ht => ?_⟩
  · obtain ⟨r, hr, hcnt, hcells⟩ := runUpdates_charging cfg inps c v hch hc
      (numOfHeadLEDs * cfg.chargingLightSlowness)
    have hcnt' : r.1 = c := by
      rw [hcnt, Nat.add_mod_right, Nat.mod_eq_of_lt hc]
    refine ⟨r, hr, hcnt', fun j hj hj' => ?_⟩
    rw [hcells hpos j hj hj', hcnt']
  · obtain ⟨r, hr, hcnt, -⟩ := runUpdates_charging cfg inps c v hch hc k
    exact ⟨r, hr, by rw [hcnt]; exact add_mod_ne_self c k _ hc hk hk'⟩
  · obtain ⟨r, hr, hcnt, hcells⟩ := runUpdates_charging cfg inps c v hch hc t
    obtain ⟨r', hr', hcnt', hcells'⟩ := runUpdates_charging cfg inps c v hch hc
      (t + numOfHeadLEDs * cfg.chargingLightSlowness)
    have he : r'.1 = r.1 := by
      rw [hcnt', hcnt, ← Nat.add_assoc, Nat.add_mod_right]
    refine ⟨r, r', hr, hr', he, fun j hj hj' => ?_⟩
    rw [hcells' (by omega) j hj hj', hcells ht j hj hj', he]

/-- Witness of C12: the sample configuration (period 60), always on the charger, from
counter 17: after 60 updates the counter is 17 again. -/
theorem C12_charging_sweep_period_witness :
    (∀ t : Nat, ((fun _ => sampleInputCharging) t).batteryCharging = true) ∧
    17 < numOfHeadLEDs * sampleConfig.chargingLightSlowness ∧
    ∃ r, runUpdates sampleConfig (fun _ => sampleInputCharging)
        (numOfHeadLEDs * sampleConfig.chargingLightSlowness) (17, fun _ => LEDState.off) = some r ∧
      r.1 = 17 :=
  ⟨fun _ => rfl, by decide,
    match (C12_charging_sweep_period sampleConfig (fun _ => sampleInputCharging) 17
      (fun _ => LEDState.off) (fun _ => rfl) (by decide)).1 with
    | ⟨r, hr, hc, _⟩ => ⟨r, hr, hc⟩⟩

/-- C20: for a slowness of at least 1 and the counter chargingLED starting at 0, after any
number of updates with arbitrary snapshots the counter is below
numOfHeadLEDs * chargingLightSlowness; hence the two indices at which headLEDCircle is read,
counter / chargingLightSlowness and that plus one modulo numOfHeadLEDs, are below
numOfHeadLEDs. -/
theorem C20_counter_stays_in_range (cfg : Config) (inps : Nat → Input) (v : LedStates)
    (n : Nat) (hs : 0 < cfg.chargingLightSlowness) :
    ∃ r, runUpdates cfg inps n (0, v) = some r ∧
      r.1 < numOfHeadLEDs * cfg.chargingLightSlowness ∧
      r.1 / cfg.chargingLightSlowness < numOfHeadLEDs ∧
      (r.1 / cfg.chargingLightSlowness + 1) % numOfHeadLEDs < numOfHeadLEDs := by
  obtain ⟨r, hr, hlt⟩ := runUpdates_counter_lt cfg inps 0 v (Nat.mul_pos (by simp) hs) n
  exact ⟨r, hr, hlt, (Nat.div_lt_iff_lt_mul hs).mpr hlt, Nat.mod_lt _ (by simp)⟩

/-- Witness of C20: the sample configuration, seven updates on the charger from counter 0. -/
theorem C20_counter_stays_in_range_witness :
    0 < sampleConfig.chargingLightSlowness ∧
    ∃ r, runUpdates sampleConfig (fun _ => sampleInputCharging) 7 (0, fun _ => LEDState.off) =
        some r ∧
      r.1 < numOfHeadLEDs * sampleConfig.chargingLightSlowness ∧
      r.1 / sampleConfig.chargingLightSlowness < numOfHeadLEDs ∧
      (r.1 / sampleConfig.chargingLightSlowness + 1) % numOfHeadLEDs < numOfHeadLEDs :=
  ⟨by decide,
    C20_counter_stays_in_range sampleConfig (fun _ => sampleInputCharging)
      (fun _ => LEDState.off) 7 (by decide)⟩

/-! ## The compositor -/

/-- C11: for each of the seven colours, each side and each base intensity s that is on or off,
setEyeColor returns a vector that holds, at all 8 ring positions of the selected eye, the
channel states the list gives (h is half if s is on and off if s is off): red: red = s; green:
green = s; blue: blue = s; white: red = green = blue = s; magenta: red = h, blue = s; yellow:
green = h, red = s; cyan: green = h, blue = s; the unlisted channels of that eye and every cell
outside that eye are unchanged. -/
theorem C11_setEyeColor_channels (v : LedStates) (left : Bool) (col : EyeColor) (s : LEDState)
    (ch : Option LEDState × Option LEDState × Option LEDState)
    (hs : s = LEDState.on ∨ s = LEDState.off) (hch : specChannels col s = some ch) :
    ∃ w, setEyeColor v left col s = some w ∧
      (∀ i, i < 8 →
        w ((if left then faceLeftRed0Deg else faceRightRed0Deg) + redOffset + i) =
          ch.1.getD (v ((if left then faceLeftRed0Deg else faceRightRed0Deg) + redOffset + i)) ∧
        w ((if left then faceLeftRed0Deg else faceRightRed0Deg) + greenOffset + i) =
          ch.2.1.getD
            (v ((if left then faceLeftRed0Deg else faceRightRed0Deg) + greenOffset + i)) ∧
        w ((if left then faceLeftRed0Deg else faceRightRed0Deg) + blueOffset + i) =
          ch.2.2.getD
            (v ((if left then faceLeftRed0Deg else faceRightRed0Deg) + blueOffset + i))) ∧
      ∀ j, (j < (if left then faceLeftRed0Deg else faceRightRed0Deg) ∨
          (if left then faceLeftRed0Deg else faceRightRed0Deg) + 24 ≤ j) → w j = v j := by
  rcases hs with hs | hs <;> subst hs <;> cases left <;> cases col <;>
    simp only [specChannels, Option.some.injEq, reduceCtorEq, if_true, if_false] at hch <;>
    subst hch <;>
    refine ⟨_, rfl, ?_, ?_⟩
  all_goals
    intro i hi
    simp only [fillChannel_apply, faceLeftRed0Deg, faceRightRed0Deg, redOffset, greenOffset,
      blueOffset, faceLeftGreen0Deg, faceLeftBlue0Deg, Option.getD_some, Option.getD_none,
      Bool.false_eq_true, if_true, if_false, reduceCtorEq] at hi ⊢
    first
      | (refine ⟨?_, ?_, ?_⟩ <;> split_ifs <;> first | rfl | (exfalso; omega))
      | (split_ifs <;> first | rfl | (exfalso; omega))

/-- Witness of C11: magenta at intensity on for the right eye, over a blinking vector. -/
theorem C11_setEyeColor_channels_witness :
    (LEDState.on = LEDState.on ∨ LEDState.on = LEDState.off) ∧
    specChannels EyeColor.magenta LEDState.on =
      some (some LEDState.half, none, some LEDState.on) ∧
    ∃ w, setEyeColor (fun _ => LEDState.blinking) false EyeColor.magenta LEDState.on = some w ∧
      (∀ i, i < 8 →
        w (faceRightRed0Deg + redOffset + i) = LEDState.half ∧
        w (faceRightRed0Deg + greenOffset + i) = LEDState.blinking ∧
        w (faceRightRed0Deg + blueOffset + i) = LEDState.on) ∧
      ∀ j, (j < faceRightRed0Deg ∨ faceRightRed0Deg + 24 ≤ j) → w j = LEDState.blinking :=
  ⟨Or.inl rfl, rfl,
    C11_setEyeColor_channels (fun _ => LEDState.blinking) false EyeColor.magenta LEDState.on
      (some LEDState.half, none, some LEDState.on) (Or.inl rfl) rfl⟩

/-! ## Each resolver acts cell by cell -/

theorem setChestButton_congr (inp : Input) (w w' : LedStates) (j : Nat) (h : w j = w' j) :
    setChestButton inp w j = setChestButton inp w' j := by
  unfold setChestButton
  cases inp.mode <;> simp only [] <;> (try split_ifs) <;> simp only [setLed_apply, h]

theorem setLeftFoot_congr (inp : Input) (w w' : LedStates) (j : Nat) (h : w j = w' j) :
    setLeftFoot inp w j = setLeftFoot inp w' j := by
  unfold setLeftFoot
  simp only [ite_apply, setLed_apply, h]

theorem setRightFoot_congr (cfg : Config) (inp : Input) (w w' : LedStates) (j : Nat)
    (h : w j = w' j) : setRightFoot cfg inp w j = setRightFoot cfg inp w' j := by
  unfold setRightFoot
  split_ifs <;> simp only [setLed_apply, h]

theorem setWhistleLeds_congr (inp : Input) (w w' : LedStates) (j : Nat) (h : w j = w' j) :
    setWhistleLeds inp w j = setWhistleLeds inp w' j := by
  by_cases hw : inp.timeSinceWhistle < 200
  · rw [setWhistleLeds_of_lt inp w j hw, setWhistleLeds_of_lt inp w' j hw, h]
  · rw [setWhistleLeds_of_ge inp w hw, setWhistleLeds_of_ge inp w' hw, h]

theorem setRightEar_congr (inp : Input) (w w' : LedStates) (j : Nat) (h : w j = w' j) :
    setRightEar inp w j = setRightEar inp w' j := by
  rw [setRightEar_apply, setRightEar_apply, h]

theorem ite_setLed2_apply (p : Prop) [Decidable p] (u : LedStates) (a b : Nat) (s t : LEDState)
    (j : Nat) :
    (if p then setLed (setLed u a s) b t else u) j =
      if p then (if j = b then t else if j = a then s else u j) else u j := by
  split_ifs <;> simp_all

theorem setLeftEar_congr (cfg : Config) (inp : Input) (w w' : LedStates) (j : Nat)
    (h : w j = w' j) : setLeftEar cfg inp w j = setLeftEar cfg inp w' j := by
  unfold setLeftEar
  simp only [ite_setLed2_apply, h]

theorem setHead_congr (cfg : Config) (inp : Input) (c : Nat) (w w' : LedStates) (j : Nat)
    (h : w j = w' j) : (setHead cfg inp c w).2 j = (setHead cfg inp c w').2 j := by
  unfold setHead
  simp only []
  split_ifs
  · simp only [setLed_apply, clearHead_apply, h]
  · split <;> simp only [setLed_apply, clearHead_apply, h]
  · simp only [clearHead_apply, h]

theorem setLeftEye_congr (inp : Input) (v v' w w' : LedStates) (j : Nat)
    (h : setLeftEye inp v = some w) (h' : setLeftEye inp v' = some w') (hv : v j = v' j) :
    w j = w' j := by
  simp only [setLeftEye] at h h'
  split_ifs at h h'
  all_goals first
    | exact setEyeColor_congr _ _ _ _ _ _ _ j h h' hv
    | (simp only [Option.some.injEq] at h h'; subst h; subst h'; exact hv)

theorem setRightEye_congr_same (inp : Input) (v v' w w' : LedStates) (j : Nat)
    (h : setRightEye inp v = some w) (h' : setRightEye inp v' = some w') (hv : v j = v' j) :
    w j = w' j := by
  unfold setRightEye at h h'
  split_ifs at h h'
  · exact setEyeColor_congr _ _ _ _ _ _ _ j h h' hv
  · exact setEyeColor_congr _ _ _ _ _ _ _ j h h' hv
  · cases hr : inp.role <;> rw [hr] at h h' <;> exact setEyeColor_congr _ _ _ _ _ _ _ j h h' hv

/-- Two updates that differ in the incoming vector only agree on the counter and on every
cell of the vector. -/
theorem update_vector_independent (cfg : Config) (inp : Input) (c : Nat) (v v' : LedStates) :
    ∃ r r', update cfg inp c v = some r ∧ update cfg inp c v' = some r' ∧ r'.1 = r.1 ∧
      ∀ j, j < numOfLEDs → r'.2 j = r.2 j := by
  obtain ⟨v1, v2, h1, h2, hu⟩ := update_eq cfg inp c v
  obtain ⟨v1', v2', h1', h2', hu'⟩ := update_eq cfg inp c v'
  refine ⟨_, _, hu, hu', ?_, fun j hj => ?_⟩
  · rw [setHead_fst, setHead_fst]
  · have e0 : resetLeds v' j = resetLeds v j := by
      rw [resetLeds_apply, resetLeds_apply, if_pos hj, if_pos hj]
    have e1 : v1' j = v1 j := setRightEye_congr_same inp _ _ v1' v1 j h1' h1 e0
    have e2 : v2' j = v2 j := setLeftEye_congr inp _ _ v2' v2 j h2' h2 e1
    exact setHead_congr _ _ _ _ _ j (setLeftEar_congr _ _ _ _ j (setRightEar_congr _ _ _ j
      (setWhistleLeds_congr _ _ _ j (setRightFoot_congr _ _ _ _ j (setLeftFoot_congr _ _ _ j
        (setChestButton_congr _ _ _ j e2))))))

theorem resetLeds_off : resetLeds (fun _ => LEDState.off) = fun _ => LEDState.off := by
  funext j
  rw [resetLeds_apply]
  split_ifs <;> rfl

/-- C15: update recomputes the vector from scratch: for every snapshot and counter value and
any two incoming vectors, update returns the same counter and the same state for every LED;
and the vector it returns is the one the resolvers build over the vector that is off
everywhere, so a cell no resolver writes is off. -/
theorem C15_update_recomputes_from_scratch (cfg : Config) (inp : Input) (c : Nat)
    (v : LedStates) :
    ∃ r, update cfg inp c v = some r ∧
      (∀ v' : LedStates, ∃ r', update cfg inp c v' = some r' ∧ r'.1 = r.1 ∧
        ∀ j, j < numOfLEDs → r'.2 j = r.2 j) ∧
      ∃ v1 v2, setRightEye inp (fun _ => LEDState.off) = some v1 ∧
        setLeftEye inp v1 = some v2 ∧
        ∀ j, j < numOfLEDs →
          r.2 j = (setHead cfg inp c (setLeftEar cfg inp (setRightEar inp (setWhistleLeds inp
            (setRightFoot cfg inp (setLeftFoot inp (setChestButton inp v2))))))).2 j := by
  obtain ⟨r, hu⟩ : ∃ r, update cfg inp c v = some r := by
    obtain ⟨w, hw⟩ := update_setHead cfg inp c v
    exact ⟨_, hw⟩
  have hindep : ∀ v' : LedStates, ∃ r', update cfg inp c v' = some r' ∧ r'.1 = r.1 ∧
      ∀ j, j < numOfLEDs → r'.2 j = r.2 j := by
    intro v'
    obtain ⟨r0, r', hu0, hu', hc, hcells⟩ := update_vector_independent cfg inp c v v'
    have e := update_unique _ _ _ _ r r0 hu hu0
    subst e
    exact ⟨r', hu', hc, hcells⟩
  refine ⟨r, hu, hindep, ?_⟩
  obtain ⟨v1, v2, h1, h2, hu'⟩ := update_eq cfg inp c (fun _ => LEDState.off)
  rw [resetLeds_off] at h1
  obtain ⟨r', hr', -, hcells⟩ := hindep (fun _ => LEDState.off)
  have e : r' = _ := Option.some.inj (hr'.symm.trans hu')
  refine ⟨v1, v2, h1, h2, fun j hj => ?_⟩
  rw [← hcells j hj, e]

/-! ## No fast blinking without whistle -/

theorem setEyeColor_noFB (v w : LedStates) (left : Bool) (col : EyeColor) (s : LEDState)
    (j : Nat) (h : setEyeColor v left col s = some w) (hs : s ≠ LEDState.fastBlinking)
    (hv : v j ≠ LEDState.fastBlinking) : w j ≠ LEDState.fastBlinking := by
  unfold setEyeColor at h
  cases col <;> simp only [Option.some.injEq, reduceCtorEq] at h <;> subst h <;>
    simp only [fillChannel_apply] <;> split_ifs <;> first | exact hv | exact hs | decide

theorem setRightEye_noFB (inp : Input) (v w : LedStates) (j : Nat)
    (h : setRightEye inp v = some w) (hv : v j ≠ LEDState.fastBlinking) :
    w j ≠ LEDState.fastBlinking := by
  unfold setRightEye at h
  split_ifs at h
  · exact setEyeColor_noFB _ _ _ _ _ j h (by decide) hv
  · exact setEyeColor_noFB _ _ _ _ _ j h (by decide) hv
  · cases hr : inp.role <;> rw [hr] at h <;>
      exact setEyeColor_noFB _ _ _ _ _ j h (by decide) hv

theorem setLeftEye_noFB (inp : Input) (v w : LedStates) (j : Nat)
    (h : setLeftEye inp v = some w) (hv : v j ≠ LEDState.fastBlinking) :
    w j ≠ LEDState.fastBlinking := by
  simp only [setLeftEye] at h
  split_ifs at h
  all_goals first
    | exact setEyeColor_noFB _ _ _ _ _ j h (by decide) hv
    | (simp only [Option.some.injEq] at h; subst h; exact hv)

theorem setChestButton_noFB (inp : Input) (w : LedStates) (j : Nat)
    (h : w j ≠ LEDState.fastBlinking) : setChestButton inp w j ≠ LEDState.fastBlinking := by
  unfold setChestButton
  cases inp.mode <;> simp only [] <;> (try split_ifs) <;> (try simp only [setLed_apply]) <;>
    (try split_ifs) <;> first | exact h | decide

theorem setLeftFoot_noFB (inp : Input) (w : LedStates) (j : Nat)
    (h : w j ≠ LEDState.fastBlinking) : setLeftFoot inp w j ≠ LEDState.fastBlinking := by
  unfold setLeftFoot
  generalize inp.fieldPlayerColour = col
  split_ifs <;> (try simp only [setLed_apply]) <;> (try split_ifs) <;>
    first | exact h | decide

theorem setRightFoot_noFB (cfg : Config) (inp : Input) (w : LedStates) (j : Nat)
    (h : w j ≠ LEDState.fastBlinking) : setRightFoot cfg inp w j ≠ LEDState.fastBlinking := by
  unfold setRightFoot
  split_ifs <;> (try simp only [setLed_apply]) <;> (try split_ifs) <;>
    first | exact h | decide

theorem setRightEar_noFB (inp : Input) (w : LedStates) (j : Nat)
    (h : w j ≠ LEDState.fastBlinking) : setRightEar inp w j ≠ LEDState.fastBlinking := by
  rw [setRightEar_apply]
  split_ifs
  · decide
  · exact h

theorem ite_setLed2_noFB (p : Prop) [Decidable p] (u : LedStates) (a b : Nat) (s t : LEDState)
    (j : Nat) (h : u j ≠ LEDState.fastBlinking) (hs : s ≠ LEDState.fastBlinking)
    (ht : t ≠ LEDState.fastBlinking) :
    (if p then setLed (setLed u a s) b t else u) j ≠ LEDState.fastBlinking := by
  rw [ite_setLed2_apply]
  split_ifs <;> first | exact h | exact hs | exact ht

theorem setLeftEar_noFB (cfg : Config) (inp : Input) (w : LedStates) (j : Nat)
    (h : w j ≠ LEDState.fastBlinking) : setLeftEar cfg inp w j ≠ LEDState.fastBlinking := by
  unfold setLeftEar
  refine ite_setLed2_noFB _ _ _ _ _ _ _ ?_ (by decide) (by decide)
  refine ite_setLed2_noFB _ _ _ _ _ _ _ ?_ (by decide) (by decide)
  refine ite_setLed2_noFB _ _ _ _ _ _ _ ?_ (by decide) (by decide)
  refine ite_setLed2_noFB _ _ _ _ _ _ _ ?_ (by decide) (by decide)
  exact ite_setLed2_noFB _ _ _ _ _ _ _ h (by decide) (by decide)

theorem setHead_noFB (cfg : Config) (inp : Input) (c : Nat) (w : LedStates) (j : Nat)
    (h : w j ≠ LEDState.fastBlinking) : (setHead cfg inp c w).2 j ≠ LEDState.fastBlinking := by
  unfold setHead
  simp only []
  split_ifs
  · simp only [setLed_apply, clearHead_apply]
    split_ifs <;> first | exact h | decide
  · split <;> simp only [setLed_apply, clearHead_apply] <;> split_ifs <;>
      first | exact h | decide
  · simp only [clearHead_apply]
    split_ifs <;> first | exact h | decide

/-- Without whistle in the last 200 ms no LED of the result is fast-blinking. -/
theorem update_noFB (cfg : Config) (inp : Input) (c : Nat) (v : LedStates)
    (hw : ¬ inp.timeSinceWhistle < 200) :
    ∃ r, update cfg inp c v = some r ∧ ∀ j, j < numOfLEDs → r.2 j ≠ LEDState.fastBlinking := by
  obtain ⟨v1, v2, h1, h2, hu⟩ := update_eq cfg inp c v
  refine ⟨_, hu, fun j hj => ?_⟩
  have e0 : resetLeds v j ≠ LEDState.fastBlinking := by
    rw [resetLeds_apply, if_pos hj]
    decide
  have e2 := setLeftEye_noFB inp v1 v2 j h2 (setRightEye_noFB inp _ v1 j h1 e0)
  rw [setWhistleLeds_of_ge _ _ hw]
  exact setHead_noFB _ _ _ _ j (setLeftEar_noFB _ _ _ j (setRightEar_noFB _ _ j
    (setRightFoot_noFB _ _ _ j (setLeftFoot_noFB _ _ j (setChestButton_noFB _ _ j e2)))))

/-- C14: when the last whistle detection is 200 ms or more ago, no LED of the vector one
update returns is fast-blinking. -/
theorem C14_no_fast_blinking_without_whistle (cfg : Config) (inp : Input) (c : Nat)
    (v : LedStates) (hw : 200 ≤ inp.timeSinceWhistle) :
    ∃ r, update cfg inp c v = some r ∧ ∀ j, j < numOfLEDs → r.2 j ≠ LEDState.fastBlinking :=
  update_noFB cfg inp c v (not_lt.mpr hw)

/-- Witness of C14: the sample snapshot (whistle 9999 ms ago), over a vector that is
fast-blinking everywhere. -/
theorem C14_no_fast_blinking_without_whistle_witness :
    200 ≤ sampleInput.timeSinceWhistle ∧
    ∃ r, update sampleConfig sampleInput 0 (fun _ => LEDState.fastBlinking) = some r ∧
      ∀ j, j < numOfLEDs → r.2 j ≠ LEDState.fastBlinking :=
  ⟨by decide,
    C14_no_fast_blinking_without_whistle sampleConfig sampleInput 0
      (fun _ => LEDState.fastBlinking) (by decide)⟩

/-! ## The eyes, cell by cell -/

/-- Outside standby the right eye of the result, as (red, green, blue) per ring position, for
each role. -/
theorem update_rightEye_cells (cfg : Config) (inp : Input) (c : Nat) (v : LedStates)
    (hcfg : cfg.WellFormed) (hs : inp.state ≠ STATE_STANDBY) :
    ∃ r, update cfg inp c v = some r ∧ ∀ i, i < 8 →
      (r.2 (faceRightRed0Deg + i), r.2 (faceRightGreen0Deg + i), r.2 (faceRightBlue0Deg + i)) =
        match inp.role with
        | PlayerRole.RoleType.striker => (LEDState.on, LEDState.off, LEDState.off)
        | PlayerRole.RoleType.libero => (LEDState.on, LEDState.on, LEDState.on)
        | PlayerRole.RoleType.supporter => (LEDState.off, LEDState.on, LEDState.off)
        | PlayerRole.RoleType.jolly => (LEDState.on, LEDState.half, LEDState.off)
        | PlayerRole.RoleType.defenderone => (LEDState.off, LEDState.off, LEDState.on)
        | PlayerRole.RoleType.defendertwo => (LEDState.off, LEDState.half, LEDState.on)
        | PlayerRole.RoleType.passiveSearcher => (LEDState.half, LEDState.off, LEDState.on)
        | PlayerRole.RoleType.activeSearcher => (LEDState.half, LEDState.off, LEDState.on)
        | PlayerRole.RoleType.other _ => (LEDState.off, LEDState.off, LEDState.off) := by
  obtain ⟨v1, r, h1, hu, hr⟩ := update_rightEye cfg inp c v hcfg
  refine ⟨r, hu, fun i hi => ?_⟩
  rw [hr _ (by simp) (by simp; omega), hr _ (by simp; omega) (by simp; omega),
    hr _ (by simp; omega) (by simp; omega)]
  have hoff : ∀ j, j < 48 → resetLeds v j = LEDState.off := by
    intro j hj
    rw [resetLeds_apply, if_pos (by simp; omega)]
  have hr0 := hoff (24 + i) (by omega)
  have hg0 := hoff (32 + i) (by omega)
  have hb0 := hoff (40 + i) (by omega)
  unfold setRightEye at h1
  rw [if_neg hs] at h1
  simp only [faceRightRed0Deg, faceRightGreen0Deg, faceRightBlue0Deg]
  cases hro : inp.role <;> rw [hro] at h1 <;>
    simp only [setEyeColor, Option.some.injEq, Bool.false_eq_true, if_false, reduceCtorEq,
      if_true] at h1 <;>
    subst h1 <;>
    simp only [fillChannel_apply, faceRightRed0Deg, redOffset, greenOffset, blueOffset,
      faceLeftRed0Deg, faceLeftGreen0Deg, faceLeftBlue0Deg, hr0, hg0, hb0, Prod.mk.injEq] <;>
    refine ⟨?_, ?_, ?_⟩ <;> split_ifs <;> first | rfl | (exfalso; omega)

/-- With ground contact and outside standby, the left eye of the result, as (red, green,
blue) per ring position, by ball and feature recency. -/
theorem update_leftEye_cells (cfg : Config) (inp : Input) (c : Nat) (v : LedStates)
    (hcfg : cfg.WellFormed) (hc : inp.contact = true) (hs : inp.state ≠ STATE_STANDBY) :
    ∃ r, update cfg inp c v = some r ∧ ∀ i, i < 8 →
      (r.2 (faceLeftRed0Deg + i), r.2 (faceLeftGreen0Deg + i), r.2 (faceLeftBlue0Deg + i)) =
        if inp.timeSinceBallSeen < 250 ∧ inp.timeSinceFeatureSeen < 250 then
          (LEDState.on, LEDState.off, LEDState.off)
        else if inp.timeSinceBallSeen < 250 then (LEDState.on, LEDState.on, LEDState.on)
        else if inp.timeSinceFeatureSeen < 250 then (LEDState.off, LEDState.off, LEDState.on)
        else (LEDState.off, LEDState.off, LEDState.off) := by
  obtain ⟨v1, v2, h1, h2, hu⟩ := update_eq cfg inp c v
  refine ⟨_, hu, fun i hi => ?_⟩
  rw [tail_face cfg inp c v2 _ hcfg (by simp; omega), tail_face cfg inp c v2 _ hcfg (by simp; omega),
    tail_face cfg inp c v2 _ hcfg (by simp; omega)]
  have hoff : ∀ j, j < 24 → v1 j = LEDState.off := by
    intro j hj
    rw [setRightEye_frame_left inp _ v1 j h1 hs (by simp; omega), resetLeds_apply,
      if_pos (by simp; omega)]
  have hr := hoff i (by omega)
  have hg := hoff (8 + i) (by omega)
  have hb := hoff (16 + i) (by omega)
  simp only [setLeftEye, hc, Bool.not_true, Bool.false_eq_true, if_false, hs] at h2
  simp only [faceLeftRed0Deg, faceLeftGreen0Deg, faceLeftBlue0Deg, Nat.zero_add]
  by_cases hball : inp.timeSinceBallSeen < 250 <;> by_cases hfeat : inp.timeSinceFeatureSeen < 250 <;>
    simp only [hball, hfeat, decide_True, decide_False, Bool.and_self, Bool.and_false,
      Bool.and_true, Bool.false_eq_true, if_true, if_false, setEyeColor, Option.some.injEq,
      and_self, and_false, and_true] at h2 ⊢ <;>
    subst h2 <;>
    simp only [fillChannel_apply, faceLeftRed0Deg, redOffset, greenOffset, blueOffset,
      faceLeftGreen0Deg, faceLeftBlue0Deg, hr, hg, hb, Prod.mk.injEq] <;>
    refine ⟨?_, ?_, ?_⟩ <;> split_ifs <;> first | rfl | (exfalso; omega)

/-! ## No abort -/

/-- C16: update never aborts: for every snapshot, counter and incoming vector it returns a
result, and so do the two eye resolvers on every vector, so every colour they pass to
setEyeColor is one of the seven it handles. A value no resolver lists leaves the group off
in the result: a team colour outside the list leaves the left foot off, a role outside the
table leaves the right eye off (outside standby), and a game state outside standby, ready, set
and playing leaves the chest off (no whistle, no penalty, mode neither unstiff nor
calibration). -/
theorem C16_update_never_aborts (cfg : Config) (inp : Input) (c : Nat) (v : LedStates) :
    (∃ r, update cfg inp c v = some r) ∧
    (∀ w : LedStates, ∃ w', setRightEye inp w = some w') ∧
    (∀ w : LedStates, ∃ w', setLeftEye inp w = some w') ∧
    (cfg.WellFormed → ∃ r, update cfg inp c v = some r ∧
      (inp.fieldPlayerColour ≠ TEAM_ORANGE → inp.fieldPlayerColour ≠ TEAM_RED →
        inp.fieldPlayerColour ≠ TEAM_WHITE → inp.fieldPlayerColour ≠ TEAM_YELLOW →
        inp.fieldPlayerColour ≠ TEAM_GREEN → inp.fieldPlayerColour ≠ TEAM_PURPLE →
        inp.fieldPlayerColour ≠ TEAM_BLUE → inp.fieldPlayerColour ≠ TEAM_GRAY →
        inp.fieldPlayerColour ≠ TEAM_BROWN →
          (r.2 footLeftRed, r.2 footLeftGreen, r.2 footLeftBlue) =
            (LEDState.off, LEDState.off, LEDState.off)) ∧
      (inp.state ≠ STATE_STANDBY → ∀ n, inp.role = PlayerRole.RoleType.other n →
        ∀ i, i < 8 →
          (r.2 (faceRightRed0Deg + i), r.2 (faceRightGreen0Deg + i),
            r.2 (faceRightBlue0Deg + i)) = (LEDState.off, LEDState.off, LEDState.off)) ∧
      (¬ inp.timeSinceWhistle < 200 → inp.mode ≠ RobotInfo.Mode.unstiff →
        inp.mode ≠ RobotInfo.Mode.calibration → inp.penalty = PENALTY_NONE →
        inp.state ≠ STATE_STANDBY → inp.state ≠ STATE_READY → inp.state ≠ STATE_SET →
        inp.state ≠ STATE_PLAYING →
          (r.2 chestRed, r.2 chestGreen, r.2 chestBlue) =
            (LEDState.off, LEDState.off, LEDState.off))) := by
  obtain ⟨w0, hu0⟩ := update_setHead cfg inp c v
  refine ⟨⟨_, hu0⟩, setRightEye_isSome inp, setLeftEye_isSome inp, fun hcfg => ?_⟩
  refine ⟨_, hu0, ?_, ?_, ?_⟩
  · intro h1 h2 h3 h4 h5 h6 h7 h8 h9
    obtain ⟨r, hu, hr⟩ := update_leftFoot cfg inp c v hcfg
    have e := update_unique _ _ _ _ _ r hu0 hu
    rw [e, hr, if_neg h1, if_neg h2, if_neg h3, if_neg h4, if_neg h5, if_neg h6, if_neg h7,
      if_neg h8, if_neg h9]
  · intro hs n hn i hi
    obtain ⟨r, hu, hr⟩ := update_rightEye_cells cfg inp c v hcfg hs
    have e := update_unique _ _ _ _ _ r hu0 hu
    rw [e, hr i hi, hn]
  · intro hw hm1 hm2 hp h1 h2 h3 h4
    obtain ⟨r, hu, hr⟩ := update_chest cfg inp c v hcfg hw
    have e := update_unique _ _ _ _ _ r hu0 hu
    rw [e, hr]
    have hp' : ¬ inp.penalty ≠ PENALTY_NONE := fun h => h hp
    cases hm : inp.mode
    · exact absurd hm hm1
    · simp only [if_neg hp', if_neg h1, if_neg h2, if_neg h3, if_neg h4]
    · exact absurd hm hm2
    · simp only [if_neg hp', if_neg h1, if_neg h2, if_neg h3, if_neg h4]

/-- Witness of C16: the sample snapshot in state finished, with team colour black and a role
outside the table: update returns a vector with left foot, right eye and chest off. -/
theorem C16_update_never_aborts_witness :
    sampleConfig.WellFormed ∧
    ∃ r, update sampleConfig sampleInputUnhandled 0 (fun _ => LEDState.blinking) = some r ∧
      (r.2 footLeftRed, r.2 footLeftGreen, r.2 footLeftBlue) =
        (LEDState.off, LEDState.off, LEDState.off) ∧
      (∀ i, i < 8 →
        (r.2 (faceRightRed0Deg + i), r.2 (faceRightGreen0Deg + i),
          r.2 (faceRightBlue0Deg + i)) = (LEDState.off, LEDState.off, LEDState.off)) ∧
      (r.2 chestRed, r.2 chestGreen, r.2 chestBlue) =
        (LEDState.off, LEDState.off, LEDState.off) :=
  ⟨by decide,
    match (C16_update_never_aborts sampleConfig sampleInputUnhandled 0
      (fun _ => LEDState.blinking)).2.2.2 (by decide) with
    | ⟨r, hu, hfoot, heye, hchest⟩ =>
      ⟨r, hu,
        hfoot (by decide) (by decide) (by decide) (by decide) (by decide) (by decide)
          (by decide) (by decide) (by decide),
        heye (by decide) 0 rfl,
        hchest (by decide) (by decide) (by decide) rfl (by decide) (by decide) (by decide)
          (by decide)⟩⟩

/-! ## The scenario of the specification -/

/-- C13: for the scenario ground contact, state playing, ball seen 50 ms ago, feature seen
500 ms ago, role striker, battery 0.82, two teammates, game-controller packet age 0 (with a
time-out that is not negative), whistle 9999 ms ago, mode active, no penalty, not charging,
packets not exhausted: the left eye is white, the right eye red, the left ear has exactly the
cells at 0, 36, 72, 108 degrees on and the others off, the right ear has exactly the cells
0 to 8 on, the chest has green on with red and blue off, every head-ring cell is off, and no
LED is fast-blinking. -/
theorem C13_scenario_playing_striker (cfg : Config) (inp : Input) (c : Nat) (v : LedStates)
    (hcfg : cfg.WellFormed) (htime : 0 ≤ cfg.gameControllerTimeOut)
    (hcontact : inp.contact = true) (hstate : inp.state = STATE_PLAYING)
    (hball : inp.timeSinceBallSeen = 50) (hfeat : inp.timeSinceFeatureSeen = 500)
    (hrole : inp.role = PlayerRole.RoleType.striker) (hbat : inp.batteryLevel = 82 / 100)
    (hteam : inp.numberOfTeammates = 2) (hpacket : inp.timeSinceLastPacket = 0)
    (hwhistle : inp.timeSinceWhistle = 9999) (hmode : inp.mode = RobotInfo.Mode.active)
    (hpen : inp.penalty = PENALTY_NONE) (hch : inp.batteryCharging = false)
    (hout : inp.outOfPackets = false) :
    ∃ r, update cfg inp c v = some r ∧
      (∀ i, i < 8 →
        (r.2 (faceLeftRed0Deg + i), r.2 (faceLeftGreen0Deg + i), r.2 (faceLeftBlue0Deg + i)) =
          (LEDState.on, LEDState.on, LEDState.on)) ∧
      (∀ i, i < 8 →
        (r.2 (faceRightRed0Deg + i), r.2 (faceRightGreen0Deg + i),
          r.2 (faceRightBlue0Deg + i)) = (LEDState.on, LEDState.off, LEDState.off)) ∧
      (∀ i, i < 10 →
        r.2 (earsLeft0Deg + i) = if i ≤ 3 then LEDState.on else LEDState.off) ∧
      countOn r.2 earsLeft0Deg 10 = 4 ∧
      (∀ i, i < 10 →
        r.2 (earsRight0Deg + i) = if i ≤ 8 then LEDState.on else LEDState.off) ∧
      countOn r.2 earsRight0Deg 10 = 9 ∧
      (r.2 chestRed, r.2 chestGreen, r.2 chestBlue) =
        (LEDState.off, LEDState.on, LEDState.off) ∧
      (∀ j, headRearLeft0 ≤ j → j ≤ headMiddleLeft0 → r.2 j = LEDState.off) ∧
      ∀ j, j < numOfLEDs → r.2 j ≠ LEDState.fastBlinking := by
  have hw : ¬ inp.timeSinceWhistle < 200 := by
    rw [hwhistle]
    decide
  have hs : inp.state ≠ STATE_STANDBY := by
    rw [hstate]
    decide
  obtain ⟨r, hu, hnoFB⟩ := update_noFB cfg inp c v hw
  obtain ⟨r1, hu1, hleft⟩ := update_leftEye_cells cfg inp c v hcfg hcontact hs
  obtain ⟨r2, hu2, hright⟩ := update_rightEye_cells cfg inp c v hcfg hs
  obtain ⟨r3, w, hu3, hoff, hlear⟩ := update_leftEar cfg inp c v hcfg hw
  obtain ⟨r4, hu4, -, hrear, -⟩ :=
    update_rightEar_floor cfg inp c v hcfg (by rw [hbat]; norm_num)
      (batteryQuotient_fits _ (by rw [hbat]; norm_num) (by rw [hbat]; norm_num)) hw
  obtain ⟨r5, hu5, hchest⟩ := update_chest cfg inp c v hcfg hw
  obtain ⟨r6, hu6, -, hhead⟩ := update_not_charging cfg inp c v hch
  have e1 := update_unique _ _ _ _ r r1 hu hu1
  have e2 := update_unique _ _ _ _ r r2 hu hu2
  have e3 := update_unique _ _ _ _ r r3 hu hu3
  have e4 := update_unique _ _ _ _ r r4 hu hu4
  have e5 := update_unique _ _ _ _ r r5 hu hu5
  have e6 := update_unique _ _ _ _ r r6 hu hu6
  subst e1
  subst e2
  subst e3
  subst e4
  subst e5
  subst e6
  have hfloor : truncToInt (floatDiv (binary32Round inp.batteryLevel) pointOneF) = 8 := by
    rw [(truncToInt_batteryQuotient _ (by rw [hbat]; norm_num)
      (batteryQuotient_fits _ (by rw [hbat]; norm_num) (by rw [hbat]; norm_num))).1,
      hbat, batteryQuotient_82, Int.floor_eq_iff]
    norm_num
  have hlcells : ∀ i, i < 10 →
      r.2 (earsLeft0Deg + i) = if i ≤ 3 then LEDState.on else LEDState.off := by
    obtain ⟨c0, c1, c2, c3, c4, c5, c6, c7, c8, c9⟩ := setLeftEar_cells cfg inp w hoff
    have hnb : ¬ cfg.gameControllerTimeOut < inp.timeSinceLastPacket := by
      rw [hpacket]
      omega
    simp only [hteam, if_neg hnb, Nat.lt_irrefl, if_false, if_true, Nat.zero_lt_succ,
      Nat.one_lt_two, Nat.reduceLT] at c0 c1 c2 c3 c4 c5 c6 c7 c8 c9
    intro i hi
    rw [hlear _ (by simp) (by simp; omega)]
    simp only [earsLeft0Deg, earsLeft36Deg, earsLeft72Deg, earsLeft108Deg, earsLeft144Deg,
      earsLeft180Deg, earsLeft216Deg, earsLeft252Deg, earsLeft288Deg, earsLeft324Deg]
      at c0 c1 c2 c3 c4 c5 c6 c7 c8 c9 ⊢
    interval_cases i <;> simp only [Nat.reduceAdd, Nat.reduceLeDiff, if_true, if_false] <;>
      assumption
  have hrcells : ∀ i, i < 10 →
      r.2 (earsRight0Deg + i) = if i ≤ 8 then LEDState.on else LEDState.off := by
    intro i hi
    rw [hrear i hi, hfloor]
    split_ifs <;> first | rfl | (exfalso; omega)
  refine ⟨r, hu, fun i hi => ?_, fun i hi => ?_, hlcells, ?_, hrcells, ?_, ?_,
    fun j hj hj' => ?_, hnoFB⟩
  · rw [hleft i hi, hball, hfeat]
    decide
  · rw [hright i hi, hrole]
  · rw [countOn_initial r.2 earsLeft0Deg 3 10 hlcells]
    decide
  · rw [countOn_initial r.2 earsRight0Deg 8 10 hrcells]
    decide
  · rw [hchest, hmode]
    simp only [hpen, hstate]
    decide
  · rw [hhead j hj hj', hout]
    simp

/-- Witness of C13: the sample snapshot and the sample configuration are the scenario. -/
theorem C13_scenario_playing_striker_witness :
    sampleConfig.WellFormed ∧ 0 ≤ sampleConfig.gameControllerTimeOut ∧
    sampleInput.contact = true ∧ sampleInput.state = STATE_PLAYING ∧
    sampleInput.timeSinceBallSeen = 50 ∧ sampleInput.timeSinceFeatureSeen = 500 ∧
    sampleInput.role = PlayerRole.RoleType.striker ∧ sampleInput.batteryLevel = 82 / 100 ∧
    sampleInput.numberOfTeammates = 2 ∧ sampleInput.timeSinceLastPacket = 0 ∧
    sampleInput.timeSinceWhistle = 9999 ∧ sampleInput.mode = RobotInfo.Mode.active ∧
    sampleInput.penalty = PENALTY_NONE ∧ sampleInput.batteryCharging = false ∧
    sampleInput.outOfPackets = false ∧
    ∃ r, update sampleConfig sampleInput 0 (fun _ => LEDState.fastBlinking) = some r ∧
      countOn r.2 earsLeft0Deg 10 = 4 ∧ countOn r.2 earsRight0Deg 10 = 9 ∧
      (r.2 chestRed, r.2 chestGreen, r.2 chestBlue) =
        (LEDState.off, LEDState.on, LEDState.off) :=
  ⟨by decide, by decide, rfl, rfl, rfl, rfl, rfl, rfl, rfl, rfl, rfl, rfl, rfl, rfl, rfl,
    match C13_scenario_playing_striker sampleConfig sampleInput 0
      (fun _ => LEDState.fastBlinking) (by decide) (by decide) rfl rfl rfl rfl rfl rfl rfl rfl
      rfl rfl rfl rfl rfl with
    | ⟨r, hu, _, _, _, hl, _, hr, hc, _, _⟩ => ⟨r, hu, hl, hr, hc⟩⟩

end LEDHandler
